import Mathlib

/-!
# ASU client command channel (`xasu_client.c`)

A shallow embedding of the client side of the shared-memory command channel
between the application processor and the ASU coprocessor, followed by the
properties established about it.

Conventions of the embedding:

* machine words are `Nat` (unsigned) or `Int` (`s32` status codes); the only
  unsigned subtraction of the source, `XASU_MAX_BUFFERS - 1U`, is taken
  modulo `2 ^ 32`;
* the process-wide singletons (`ClientInstance`, `RecvDone`, and of
  `MailboxInstance` the registration of the receive handler) and the shared
  memory are fields of one explicit `World`;
* the external collaborators (register read, sleep, mailbox driver,
  coprocessor) take their outcomes from an environment passed as an argument,
  and every call to one of them is appended to `World.Trace`;
* the busy wait `while (!RecvDone);` is a fuelled loop; a result of `none`
  means that the caller is still blocked when the fuel is used up.
-/

namespace XAsu

/-! ## Constants -/

/-- Constants used by `xasu_client.c` whose declarations live in headers that
are not part of the sources at hand (`xstatus.h`, `xasu_status.h`,
`xasu_sharedmem.h`, `xasu_def.h`).  They are parameters of the embedding. -/
structure Platform where
  XST_SUCCESS : Int
  XST_FAILURE : Int
  XASU_ASUFW_NOT_PRESENT : Int
  XASU_MAX_BUFFERS : Nat
  XASU_COMMAND_IS_PRESENT : Nat
  XASU_PRIORITY_HIGH : Nat
  XASU_PRIORITY_LOW : Nat
  XMAILBOX_RECV_HANDLER : Nat

/-- The C truth value `TRUE` of `xil_types.h`. -/
def TRUE : Nat := 1

/-- The C truth value `FALSE` of `xil_types.h`. -/
def FALSE : Nat := 0

/-- P0 queue shared memory. -/
def XASU_SHARED_MEMORY_P0_CH_QUEUE : Nat := 0xEBE415B8

/-- P1 queue shared memory. -/
def XASU_SHARED_MEMORY_P1_CH_QUEUE : Nat := 0xEBE41ADC

/-- To indicate queue full state (declared by the source, used nowhere). -/
def XASU_QUEUE_BUFFER_FULL : Nat := 0xFF

/-- To indicate Client is ready. -/
def XASU_CLIENT_READY : Nat := 0xFFFFFFFF

/-- ASU IPI interrupt mask. -/
def XASU_TARGET_IPI_INT_MASK : Nat := 1

/-- ASU GLOBAL register base address. -/
def ASU_GLOBAL_BASEADDR : Nat := 0xEBF80000

/-- ASU GLOBAL CNTRL register address. -/
def ASU_GLOBAL_GLOBAL_CNTRL : Nat := ASU_GLOBAL_BASEADDR + 0x00000000

/-- ASU FW Present mask value. -/
def ASU_GLOBAL_GLOBAL_CNTRL_FW_IS_PRESENT_MASK : Nat := 0x10

/-- ASUFW check timeout value. -/
def XASU_ASUFW_BIT_CHECK_TIMEOUT_VALUE : Nat := 0xFFFFF

/-- The value of the C expression `XASU_MAX_BUFFERS - 1U` in 32-bit unsigned
arithmetic. -/
def lastIndex (P : Platform) : Nat :=
  (P.XASU_MAX_BUFFERS + 4294967295) % 4294967296

/-! ## Data model -/

/-- One request/response slot of a channel queue.  The payload buffers are
opaque words. -/
structure XAsu_ChannelQueueBuf where
  ReqBufStatus : Nat
  RespBufStatus : Nat
  ReqBuf : List Nat
  RespBuf : List Nat
deriving DecidableEq, Repr

/-- The channel queue of one priority class, resident in shared memory. -/
structure XAsu_ChannelQueue where
  IsCmdPresent : Nat
  ChannelQueueBufs : Nat → XAsu_ChannelQueueBuf

/-- The shared memory, as a typed view: the channel queue found at an
address.  Different addresses are different cells. -/
abbrev SharedMem := Nat → XAsu_ChannelQueue

/-- Client-side cursor state of one priority class: the address of its
channel queue and the index of the next free slot. -/
structure XAsu_QueueInfo where
  ChannelQueue : Nat
  NextFreeIndex : Nat
deriving DecidableEq, Repr

/-- Values of the field `XMailbox *MailboxPtr`. -/
inductive MailboxRef where
  | NULL
  | MailboxInstance
deriving DecidableEq, Repr

/-- The client instance (`XAsu_Client`). -/
structure XAsu_Client where
  MailboxPtr : MailboxRef
  P0Queue : XAsu_QueueInfo
  P1Queue : XAsu_QueueInfo
  IsReady : Nat
deriving DecidableEq, Repr

/-- The two `XAsu_QueueInfo` objects of the client instance.  A value of type
`XAsu_QueueInfo *` is an `Option QueueId`, `none` being `NULL`. -/
inductive QueueId where
  | P0Queue
  | P1Queue
deriving DecidableEq, Repr

/-- A non-`NULL` value of type `XAsu_ChannelQueueBuf *`: the address of the
slot `ChannelQueueBufs[Index]` of the channel queue at `ChannelQueue`. -/
structure SlotRef where
  ChannelQueue : Nat
  Index : Nat
deriving DecidableEq, Repr

/-- Calls made to the external collaborators.  `XMailbox_Send` records the
shared memory as it stands when the doorbell rings. -/
inductive Event where
  | Xil_In32 (Addr : Nat)
  | usleep (Useconds : Nat)
  | XMailbox_Initialize (DeviceId : Nat)
  | XMailbox_SetCallBack (HandlerType : Nat)
  | XMailbox_Send (RemoteId : Nat) (Is_Blocking : Nat) (Shared : SharedMem)

/-- Everything the client code reads or writes: the static `ClientInstance`,
the completion flag `RecvDone`, whether the mailbox driver holds
`XAsu_DoorBellToClient` as its receive handler, the shared memory, and the
log of external calls. -/
structure World where
  ClientInstance : XAsu_Client
  RecvDone : Nat
  RecvHandler : Bool
  Shared : SharedMem
  Trace : List Event

/-- The zero-initialised client instance (`static XAsu_Client ClientInstance = {0U}`). -/
def ClientInstance0 : XAsu_Client :=
  { MailboxPtr := MailboxRef.NULL
    P0Queue := { ChannelQueue := 0, NextFreeIndex := 0 }
    P1Queue := { ChannelQueue := 0, NextFreeIndex := 0 }
    IsReady := 0 }

/-- The state at program start, over a given shared memory. -/
def World0 (Shared : SharedMem) : World :=
  { ClientInstance := ClientInstance0
    RecvDone := FALSE
    RecvHandler := false
    Shared := Shared
    Trace := [] }

/-- Dereference of a non-`NULL` `XAsu_QueueInfo *`. -/
def XAsu_Client.queue (c : XAsu_Client) : QueueId → XAsu_QueueInfo
  | QueueId.P0Queue => c.P0Queue
  | QueueId.P1Queue => c.P1Queue

/-- Assignment to `QueueInfo->NextFreeIndex`. -/
def XAsu_Client.setNextFreeIndex (c : XAsu_Client) (q : QueueId) (n : Nat) : XAsu_Client :=
  match q with
  | QueueId.P0Queue => { c with P0Queue := { c.P0Queue with NextFreeIndex := n } }
  | QueueId.P1Queue => { c with P1Queue := { c.P1Queue with NextFreeIndex := n } }

/-- Assignment to `ChannelQueueBufs[idx].RespBufStatus` in the queue at `addr`. -/
def SharedMem.setRespBufStatus (m : SharedMem) (addr idx v : Nat) : SharedMem :=
  Function.update m addr
    { m addr with
      ChannelQueueBufs :=
        Function.update (m addr).ChannelQueueBufs idx
          { (m addr).ChannelQueueBufs idx with RespBufStatus := v } }

/-- Assignment to `ChannelQueueBufs[idx].ReqBufStatus` in the queue at `addr`. -/
def SharedMem.setReqBufStatus (m : SharedMem) (addr idx v : Nat) : SharedMem :=
  Function.update m addr
    { m addr with
      ChannelQueueBufs :=
        Function.update (m addr).ChannelQueueBufs idx
          { (m addr).ChannelQueueBufs idx with ReqBufStatus := v } }

/-- Assignment to `IsCmdPresent` of the queue at `addr`. -/
def SharedMem.setIsCmdPresent (m : SharedMem) (addr v : Nat) : SharedMem :=
  Function.update m addr { m addr with IsCmdPresent := v }

/-- Append one external call to the log. -/
def World.log (w : World) (e : Event) : World :=
  { w with Trace := w.Trace ++ [e] }

/-! ## External collaborators -/

/-- Outcomes of the external collaborators during one call of
`XAsu_ClientInit`: the word returned by the `k`-th read of the ASU global
control register, the status of `XMailbox_Initialize` for a device identifier,
and the status of `XMailbox_SetCallBack`. -/
structure InitEnv where
  Xil_In32 : Nat → Nat
  XMailbox_Initialize : Nat → Int
  XMailbox_SetCallBack : Int

/-- Outcomes of the external collaborators during one call of
`XAsu_UpdateQueueBufferNSendIpi`: the status of `XMailbox_Send`, the number of
polls of `RecvDone` that pass before the coprocessor raises its completion
interrupt (`none`: it never does), and what the coprocessor has written to the
shared memory by then. -/
structure SubmitEnv where
  XMailbox_Send : Int
  IrqAfter : Option Nat
  Coprocessor : SharedMem → SharedMem

/-- Modelled from the spec: the register access primitive `Xil_In32`, which is
not under src/ ("assumed atomic single-word read").  The `k`-th read made by
a call yields the word supplied by the environment. -/
def Xil_In32 (E : InitEnv) (k : Nat) (Addr : Nat) (w : World) : Nat × World :=
  (E.Xil_In32 k, w.log (Event.Xil_In32 Addr))

/-- Modelled from the spec: the sleep primitive `usleep`, which is not under
src/; it lets time pass and touches nothing of the session. -/
def usleep (Useconds : Nat) (w : World) : World :=
  w.log (Event.usleep Useconds)

/-- Modelled from the spec: `XMailbox_Initialize` of the mailbox driver, which
is not under src/ ("initialize(device_id) -> handle"); its status is supplied
by the environment. -/
def XMailbox_Initialize (E : InitEnv) (DeviceId : Nat) (w : World) : Int × World :=
  (E.XMailbox_Initialize DeviceId, w.log (Event.XMailbox_Initialize DeviceId))

/-- Modelled from the spec: `XMailbox_SetCallBack` of the mailbox driver, which
is not under src/ ("registers a handler invoked when the coprocessor signals
completion").  Its status is supplied by the environment, and the driver
holds the handler once it has reported success. -/
def XMailbox_SetCallBack (P : Platform) (E : InitEnv) (HandlerType : Nat) (w : World) :
    Int × World :=
  (E.XMailbox_SetCallBack,
    { w.log (Event.XMailbox_SetCallBack HandlerType) with
      RecvHandler := w.RecvHandler || decide (E.XMailbox_SetCallBack = P.XST_SUCCESS) })

/-- Modelled from the spec: `XMailbox_Send` of the mailbox driver, which is not
under src/ ("triggers the IPI line"); its status is supplied by the
environment, and the coprocessor sees the shared memory of that moment. -/
def XMailbox_Send (E : SubmitEnv) (RemoteId : Nat) (Is_Blocking : Nat) (w : World) :
    Int × World :=
  (E.XMailbox_Send, w.log (Event.XMailbox_Send RemoteId Is_Blocking w.Shared))

/-! ## The client code -/

/-- The receive handler: `RecvDone = TRUE`. -/
def XAsu_DoorBellToClient (w : World) : World :=
  { w with RecvDone := TRUE }

/-- Modelled from the spec: the coprocessor and the interrupt path of the
mailbox driver, neither of which is under src/.  At the completion interrupt
the coprocessor's writes to the shared memory are visible and the driver
invokes the registered receive handler, if there is one ("registers a handler
invoked when the coprocessor signals completion"). -/
def World.interrupt (E : SubmitEnv) (w : World) : World :=
  let w1 := { w with Shared := E.Coprocessor w.Shared }
  if w1.RecvHandler then XAsu_DoorBellToClient w1 else w1

/-- The loop of `XAsu_CheckAsufwPrsntBit`, with `Remaining` iterations left
before `Timeout` reaches `XASU_ASUFW_BIT_CHECK_TIMEOUT_VALUE`. -/
def XAsu_CheckAsufwPrsntBit.loop (P : Platform) (E : InitEnv) :
    (Remaining : Nat) → (Timeout : Nat) → World → Int × World
  | 0, _, w => (P.XST_FAILURE, w)
  | Remaining + 1, Timeout, w =>
    let r := Xil_In32 E Timeout ASU_GLOBAL_GLOBAL_CNTRL w
    if r.1 &&& ASU_GLOBAL_GLOBAL_CNTRL_FW_IS_PRESENT_MASK
        = ASU_GLOBAL_GLOBAL_CNTRL_FW_IS_PRESENT_MASK then
      (P.XST_SUCCESS, r.2)
    else
      XAsu_CheckAsufwPrsntBit.loop P E Remaining (Timeout + 1) (usleep 1 r.2)

/-- Status based on presence of the ASUFW application. -/
def XAsu_CheckAsufwPrsntBit (P : Platform) (E : InitEnv) (w : World) : Int × World :=
  XAsu_CheckAsufwPrsntBit.loop P E XASU_ASUFW_BIT_CHECK_TIMEOUT_VALUE 0 w

/-- Initialisation of the client instance. -/
def XAsu_ClientInit (P : Platform) (E : InitEnv) (DeviceId : Nat) (w : World) : Int × World :=
  if w.ClientInstance.IsReady = XASU_CLIENT_READY then
    (P.XST_SUCCESS, w)
  else
    let r := XAsu_CheckAsufwPrsntBit P E w
    if r.1 ≠ P.XST_SUCCESS then
      (P.XASU_ASUFW_NOT_PRESENT, r.2)
    else
      let i := XMailbox_Initialize E DeviceId r.2
      if i.1 ≠ P.XST_SUCCESS then
        i
      else
        let c : XAsu_Client :=
          { MailboxPtr := MailboxRef.MailboxInstance
            P0Queue :=
              { ChannelQueue := XASU_SHARED_MEMORY_P0_CH_QUEUE, NextFreeIndex := 0 }
            P1Queue :=
              { ChannelQueue := XASU_SHARED_MEMORY_P1_CH_QUEUE, NextFreeIndex := 0 }
            IsReady := XASU_CLIENT_READY }
        XMailbox_SetCallBack P E P.XMAILBOX_RECV_HANDLER { i.2 with ClientInstance := c }

/-- Whether the requested queue is full:
`(NextFreeIndex <= (XASU_MAX_BUFFERS - 1U)) ? FALSE : TRUE`. -/
def XAsu_IsChannelQueueFull (P : Platform) (QueueInfo : XAsu_QueueInfo) : Nat :=
  if QueueInfo.NextFreeIndex ≤ lastIndex P then FALSE else TRUE

/-- Pointer to the free slot of the requested queue, or `NULL`. -/
def XAsu_GetChannelQueueBuf (P : Platform) (QueueInfo : Option QueueId) (w : World) :
    Option SlotRef :=
  match QueueInfo with
  | none => none
  | some q =>
    if XAsu_IsChannelQueueFull P (w.ClientInstance.queue q) ≠ TRUE then
      some { ChannelQueue := (w.ClientInstance.queue q).ChannelQueue
             Index := (w.ClientInstance.queue q).NextFreeIndex }
    else
      none

/-- Pointer to the `XAsu_QueueInfo` of the given priority, or `NULL`. -/
def XAsu_GetQueueInfo (P : Platform) (QueuePriority : Nat) : Option QueueId :=
  if QueuePriority = P.XASU_PRIORITY_HIGH then some QueueId.P0Queue
  else if QueuePriority = P.XASU_PRIORITY_LOW then some QueueId.P1Queue
  else none

/-- Sends an IPI request to ASU. -/
def XAsu_SendIpi (P : Platform) (E : SubmitEnv) (w : World) : Int × World :=
  if w.ClientInstance.IsReady ≠ XASU_CLIENT_READY then
    (P.XST_FAILURE, w)
  else
    XMailbox_Send E XASU_TARGET_IPI_INT_MASK FALSE w

/-- The busy wait `while (!RecvDone);`.  `Polls` counts the reads of the flag
made so far; the completion interrupt is taken just before the read numbered
`IrqAfter`.  `none`: still blocked when the fuel is used up. -/
def XAsu_WaitRecvDone (E : SubmitEnv) : (Fuel : Nat) → (Polls : Nat) → World → Option World
  | 0, _, _ => none
  | Fuel + 1, Polls, w =>
    let w1 := if E.IrqAfter = some Polls then w.interrupt E else w
    if w1.RecvDone ≠ 0 then some w1
    else XAsu_WaitRecvDone E Fuel (Polls + 1) w1

/-- The statements of `XAsu_UpdateQueueBufferNSendIpi` from the slot update
up to, and excluding, the doorbell: the two status words of the slot, the
cursor, and `IsCmdPresent`. -/
def XAsu_UpdateQueueBuffer (P : Platform) (q : QueueId) (QueueBufPtr : SlotRef)
    (w : World) : World :=
  let m1 := w.Shared.setRespBufStatus QueueBufPtr.ChannelQueue QueueBufPtr.Index 0
  let m2 := m1.setReqBufStatus QueueBufPtr.ChannelQueue QueueBufPtr.Index
    P.XASU_COMMAND_IS_PRESENT
  let n := (w.ClientInstance.queue q).NextFreeIndex
  let c := w.ClientInstance.setNextFreeIndex q (if n = lastIndex P then 0 else n + 1)
  { w with
    ClientInstance := c
    Shared := m2.setIsCmdPresent (c.queue q).ChannelQueue TRUE }

/-- Updates the queue buffer status to notify the request is present and
generates a door bell to ASU.  `none`: the caller is still blocked in the busy
wait when the fuel is used up. -/
def XAsu_UpdateQueueBufferNSendIpi (P : Platform) (E : SubmitEnv) (Fuel : Nat)
    (QueueInfo : Option QueueId) (w : World) : Option (Int × World) :=
  match QueueInfo with
  | none => some (P.XST_FAILURE, w)
  | some q =>
    match XAsu_GetChannelQueueBuf P (some q) w with
    | none => some (P.XST_FAILURE, w)
    | some QueueBufPtr =>
      let r := XAsu_SendIpi P E (XAsu_UpdateQueueBuffer P q QueueBufPtr w)
      if r.1 ≠ P.XST_SUCCESS then
        some r
      else
        match XAsu_WaitRecvDone E Fuel 0 r.2 with
        | none => none
        | some w1 => some (r.1, { w1 with RecvDone := FALSE })

/-! ## Callers -/

/-- A caller that submits one command after the other: for each entry it
looks up the slot with `XAsu_GetChannelQueueBuf`, then calls
`XAsu_UpdateQueueBufferNSendIpi` on the same queue handle.  It reports, per
call, the slot that was looked up and the status returned, and the final
state.  `none`: one of the calls is still blocked when its fuel is used up. -/
def submissions (P : Platform) (Fuel : Nat) :
    List (Option QueueId × SubmitEnv) → World → Option (List (Option SlotRef × Int) × World)
  | [], w => some ([], w)
  | (QueueInfo, E) :: rest, w =>
    match XAsu_UpdateQueueBufferNSendIpi P E Fuel QueueInfo w with
    | none => none
    | some r =>
      match submissions P Fuel rest r.2 with
      | none => none
      | some rs => some ((XAsu_GetChannelQueueBuf P QueueInfo w, r.1) :: rs.1, rs.2)

/-- One step of a client program or of its environment: a call of one of the
four entry points of the client, together with the outcomes of the external
collaborators during that call, or a completion interrupt taken between two
calls. -/
inductive Call where
  | ClientInit (E : InitEnv) (DeviceId : Nat)
  | GetQueueInfo (QueuePriority : Nat)
  | GetChannelQueueBuf (QueueInfo : Option QueueId)
  | UpdateQueueBufferNSendIpi (E : SubmitEnv) (Fuel : Nat) (QueueInfo : Option QueueId)
  | interrupt (E : SubmitEnv)

/-- The state after one step.  `XAsu_GetQueueInfo` and
`XAsu_GetChannelQueueBuf` only compute a pointer: the source assigns to
nothing but their local variable, so the state after them is the state
before.  `none`: a submission that is still blocked when its fuel is used
up. -/
def Call.run (P : Platform) : Call → World → Option World
  | Call.ClientInit E DeviceId, w => some (XAsu_ClientInit P E DeviceId w).2
  | Call.GetQueueInfo _, w => some w
  | Call.GetChannelQueueBuf _, w => some w
  | Call.UpdateQueueBufferNSendIpi E Fuel QueueInfo, w =>
    match XAsu_UpdateQueueBufferNSendIpi P E Fuel QueueInfo w with
    | none => none
    | some r => some r.2
  | Call.interrupt E, w => some (w.interrupt E)

/-- The state after a sequence of steps. -/
def runCalls (P : Platform) : List Call → World → Option World
  | [], w => some w
  | c :: cs, w =>
    match c.run P w with
    | none => none
    | some w1 => runCalls P cs w1

/-- Whether an entry of the log is a register read. -/
def Event.isRead : Event → Bool
  | Event.Xil_In32 _ => true
  | _ => false

/-- What `XAsu_CheckAsufwPrsntBit` adds to the log when it makes `k` polls
that show the bit clear: `k` times a read of the control register followed by
a sleep of one time unit. -/
def clearPolls : Nat → List Event
  | 0 => []
  | k + 1 =>
    Event.Xil_In32 ASU_GLOBAL_GLOBAL_CNTRL :: Event.usleep 1 :: clearPolls k

/-- A mock coprocessor that completes the command in slot `Index` of the
channel queue at `ChannelQueue` by writing the response payload `R` into the
response buffer of that slot, and nothing else. -/
def completeWith (ChannelQueue Index : Nat) (R : List Nat) (m : SharedMem) : SharedMem :=
  Function.update m ChannelQueue
    { m ChannelQueue with
      ChannelQueueBufs :=
        Function.update (m ChannelQueue).ChannelQueueBufs Index
          { (m ChannelQueue).ChannelQueueBufs Index with RespBuf := R } }

/-- A caller's write of the request payload `Req` into the request buffer of
a slot it has acquired. -/
def World.writeReqBuf (w : World) (s : SlotRef) (Req : List Nat) : World :=
  { w with
    Shared :=
      Function.update w.Shared s.ChannelQueue
        { w.Shared s.ChannelQueue with
          ChannelQueueBufs :=
            Function.update (w.Shared s.ChannelQueue).ChannelQueueBufs s.Index
              { (w.Shared s.ChannelQueue).ChannelQueueBufs s.Index with ReqBuf := Req } } }

/-! ## Sample inputs -/

/-- A sample platform with eight slots per queue. -/
def samplePlatform : Platform :=
  { XST_SUCCESS := 0
    XST_FAILURE := 1
    XASU_ASUFW_NOT_PRESENT := 0x10
    XASU_MAX_BUFFERS := 8
    XASU_COMMAND_IS_PRESENT := 1
    XASU_PRIORITY_HIGH := 0
    XASU_PRIORITY_LOW := 1
    XMAILBOX_RECV_HANDLER := 0 }

/-- A shared memory holding zeroes. -/
def sampleShared : SharedMem := fun _ =>
  { IsCmdPresent := 0
    ChannelQueueBufs := fun _ =>
      { ReqBufStatus := 0, RespBufStatus := 0, ReqBuf := [], RespBuf := [] } }

/-- A session that is ready, with both cursors at 0, the receive handler
registered and the completion flag clear. -/
def sampleReady : World :=
  { ClientInstance :=
      { MailboxPtr := MailboxRef.MailboxInstance
        P0Queue := { ChannelQueue := XASU_SHARED_MEMORY_P0_CH_QUEUE, NextFreeIndex := 0 }
        P1Queue := { ChannelQueue := XASU_SHARED_MEMORY_P1_CH_QUEUE, NextFreeIndex := 0 }
        IsReady := XASU_CLIENT_READY }
    RecvDone := FALSE
    RecvHandler := true
    Shared := sampleShared
    Trace := [] }

/-- The firmware is present at the first read, and the mailbox driver
succeeds. -/
def sampleInitEnv : InitEnv :=
  { Xil_In32 := fun _ => 0x10
    XMailbox_Initialize := fun _ => 0
    XMailbox_SetCallBack := 0 }

/-- The firmware-presence bit is never set. -/
def sampleAbsentEnv : InitEnv :=
  { Xil_In32 := fun _ => 0
    XMailbox_Initialize := fun _ => 0
    XMailbox_SetCallBack := 0 }

/-- The doorbell is sent and the coprocessor completes at once, leaving the
shared memory as it is. -/
def sampleSubmitEnv : SubmitEnv :=
  { XMailbox_Send := 0
    IrqAfter := some 0
    Coprocessor := fun m => m }

/-- The mailbox driver fails to send the doorbell. -/
def sampleFailedSendEnv : SubmitEnv :=
  { XMailbox_Send := 1
    IrqAfter := none
    Coprocessor := fun m => m }

/-- The firmware is present at the first read, and `XMailbox_Initialize`
fails. -/
def sampleInitializeFailsEnv : InitEnv :=
  { Xil_In32 := fun _ => 0x10
    XMailbox_Initialize := fun _ => 1
    XMailbox_SetCallBack := 0 }

/-- The firmware is present at the first read and `XMailbox_Initialize`
succeeds, but `XMailbox_SetCallBack` fails. -/
def sampleSetCallBackFailsEnv : InitEnv :=
  { Xil_In32 := fun _ => 0x10
    XMailbox_Initialize := fun _ => 0
    XMailbox_SetCallBack := 1 }

/-- The doorbell is sent and the coprocessor completes at once by writing the
response payload `[7, 7]` into slot 0 of the high-priority channel queue. -/
def sampleRoundTripEnv : SubmitEnv :=
  { XMailbox_Send := 0
    IrqAfter := some 0
    Coprocessor := completeWith XASU_SHARED_MEMORY_P0_CH_QUEUE 0 [7, 7] }

/-- A client program: an initialisation, a lookup of the high-priority queue
and of its free slot, and nine submissions on that queue, each completed at
once. -/
def sampleCalls : List Call :=
  Call.ClientInit sampleInitEnv 0 :: Call.GetQueueInfo 0 ::
    Call.GetChannelQueueBuf (some QueueId.P0Queue) ::
    List.replicate 9 (Call.UpdateQueueBufferNSendIpi sampleSubmitEnv 1 (some QueueId.P0Queue))

/-- A client program: an initialisation and eight submissions on the
high-priority queue whose doorbell the mailbox driver fails to send. -/
def sampleUnservedCalls : List Call :=
  Call.ClientInit sampleInitEnv 0 ::
    List.replicate 8 (Call.UpdateQueueBufferNSendIpi sampleFailedSendEnv 0
      (some QueueId.P0Queue))

/-- Whether an entry of the log is a sleep. -/
def Event.isSleep : Event → Bool
  | Event.usleep _ => true
  | _ => false

/-- The doorbell is sent, and the coprocessor never signals completion. -/
def sampleNoCompletionEnv : SubmitEnv :=
  { XMailbox_Send := 0
    IrqAfter := none
    Coprocessor := fun m => m }

/-! ## RSA driver (`xsecure_rsa.c`) -/

/-- Constants that `xsecure_rsa.c` takes from headers outside the sources at
hand (`xstatus.h`, `xsecure_rsa.h`, `xsecure_rsa_core.h`), and the table that
`XSecure_RsaGetTPadding` returns.  They are parameters of the embedding. -/
structure RsaPlatform where
  XST_SUCCESS : Int
  XST_FAILURE : Int
  XSECURE_RSA_INVALID_PARAM : Int
  XSECURE_RSA_STATE_MISMATCH_ERROR : Int
  XSECURE_RSA_DATA_VALUE_ERROR : Int
  XSECURE_RSA_INITIALIZED : Nat
  XSECURE_RSA_SIGN_ENC : Nat
  XSECURE_RSA_SIGN_DEC : Nat
  XSECURE_HASH_TYPE_SHA3 : Nat
  XSECURE_FSBL_SIG_SIZE : Nat
  XSECURE_RSA_BYTE_PAD_LENGTH : Nat
  XSECURE_RSA_T_PAD_LENGTH : Nat
  XSECURE_RSA_BYTE_PAD1 : Nat
  XSECURE_RSA_BYTE_PAD2 : Nat
  XSECURE_RSA_BYTE_PAD3 : Nat
  XSecure_RsaGetTPadding : Nat → Nat

/-- The fields of the `XSecure_Rsa` instance that the functions at hand
read. -/
structure XSecure_Rsa where
  RsaState : Nat
  ModAddr : Nat
  ModExtAddr : Nat
  ModExpoAddr : Nat
deriving DecidableEq, Repr

/-- Calls made by the RSA driver to its external collaborators. -/
inductive RsaEvent where
  | XSecure_InByte64 (Addr : Nat)
  | XSecure_RsaOperation (Input : Nat) (Result : Nat) (RsaOp : Nat) (Size : Nat)
deriving DecidableEq, Repr

/-- Whether an entry of the log is a call of `XSecure_RsaOperation`. -/
def RsaEvent.isOperation : RsaEvent → Bool
  | RsaEvent.XSecure_RsaOperation _ _ _ _ => true
  | _ => false

/-- The memory, one byte per address, and the log of external calls. -/
structure RsaWorld where
  Mem : Nat → Nat
  Trace : List RsaEvent

/-- The hardware operation `XSecure_RsaOperation`, which is not among the
sources at hand, as a parameter: the status it returns and the memory it
leaves, for an instance, an input address, a result address, an operation
code, a size and the memory it finds. -/
abbrev RsaOperation := XSecure_Rsa → Nat → Nat → Nat → Nat → (Nat → Nat) → Int × (Nat → Nat)

/-- Sum of two addresses in 64-bit unsigned arithmetic. -/
def add64 (a b : Nat) : Nat := (a + b) % 18446744073709551616

/-- Difference of two values in 32-bit unsigned arithmetic. -/
def sub32 (a b : Nat) : Nat := (a % 4294967296 + 4294967296 - b % 4294967296) % 4294967296

/-- The byte read at a 64-bit address by `XSecure_InByte64` of
`xsecure_utils.h`, which is not among the sources at hand: the content of the
memory at that address, in the range of the `u8` result. -/
def XSecure_InByte64 (Addr : Nat) (w : RsaWorld) : Nat × RsaWorld :=
  (w.Mem Addr % 256, { w with Trace := w.Trace ++ [RsaEvent.XSecure_InByte64 Addr] })

/-- A call of the hardware operation: it is logged, and status and memory
are those of the parameter. -/
def XSecure_RsaOperation (Op : RsaOperation) (InstancePtr : XSecure_Rsa)
    (Input Result RsaOp Size : Nat) (w : RsaWorld) : Int × RsaWorld :=
  ((Op InstancePtr Input Result RsaOp Size w.Mem).1,
    { Mem := (Op InstancePtr Input Result RsaOp Size w.Mem).2
      Trace := w.Trace ++ [RsaEvent.XSecure_RsaOperation Input Result RsaOp Size] })

/-- The loop of `XSecure_IsNonZeroBuffer`, with `Remaining` iterations left. -/
def XSecure_IsNonZeroBuffer.loop (R : RsaPlatform) (Data : Nat) (w : RsaWorld) :
    (Remaining : Nat) → (Index : Nat) → Int
  | 0, _ => R.XST_FAILURE
  | Remaining + 1, Index =>
    if w.Mem (Data + Index) % 256 ≠ 0 then R.XST_SUCCESS
    else XSecure_IsNonZeroBuffer.loop R Data w Remaining (Index + 1)

/-- Checks if the data in the provided buffer is non-zero. -/
def XSecure_IsNonZeroBuffer (R : RsaPlatform) (Data Size : Nat) (w : RsaWorld) : Int :=
  XSecure_IsNonZeroBuffer.loop R Data w Size 0

/-- The comparison loop of `XSecure_RsaPrivateDecrypt_64Bit`, with `Remaining`
iterations left and `Status` as it stands on entry to the loop. -/
def XSecure_RsaPrivateDecrypt_64Bit.loop (R : RsaPlatform) (Op : RsaOperation)
    (InstancePtr : XSecure_Rsa) (Input Size Result ModAddr : Nat) (Status : Int) :
    (Remaining : Nat) → (Idx : Nat) → RsaWorld → Int × RsaWorld
  | 0, _, w => (Status, w)
  | Remaining + 1, Idx, w =>
    let ModData := XSecure_InByte64 (add64 ModAddr Idx) w
    let InputData := XSecure_InByte64 (add64 Input Idx) ModData.2
    if ModData.1 > InputData.1 then
      XSecure_RsaOperation Op InstancePtr Input Result R.XSECURE_RSA_SIGN_DEC Size InputData.2
    else if ModData.1 < InputData.1 then
      (Status, InputData.2)
    else
      XSecure_RsaPrivateDecrypt_64Bit.loop R Op InstancePtr Input Size Result ModAddr Status
        Remaining (Idx + 1) InputData.2

/-- RSA decryption with the private key components, for data at a 64-bit
address.  The instance pointer is `none` when it is `NULL`. -/
def XSecure_RsaPrivateDecrypt_64Bit (R : RsaPlatform) (Op : RsaOperation)
    (InstancePtr : Option XSecure_Rsa) (Input Size Result : Nat) (w : RsaWorld) :
    Int × RsaWorld :=
  match InstancePtr with
  | none => (R.XSECURE_RSA_INVALID_PARAM, w)
  | some Inst =>
    if Result = 0 ∨ Input = 0 ∨ Size = 0 then
      (R.XSECURE_RSA_INVALID_PARAM, w)
    else if Inst.RsaState ≠ R.XSECURE_RSA_INITIALIZED then
      (R.XSECURE_RSA_STATE_MISMATCH_ERROR, w)
    else
      let Status := XSecure_IsNonZeroBuffer R Inst.ModExpoAddr Size w
      if Status ≠ R.XST_SUCCESS then
        (R.XSECURE_RSA_INVALID_PARAM, w)
      else
        XSecure_RsaPrivateDecrypt_64Bit.loop R Op Inst Input Size Result Inst.ModAddr Status
          Size 0 w

/-- The three comparison loops of `XSecure_RsaSignVerification_64Bit` have
one shape: with `Remaining` iterations left, the byte at `PadIndex` is
compared with the byte that `Expected` yields for `SignIndex`, and on a
match `PadIndex` and `SignIndex` step on.  The result is the `PadIndex` and
the `SignIndex` reached, or `none` after a mismatch (`goto ENDF`). -/
def XSecure_RsaSignVerification_64Bit.loop (Expected : Nat → RsaWorld → Nat × RsaWorld) :
    (Remaining : Nat) → (SignIndex : Nat) → (PadIndex : Nat) → RsaWorld →
      Option (Nat × Nat) × RsaWorld
  | 0, SignIndex, PadIndex, w => (some (PadIndex, SignIndex), w)
  | Remaining + 1, SignIndex, PadIndex, w =>
    let s := XSecure_InByte64 PadIndex w
    let e := Expected SignIndex s.2
    if s.1 ≠ e.1 then (none, e.2)
    else
      XSecure_RsaSignVerification_64Bit.loop Expected Remaining (SignIndex + 1)
        (add64 PadIndex 1) e.2

/-- Verifies the RSA decrypted data at a 64-bit address against the expected
hash, taking care of the PKCS padding. -/
def XSecure_RsaSignVerification_64Bit (R : RsaPlatform) (Signature Hash HashLen : Nat)
    (w : RsaWorld) : Int × RsaWorld :=
  if Signature = 0 ∨ Hash = 0 ∨ HashLen ≠ R.XSECURE_HASH_TYPE_SHA3 then
    (R.XSECURE_RSA_INVALID_PARAM, w)
  else
    let PadLength :=
      sub32 (sub32 (sub32 R.XSECURE_FSBL_SIG_SIZE R.XSECURE_RSA_BYTE_PAD_LENGTH)
        R.XSECURE_RSA_T_PAD_LENGTH) HashLen
    let b1 := XSecure_InByte64 Signature w
    if R.XSECURE_RSA_BYTE_PAD1 ≠ b1.1 then (R.XST_FAILURE, b1.2)
    else
      let b2 := XSecure_InByte64 (add64 Signature 1) b1.2
      if R.XSECURE_RSA_BYTE_PAD2 ≠ b2.1 then (R.XST_FAILURE, b2.2)
      else
        let l1 := XSecure_RsaSignVerification_64Bit.loop
          (fun _ v => (R.XSECURE_RSA_BYTE_PAD3, v)) PadLength 0
          (add64 (add64 Signature 1) 1) b2.2
        match l1.1 with
        | none => (R.XST_FAILURE, l1.2)
        | some (PadIndex1, _) =>
          let b3 := XSecure_InByte64 PadIndex1 l1.2
          if R.XSECURE_RSA_BYTE_PAD1 ≠ b3.1 then (R.XST_FAILURE, b3.2)
          else
            let l2 := XSecure_RsaSignVerification_64Bit.loop
              (fun SignIndex v => (R.XSecure_RsaGetTPadding SignIndex, v))
              R.XSECURE_RSA_T_PAD_LENGTH 0 (add64 PadIndex1 1) b3.2
            match l2.1 with
            | none => (R.XST_FAILURE, l2.2)
            | some (PadIndex2, _) =>
              let l3 := XSecure_RsaSignVerification_64Bit.loop
                (fun SignIndex v => XSecure_InByte64 (add64 Hash SignIndex) v)
                HashLen 0 PadIndex2 l2.2
              match l3.1 with
              | none => (R.XST_FAILURE, l3.2)
              | some (_, SignIndex) =>
                if SignIndex = HashLen then (R.XST_SUCCESS, l3.2) else (R.XST_FAILURE, l3.2)

/-- The bytes that `XSecure_InByte64` yields at `n` consecutive addresses
from `Addr` on. -/
def bytesAt (Mem : Nat → Nat) (Addr n : Nat) : List Nat :=
  (List.range n).map (fun i => Mem (add64 Addr i) % 256)

/-- The unsigned integer that a list of bytes denotes, most significant byte
first. -/
def beValue : List Nat → Nat
  | [] => 0
  | b :: bs => b * 256 ^ bs.length + beValue bs

/-- A sample platform for the RSA driver, with a signature of eight bytes: a
hash of two bytes, a table of two bytes and one byte `0xFF` of padding. -/
def sampleRsaPlatform : RsaPlatform :=
  { XST_SUCCESS := 0
    XST_FAILURE := 1
    XSECURE_RSA_INVALID_PARAM := 2
    XSECURE_RSA_STATE_MISMATCH_ERROR := 3
    XSECURE_RSA_DATA_VALUE_ERROR := 4
    XSECURE_RSA_INITIALIZED := 0x5A5A5A5A
    XSECURE_RSA_SIGN_ENC := 0
    XSECURE_RSA_SIGN_DEC := 1
    XSECURE_HASH_TYPE_SHA3 := 2
    XSECURE_FSBL_SIG_SIZE := 8
    XSECURE_RSA_BYTE_PAD_LENGTH := 3
    XSECURE_RSA_T_PAD_LENGTH := 2
    XSECURE_RSA_BYTE_PAD1 := 0x00
    XSECURE_RSA_BYTE_PAD2 := 0x01
    XSECURE_RSA_BYTE_PAD3 := 0xFF
    XSecure_RsaGetTPadding := fun i => if i = 0 then 0x30 else 0x41 }

/-- A hardware operation that reports success and leaves the memory alone. -/
def sampleRsaOperation : RsaOperation := fun _ _ _ _ _ m => (0, m)

/-- An initialised instance with the modulus at `0x100` and the exponent at
`0x300`. -/
def sampleRsa : XSecure_Rsa :=
  { RsaState := 0x5A5A5A5A, ModAddr := 0x100, ModExtAddr := 0, ModExpoAddr := 0x300 }

/-- A memory holding the one-byte modulus 5 at `0x100`, the one-byte input 7
at `0x200`, the one-byte exponent 1 at `0x300`, the signature
`00 01 FF 00 30 41 AA BB` at `0x400` and the hash `AA BB` at `0x500`. -/
def sampleRsaMem : Nat → Nat := fun a =>
  if a = 0x100 then 5 else if a = 0x200 then 7 else if a = 0x300 then 1
  else if a = 0x401 then 0x01 else if a = 0x402 then 0xFF
  else if a = 0x404 then 0x30 else if a = 0x405 then 0x41
  else if a = 0x406 then 0xAA else if a = 0x407 then 0xBB
  else if a = 0x500 then 0xAA else if a = 0x501 then 0xBB else 0

/-- The sample memory with an empty log. -/
def sampleRsaWorld : RsaWorld := { Mem := sampleRsaMem, Trace := [] }

/-! ## Auxiliary lemmas -/

/-- When the capacity is a positive 32-bit value, `XASU_MAX_BUFFERS - 1U` is
the predecessor of the capacity. -/
theorem lastIndex_eq (P : Platform) (h1 : 1 ≤ P.XASU_MAX_BUFFERS)
    (h2 : P.XASU_MAX_BUFFERS < 4294967296) : lastIndex P = P.XASU_MAX_BUFFERS - 1 := by
  unfold lastIndex
  omega

/-- The full test yields one of the two truth values. -/
theorem XAsu_IsChannelQueueFull_cases (P : Platform) (Q : XAsu_QueueInfo) :
    (Q.NextFreeIndex ≤ lastIndex P ∧ XAsu_IsChannelQueueFull P Q = FALSE) ∨
    (lastIndex P < Q.NextFreeIndex ∧ XAsu_IsChannelQueueFull P Q = TRUE) := by
  unfold XAsu_IsChannelQueueFull
  by_cases h : Q.NextFreeIndex ≤ lastIndex P
  · left; simp [h]
  · right; simp [h]; omega

/-- A slot is found exactly when the cursor is at most `XASU_MAX_BUFFERS - 1U`. -/
theorem XAsu_GetChannelQueueBuf_some (P : Platform) (q : QueueId) (w : World)
    (h : (w.ClientInstance.queue q).NextFreeIndex ≤ lastIndex P) :
    XAsu_GetChannelQueueBuf P (some q) w =
      some { ChannelQueue := (w.ClientInstance.queue q).ChannelQueue
             Index := (w.ClientInstance.queue q).NextFreeIndex } := by
  simp [XAsu_GetChannelQueueBuf, XAsu_IsChannelQueueFull, h, TRUE, FALSE]

theorem XAsu_Client.queue_setNextFreeIndex (c : XAsu_Client) (q : QueueId) (n : Nat) :
    (c.setNextFreeIndex q n).queue q =
      { ChannelQueue := (c.queue q).ChannelQueue, NextFreeIndex := n } := by
  cases q <;> rfl

theorem XAsu_Client.setNextFreeIndex_self (c : XAsu_Client) (q : QueueId) :
    c.setNextFreeIndex q (c.queue q).NextFreeIndex = c := by
  cases q <;> rfl

theorem XAsu_Client.setNextFreeIndex_twice (c : XAsu_Client) (q : QueueId) (a b : Nat) :
    (c.setNextFreeIndex q a).setNextFreeIndex q b = c.setNextFreeIndex q b := by
  cases q <;> rfl

theorem XAsu_Client.IsReady_setNextFreeIndex (c : XAsu_Client) (q : QueueId) (n : Nat) :
    (c.setNextFreeIndex q n).IsReady = c.IsReady := by
  cases q <;> rfl

/-- The interrupt leaves the client instance, the handler registration and
the log alone, and never clears the completion flag. -/
theorem World.interrupt_frame (E : SubmitEnv) (w : World) :
    (w.interrupt E).ClientInstance = w.ClientInstance ∧
    (w.interrupt E).RecvHandler = w.RecvHandler ∧
    (w.interrupt E).Trace = w.Trace ∧
    (w.RecvDone ≠ 0 → (w.interrupt E).RecvDone ≠ 0) ∧
    (w.RecvDone ≤ 1 → (w.interrupt E).RecvDone ≤ 1) ∧
    (w.RecvHandler = true → (w.interrupt E).RecvDone = TRUE) := by
  unfold World.interrupt XAsu_DoorBellToClient
  cases h : w.RecvHandler <;> simp [h, TRUE]

/-- What the busy wait leaves behind when it ends. -/
theorem XAsu_WaitRecvDone_frame (E : SubmitEnv) (Fuel : Nat) :
    ∀ (Polls : Nat) (w w1 : World), XAsu_WaitRecvDone E Fuel Polls w = some w1 →
      w1.ClientInstance = w.ClientInstance ∧ w1.RecvHandler = w.RecvHandler ∧
      w1.Trace = w.Trace ∧ w1.RecvDone ≠ 0 ∧ (w.RecvDone ≤ 1 → w1.RecvDone = TRUE) := by
  induction Fuel with
  | zero => intro Polls w w1 h; simp [XAsu_WaitRecvDone] at h
  | succ Fuel ih =>
    intro Polls w w1 h
    have key : ∀ w0 : World, w0.ClientInstance = w.ClientInstance →
        w0.RecvHandler = w.RecvHandler → w0.Trace = w.Trace →
        (w.RecvDone ≤ 1 → w0.RecvDone ≤ 1) →
        (if w0.RecvDone ≠ 0 then some w0 else XAsu_WaitRecvDone E Fuel (Polls + 1) w0) = some w1 →
        w1.ClientInstance = w.ClientInstance ∧ w1.RecvHandler = w.RecvHandler ∧
        w1.Trace = w.Trace ∧ w1.RecvDone ≠ 0 ∧ (w.RecvDone ≤ 1 → w1.RecvDone = TRUE) := by
      intro w0 hc hh ht hr h0
      by_cases hd : w0.RecvDone ≠ 0
      · rw [if_pos hd] at h0
        cases h0
        refine ⟨hc, hh, ht, hd, fun hle => ?_⟩
        have := hr hle
        unfold TRUE
        omega
      · rw [if_neg hd] at h0
        obtain ⟨a, b, c, d, e⟩ := ih (Polls + 1) w0 w1 h0
        refine ⟨a.trans hc, b.trans hh, c.trans ht, d, fun hle => e (hr hle)⟩
    unfold XAsu_WaitRecvDone at h
    by_cases hi : E.IrqAfter = some Polls
    · simp only [hi, if_true] at h
      obtain ⟨a, b, c, _, e, _⟩ := World.interrupt_frame E w
      exact key _ a b c e h
    · simp only [hi, if_false] at h
      exact key _ rfl rfl rfl id h

/-- The busy wait ends when the receive handler is registered and the
completion interrupt arrives within the fuel. -/
theorem XAsu_WaitRecvDone_returns (E : SubmitEnv) (d : Nat) (hd : E.IrqAfter = some d)
    (Fuel : Nat) :
    ∀ (Polls : Nat) (w : World), w.RecvHandler = true → Polls ≤ d → d - Polls < Fuel →
      ∃ w1, XAsu_WaitRecvDone E Fuel Polls w = some w1 := by
  induction Fuel with
  | zero => intro Polls w _ _ h; omega
  | succ Fuel ih =>
    intro Polls w hH hle hlt
    unfold XAsu_WaitRecvDone
    by_cases hi : Polls = d
    · subst hi
      simp only [hd, if_true]
      have := (World.interrupt_frame E w).2.2.2.2.2 hH
      simp [this, TRUE]
    · have hne : E.IrqAfter ≠ some Polls := by
        rw [hd]; intro c; exact hi (Option.some.inj c).symm
      simp only [hne, if_false]
      by_cases h0 : w.RecvDone ≠ 0
      · exact ⟨w, by rw [if_pos h0]⟩
      · rw [if_neg h0]
        exact ih (Polls + 1) w hH (by omega) (by omega)

/-- The doorbell leaves everything but the log as it is. -/
theorem XAsu_SendIpi_frame (P : Platform) (E : SubmitEnv) (w : World) :
    (XAsu_SendIpi P E w).2.ClientInstance = w.ClientInstance ∧
    (XAsu_SendIpi P E w).2.RecvHandler = w.RecvHandler ∧
    (XAsu_SendIpi P E w).2.RecvDone = w.RecvDone ∧
    (XAsu_SendIpi P E w).2.Shared = w.Shared := by
  unfold XAsu_SendIpi
  by_cases h : w.ClientInstance.IsReady ≠ XASU_CLIENT_READY
  · rw [if_pos h]; exact ⟨rfl, rfl, rfl, rfl⟩
  · rw [if_neg h]; exact ⟨rfl, rfl, rfl, rfl⟩

/-- On a ready session the doorbell is one call of `XMailbox_Send`, which
sees the shared memory of the moment, and its status is returned. -/
theorem XAsu_SendIpi_ready (P : Platform) (E : SubmitEnv) (w : World)
    (h : w.ClientInstance.IsReady = XASU_CLIENT_READY) :
    XAsu_SendIpi P E w =
      (E.XMailbox_Send,
        w.log (Event.XMailbox_Send XASU_TARGET_IPI_INT_MASK FALSE w.Shared)) := by
  simp [XAsu_SendIpi, XMailbox_Send, h]

/-- Without readiness no doorbell is attempted. -/
theorem XAsu_SendIpi_not_ready (P : Platform) (E : SubmitEnv) (w : World)
    (h : w.ClientInstance.IsReady ≠ XASU_CLIENT_READY) :
    XAsu_SendIpi P E w = (P.XST_FAILURE, w) := by
  simp [XAsu_SendIpi, h]

/-- The shared memory after the slot update: the slot under the cursor shows
response-empty and request-full, and the channel shows a command. -/
theorem XAsu_UpdateQueueBuffer_shared (P : Platform) (q : QueueId) (w : World) :
    let a := (w.ClientInstance.queue q).ChannelQueue
    let n := (w.ClientInstance.queue q).NextFreeIndex
    let m := (XAsu_UpdateQueueBuffer P q { ChannelQueue := a, Index := n } w).Shared
    ((m a).ChannelQueueBufs n).RespBufStatus = 0 ∧
    ((m a).ChannelQueueBufs n).ReqBufStatus = P.XASU_COMMAND_IS_PRESENT ∧
    (m a).IsCmdPresent = TRUE := by
  intro a n m
  have ha : ((w.ClientInstance.setNextFreeIndex q
      (if n = lastIndex P then 0 else n + 1)).queue q).ChannelQueue = a := by
    rw [XAsu_Client.queue_setNextFreeIndex]
  simp only [m, XAsu_UpdateQueueBuffer, SharedMem.setRespBufStatus, SharedMem.setReqBufStatus,
    SharedMem.setIsCmdPresent]
  rw [ha]
  simp [Function.update_same]

/-- With the cursor at most `XASU_MAX_BUFFERS - 1U`, a submission that returns
has advanced that cursor and nothing else of the client instance, and its
status is the one of the doorbell. -/
theorem XAsu_UpdateQueueBufferNSendIpi_frame (P : Platform) (E : SubmitEnv) (Fuel : Nat)
    (q : QueueId) (w : World) (r : Int × World)
    (hn : (w.ClientInstance.queue q).NextFreeIndex ≤ lastIndex P)
    (h : XAsu_UpdateQueueBufferNSendIpi P E Fuel (some q) w = some r) :
    r.2.ClientInstance =
        w.ClientInstance.setNextFreeIndex q
          (if (w.ClientInstance.queue q).NextFreeIndex = lastIndex P then 0
           else (w.ClientInstance.queue q).NextFreeIndex + 1) ∧
      r.2.RecvHandler = w.RecvHandler ∧
      r.1 = (XAsu_SendIpi P E (XAsu_UpdateQueueBuffer P q
        { ChannelQueue := (w.ClientInstance.queue q).ChannelQueue
          Index := (w.ClientInstance.queue q).NextFreeIndex } w)).1 := by
  simp only [XAsu_UpdateQueueBufferNSendIpi, XAsu_GetChannelQueueBuf_some P q w hn] at h
  obtain ⟨a, b, _, _⟩ := XAsu_SendIpi_frame P E (XAsu_UpdateQueueBuffer P q
    { ChannelQueue := (w.ClientInstance.queue q).ChannelQueue
      Index := (w.ClientInstance.queue q).NextFreeIndex } w)
  split at h
  · cases h
    exact ⟨a, b, rfl⟩
  · split at h
    · cases h
    · rename_i w1 hw
      cases h
      obtain ⟨c, d, _⟩ := XAsu_WaitRecvDone_frame E Fuel 0 _ w1 hw
      exact ⟨c.trans a, d.trans b, rfl⟩

/-- A submission returns when the receive handler is registered and the
completion interrupt arrives within the fuel. -/
theorem XAsu_UpdateQueueBufferNSendIpi_returns (P : Platform) (E : SubmitEnv) (Fuel : Nat)
    (QueueInfo : Option QueueId) (w : World) (hH : w.RecvHandler = true) (d : Nat)
    (hd : E.IrqAfter = some d) (hlt : d < Fuel) :
    ∃ r, XAsu_UpdateQueueBufferNSendIpi P E Fuel QueueInfo w = some r := by
  unfold XAsu_UpdateQueueBufferNSendIpi
  cases QueueInfo with
  | none => exact ⟨_, rfl⟩
  | some q =>
    simp only
    cases XAsu_GetChannelQueueBuf P (some q) w with
    | none => exact ⟨_, rfl⟩
    | some s =>
      simp only
      split
      · exact ⟨_, rfl⟩
      · have hH2 : (XAsu_SendIpi P E (XAsu_UpdateQueueBuffer P q s w)).2.RecvHandler = true :=
          (XAsu_SendIpi_frame P E _).2.1.trans hH
        obtain ⟨w1, hw1⟩ := XAsu_WaitRecvDone_returns E d hd Fuel 0 _ hH2 (Nat.zero_le _)
          (by omega)
        rw [hw1]
        exact ⟨_, rfl⟩

/-- The cursor step of the source is the successor modulo the capacity. -/
theorem nextIndex_eq_mod (P : Platform) (n : Nat) (h1 : 1 ≤ P.XASU_MAX_BUFFERS)
    (h2 : P.XASU_MAX_BUFFERS < 4294967296) (hn : n < P.XASU_MAX_BUFFERS) :
    (if n = lastIndex P then 0 else n + 1) = (n + 1) % P.XASU_MAX_BUFFERS := by
  rw [lastIndex_eq P h1 h2]
  by_cases h : n = P.XASU_MAX_BUFFERS - 1
  · rw [if_pos h]
    have : n + 1 = P.XASU_MAX_BUFFERS := by omega
    rw [this, Nat.mod_self]
  · rw [if_neg h, Nat.mod_eq_of_lt (by omega)]

/-- Consecutive submissions on one queue: when the cursor `n` is below the
capacity, the receive handler is registered and every completion interrupt
arrives within the fuel, all calls return, the `i`-th one having looked up
slot `(n + i) mod capacity`, and the cursor ends at `(n + k) mod capacity`
with the rest of the client instance as before.  On a ready session whose
doorbells are all sent, every status is `XST_SUCCESS`. -/
theorem submissions_same_queue (P : Platform) (Fuel : Nat) (q : QueueId)
    (h1 : 1 ≤ P.XASU_MAX_BUFFERS) (h2 : P.XASU_MAX_BUFFERS < 4294967296)
    (Es : List SubmitEnv) :
    ∀ (w : World), (w.ClientInstance.queue q).NextFreeIndex < P.XASU_MAX_BUFFERS →
      w.RecvHandler = true → (∀ E ∈ Es, ∃ d, E.IrqAfter = some d ∧ d < Fuel) →
      ∃ rs w1, submissions P Fuel (Es.map (fun E => (some q, E))) w = some (rs, w1) ∧
        rs.map Prod.fst = (List.range Es.length).map (fun i =>
          some { ChannelQueue := (w.ClientInstance.queue q).ChannelQueue
                 Index := ((w.ClientInstance.queue q).NextFreeIndex + i)
                   % P.XASU_MAX_BUFFERS }) ∧
        w1.ClientInstance = w.ClientInstance.setNextFreeIndex q
          (((w.ClientInstance.queue q).NextFreeIndex + Es.length) % P.XASU_MAX_BUFFERS) ∧
        w1.RecvHandler = true ∧
        (w.ClientInstance.IsReady = XASU_CLIENT_READY →
          (∀ E ∈ Es, E.XMailbox_Send = P.XST_SUCCESS) →
          rs.map Prod.snd = List.replicate Es.length P.XST_SUCCESS) := by
  induction Es with
  | nil =>
    intro w hn hH _
    refine ⟨[], w, rfl, rfl, ?_, hH, fun _ _ => rfl⟩
    simp only [List.length_nil, Nat.add_zero, Nat.mod_eq_of_lt hn]
    exact (XAsu_Client.setNextFreeIndex_self _ q).symm
  | cons E Es ih =>
    intro w hn hH hE
    have hle : (w.ClientInstance.queue q).NextFreeIndex ≤ lastIndex P := by
      rw [lastIndex_eq P h1 h2]; omega
    obtain ⟨d, hd, hlt⟩ := hE E (List.mem_cons_self _ _)
    obtain ⟨r, hr⟩ := XAsu_UpdateQueueBufferNSendIpi_returns P E Fuel (some q) w hH d hd hlt
    obtain ⟨hc, hh, hs⟩ := XAsu_UpdateQueueBufferNSendIpi_frame P E Fuel q w r hle hr
    rw [nextIndex_eq_mod P _ h1 h2 hn] at hc
    have hq : r.2.ClientInstance.queue q =
        { ChannelQueue := (w.ClientInstance.queue q).ChannelQueue
          NextFreeIndex := ((w.ClientInstance.queue q).NextFreeIndex + 1)
            % P.XASU_MAX_BUFFERS } := by
      rw [hc, XAsu_Client.queue_setNextFreeIndex]
    have hn2 : (r.2.ClientInstance.queue q).NextFreeIndex < P.XASU_MAX_BUFFERS := by
      rw [hq]; exact Nat.mod_lt _ (by omega)
    obtain ⟨rs, w1, hsub, hfst, hcl, hH1, hst⟩ := ih r.2 hn2 (hh.trans hH)
      (fun E2 hE2 => hE E2 (List.mem_cons_of_mem _ hE2))
    refine ⟨(XAsu_GetChannelQueueBuf P (some q) w, r.1) :: rs, w1, ?_, ?_, ?_, hH1, ?_⟩
    · simp only [List.map_cons, submissions, hr, hsub]
    · rw [List.map_cons, hfst, List.length_cons, List.range_succ_eq_map, List.map_cons,
        List.map_map, XAsu_GetChannelQueueBuf_some P q w hle, hq]
      simp only [Nat.add_zero, Nat.mod_eq_of_lt hn]
      congr 1
      apply List.map_congr_left
      intro i _
      simp only [Function.comp, Nat.mod_add_mod]
      congr 3
      omega
    · rw [hcl, hc, XAsu_Client.setNextFreeIndex_twice, XAsu_Client.queue_setNextFreeIndex]
      simp only [List.length_cons, Nat.mod_add_mod]
      congr 2
      omega
    · intro hR hS
      have hR1 : r.2.ClientInstance.IsReady = XASU_CLIENT_READY := by
        rw [hc, XAsu_Client.IsReady_setNextFreeIndex]; exact hR
      rw [List.map_cons, hst hR1 (fun E2 hE2 => hS E2 (List.mem_cons_of_mem _ hE2)),
        List.length_cons, List.replicate_succ]
      congr 1
      show r.1 = P.XST_SUCCESS
      rw [hs, XAsu_SendIpi_ready]
      · exact hS E (List.mem_cons_self _ _)
      · show (w.ClientInstance.setNextFreeIndex q _).IsReady = XASU_CLIENT_READY
        rw [XAsu_Client.IsReady_setNextFreeIndex]; exact hR

/-- The readiness probe only reads the control register and sleeps: the log
grows by such calls, and nothing else changes. -/
theorem XAsu_CheckAsufwPrsntBit.loop_frame (P : Platform) (E : InitEnv) (Remaining : Nat) :
    ∀ (Timeout : Nat) (w : World),
      (XAsu_CheckAsufwPrsntBit.loop P E Remaining Timeout w).2.ClientInstance
          = w.ClientInstance ∧
        (XAsu_CheckAsufwPrsntBit.loop P E Remaining Timeout w).2.RecvDone = w.RecvDone ∧
        (XAsu_CheckAsufwPrsntBit.loop P E Remaining Timeout w).2.RecvHandler
          = w.RecvHandler ∧
        (XAsu_CheckAsufwPrsntBit.loop P E Remaining Timeout w).2.Shared = w.Shared ∧
        ∃ T : List Event,
          (XAsu_CheckAsufwPrsntBit.loop P E Remaining Timeout w).2.Trace = w.Trace ++ T ∧
          ∀ e ∈ T, e = Event.Xil_In32 ASU_GLOBAL_GLOBAL_CNTRL ∨ e = Event.usleep 1 := by
  induction Remaining with
  | zero =>
    intro Timeout w
    exact ⟨rfl, rfl, rfl, rfl, [], (List.append_nil _).symm, fun e he => by cases he⟩
  | succ Remaining ih =>
    intro Timeout w
    unfold XAsu_CheckAsufwPrsntBit.loop
    simp only
    split
    · refine ⟨rfl, rfl, rfl, rfl, [Event.Xil_In32 ASU_GLOBAL_GLOBAL_CNTRL], rfl, ?_⟩
      intro e he
      left
      simpa using he
    · obtain ⟨a, b, c, d, T, hT, hall⟩ := ih (Timeout + 1)
        ((w.log (Event.Xil_In32 ASU_GLOBAL_GLOBAL_CNTRL)).log (Event.usleep 1))
      refine ⟨a, b, c, d,
        Event.Xil_In32 ASU_GLOBAL_GLOBAL_CNTRL :: Event.usleep 1 :: T, ?_, ?_⟩
      · show (XAsu_CheckAsufwPrsntBit.loop P E Remaining (Timeout + 1)
          ((w.log (Event.Xil_In32 ASU_GLOBAL_GLOBAL_CNTRL)).log (Event.usleep 1))).2.Trace = _
        rw [hT]
        simp [World.log]
      · intro e he
        rcases List.mem_cons.1 he with h | he
        · exact Or.inl h
        · rcases List.mem_cons.1 he with h | he
          · exact Or.inr h
          · exact hall e he

/-- When the firmware-presence bit is clear in every word the loop reads, the
probe returns `XST_FAILURE`. -/
theorem XAsu_CheckAsufwPrsntBit.loop_absent (P : Platform) (E : InitEnv) (Remaining : Nat) :
    ∀ (Timeout : Nat) (w : World),
      (∀ k, k < Timeout + Remaining →
        E.Xil_In32 k &&& ASU_GLOBAL_GLOBAL_CNTRL_FW_IS_PRESENT_MASK = 0) →
      (XAsu_CheckAsufwPrsntBit.loop P E Remaining Timeout w).1 = P.XST_FAILURE := by
  induction Remaining with
  | zero => intro Timeout w _; rfl
  | succ Remaining ih =>
    intro Timeout w hbit
    unfold XAsu_CheckAsufwPrsntBit.loop
    have : ¬ ((Xil_In32 E Timeout ASU_GLOBAL_GLOBAL_CNTRL w).1
        &&& ASU_GLOBAL_GLOBAL_CNTRL_FW_IS_PRESENT_MASK
        = ASU_GLOBAL_GLOBAL_CNTRL_FW_IS_PRESENT_MASK) := by
      show ¬ (E.Xil_In32 Timeout &&& ASU_GLOBAL_GLOBAL_CNTRL_FW_IS_PRESENT_MASK
        = ASU_GLOBAL_GLOBAL_CNTRL_FW_IS_PRESENT_MASK)
      rw [hbit Timeout (by omega)]; decide
    simp only [this, if_false]
    exact ih _ _ (fun k hk => hbit k (by omega))

/-- What a call of `XAsu_ClientInit` that starts not ready and returns
`XST_SUCCESS` leaves behind: a ready client bound to the mailbox instance and
to the two queue addresses, both cursors at 0, and the receive handler
registered; completion flag and shared memory are as before. -/
theorem XAsu_ClientInit_success (P : Platform) (E : InitEnv) (DeviceId : Nat) (w0 w : World)
    (hnp : P.XASU_ASUFW_NOT_PRESENT ≠ P.XST_SUCCESS)
    (hnr : w0.ClientInstance.IsReady ≠ XASU_CLIENT_READY)
    (h : XAsu_ClientInit P E DeviceId w0 = (P.XST_SUCCESS, w)) :
    w.ClientInstance =
        { MailboxPtr := MailboxRef.MailboxInstance
          P0Queue := { ChannelQueue := XASU_SHARED_MEMORY_P0_CH_QUEUE, NextFreeIndex := 0 }
          P1Queue := { ChannelQueue := XASU_SHARED_MEMORY_P1_CH_QUEUE, NextFreeIndex := 0 }
          IsReady := XASU_CLIENT_READY } ∧
      w.RecvHandler = true ∧ w.RecvDone = w0.RecvDone ∧ w.Shared = w0.Shared := by
  unfold XAsu_ClientInit at h
  rw [if_neg hnr] at h
  simp only at h
  obtain ⟨_, b, _, d, _⟩ := XAsu_CheckAsufwPrsntBit.loop_frame P E
    XASU_ASUFW_BIT_CHECK_TIMEOUT_VALUE 0 w0
  split at h
  · exact absurd (congrArg Prod.fst h) hnp
  · split at h
    · rename_i hs
      rw [h] at hs
      exact absurd rfl hs
    · have hst : E.XMailbox_SetCallBack = P.XST_SUCCESS := congrArg Prod.fst h
      have hw : (XMailbox_SetCallBack P E P.XMAILBOX_RECV_HANDLER _).2 = w :=
        congrArg Prod.snd h
      subst hw
      refine ⟨rfl, ?_, b, d⟩
      simp [XMailbox_SetCallBack, hst]

/-- A slot that is found is the one under the cursor, and the cursor is then
at most `XASU_MAX_BUFFERS - 1U`. -/
theorem XAsu_GetChannelQueueBuf_eq_some (P : Platform) (q : QueueId) (w : World) (s : SlotRef)
    (h : XAsu_GetChannelQueueBuf P (some q) w = some s) :
    (w.ClientInstance.queue q).NextFreeIndex ≤ lastIndex P ∧
      s = { ChannelQueue := (w.ClientInstance.queue q).ChannelQueue
            Index := (w.ClientInstance.queue q).NextFreeIndex } := by
  rcases XAsu_IsChannelQueueFull_cases P (w.ClientInstance.queue q) with ⟨hle, _⟩ | ⟨hlt, e⟩
  · rw [XAsu_GetChannelQueueBuf_some P q w hle] at h
    exact ⟨hle, (Option.some.inj h).symm⟩
  · simp [XAsu_GetChannelQueueBuf, e] at h

/-- No slot is found when the cursor is beyond `XASU_MAX_BUFFERS - 1U`. -/
theorem XAsu_GetChannelQueueBuf_eq_none (P : Platform) (q : QueueId) (w : World)
    (h : XAsu_GetChannelQueueBuf P (some q) w = none) :
    lastIndex P < (w.ClientInstance.queue q).NextFreeIndex := by
  rcases XAsu_IsChannelQueueFull_cases P (w.ClientInstance.queue q) with ⟨hle, _⟩ | ⟨hlt, _⟩
  · rw [XAsu_GetChannelQueueBuf_some P q w hle] at h
    cases h
  · exact hlt

/-- A submission that returns leaves the readiness flag and the handler
registration as they were, whatever the queue handle. -/
theorem XAsu_UpdateQueueBufferNSendIpi_IsReady (P : Platform) (E : SubmitEnv) (Fuel : Nat)
    (QueueInfo : Option QueueId) (w : World) (r : Int × World)
    (h : XAsu_UpdateQueueBufferNSendIpi P E Fuel QueueInfo w = some r) :
    r.2.ClientInstance.IsReady = w.ClientInstance.IsReady ∧
      r.2.RecvHandler = w.RecvHandler := by
  cases QueueInfo with
  | none =>
    simp only [XAsu_UpdateQueueBufferNSendIpi] at h
    cases h
    exact ⟨rfl, rfl⟩
  | some q =>
    cases hs : XAsu_GetChannelQueueBuf P (some q) w with
    | none =>
      simp only [XAsu_UpdateQueueBufferNSendIpi, hs] at h
      cases h
      exact ⟨rfl, rfl⟩
    | some s =>
      obtain ⟨hle, _⟩ := XAsu_GetChannelQueueBuf_eq_some P q w s hs
      obtain ⟨hc, hh, _⟩ := XAsu_UpdateQueueBufferNSendIpi_frame P E Fuel q w r hle h
      rw [hc, XAsu_Client.IsReady_setNextFreeIndex]
      exact ⟨rfl, hh⟩

/-- A run of submissions leaves the readiness flag as it was. -/
theorem submissions_IsReady (P : Platform) (Fuel : Nat)
    (calls : List (Option QueueId × SubmitEnv)) :
    ∀ (w : World) (rs : List (Option SlotRef × Int) × World),
      submissions P Fuel calls w = some rs →
      rs.2.ClientInstance.IsReady = w.ClientInstance.IsReady := by
  induction calls with
  | nil =>
    intro w rs h
    simp only [submissions] at h
    cases h
    rfl
  | cons c calls ih =>
    intro w rs h
    obtain ⟨QueueInfo, E⟩ := c
    simp only [submissions] at h
    cases hu : XAsu_UpdateQueueBufferNSendIpi P E Fuel QueueInfo w with
    | none => simp [hu] at h
    | some r =>
      simp only [hu] at h
      cases hr : submissions P Fuel calls r.2 with
      | none => simp [hr] at h
      | some rs1 =>
        simp only [hr] at h
        cases h
        exact (ih r.2 rs1 hr).trans (XAsu_UpdateQueueBufferNSendIpi_IsReady P E Fuel _ w r hu).1

/-- Consecutive submissions on one queue that all return, whatever their
statuses: with the cursor `n` below the capacity, the `i`-th call has looked up
slot `(n + i) mod capacity`, and the cursor ends at `(n + k) mod capacity`
with the rest of the client instance as before. -/
theorem submissions_same_queue_result (P : Platform) (Fuel : Nat) (q : QueueId)
    (h1 : 1 ≤ P.XASU_MAX_BUFFERS) (h2 : P.XASU_MAX_BUFFERS < 4294967296)
    (Es : List SubmitEnv) :
    ∀ (w : World) (rs : List (Option SlotRef × Int)) (w1 : World),
      (w.ClientInstance.queue q).NextFreeIndex < P.XASU_MAX_BUFFERS →
      submissions P Fuel (Es.map (fun E => (some q, E))) w = some (rs, w1) →
      rs.map Prod.fst = (List.range Es.length).map (fun i =>
          some { ChannelQueue := (w.ClientInstance.queue q).ChannelQueue
                 Index := ((w.ClientInstance.queue q).NextFreeIndex + i)
                   % P.XASU_MAX_BUFFERS }) ∧
        w1.ClientInstance = w.ClientInstance.setNextFreeIndex q
          (((w.ClientInstance.queue q).NextFreeIndex + Es.length) % P.XASU_MAX_BUFFERS) := by
  induction Es with
  | nil =>
    intro w rs w1 hn h
    simp only [List.map_nil, submissions] at h
    cases h
    refine ⟨rfl, ?_⟩
    simp only [List.length_nil, Nat.add_zero, Nat.mod_eq_of_lt hn]
    exact (XAsu_Client.setNextFreeIndex_self _ q).symm
  | cons E Es ih =>
    intro w rs w1 hn h
    have hle : (w.ClientInstance.queue q).NextFreeIndex ≤ lastIndex P := by
      rw [lastIndex_eq P h1 h2]; omega
    simp only [List.map_cons, submissions] at h
    cases hu : XAsu_UpdateQueueBufferNSendIpi P E Fuel (some q) w with
    | none => simp [hu] at h
    | some r =>
      simp only [hu] at h
      cases hrest : submissions P Fuel (Es.map (fun E => (some q, E))) r.2 with
      | none => simp [hrest] at h
      | some rs1 =>
        simp only [hrest] at h
        cases h
        obtain ⟨hc, _, _⟩ := XAsu_UpdateQueueBufferNSendIpi_frame P E Fuel q w r hle hu
        rw [nextIndex_eq_mod P _ h1 h2 hn] at hc
        have hq : r.2.ClientInstance.queue q =
            { ChannelQueue := (w.ClientInstance.queue q).ChannelQueue
              NextFreeIndex := ((w.ClientInstance.queue q).NextFreeIndex + 1)
                % P.XASU_MAX_BUFFERS } := by
          rw [hc, XAsu_Client.queue_setNextFreeIndex]
        have hn2 : (r.2.ClientInstance.queue q).NextFreeIndex < P.XASU_MAX_BUFFERS := by
          rw [hq]; exact Nat.mod_lt _ (by omega)
        obtain ⟨hfst, hcl⟩ := ih r.2 rs1.1 rs1.2 hn2 hrest
        constructor
        · rw [List.map_cons, hfst, List.length_cons, List.range_succ_eq_map, List.map_cons,
            List.map_map, XAsu_GetChannelQueueBuf_some P q w hle, hq]
          simp only [Nat.add_zero, Nat.mod_eq_of_lt hn]
          congr 1
          apply List.map_congr_left
          intro i _
          simp only [Function.comp, Nat.mod_add_mod]
          congr 3
          omega
        · rw [hcl, hc, XAsu_Client.setNextFreeIndex_twice, XAsu_Client.queue_setNextFreeIndex]
          simp only [List.length_cons, Nat.mod_add_mod]
          congr 2
          omega

/-- The log entries of `k` clear polls hold `k` register reads. -/
theorem clearPolls_reads (k : Nat) : ((clearPolls k).filter Event.isRead).length = k := by
  induction k with
  | zero => rfl
  | succ k ih => simp [clearPolls, Event.isRead, ih]

/-- The probe loop when the first word showing the bit is the one read after
`k` clear polls: it returns `XST_SUCCESS` right after that read. -/
theorem XAsu_CheckAsufwPrsntBit.loop_found (P : Platform) (E : InitEnv) (Remaining : Nat) :
    ∀ (Timeout : Nat) (w : World) (k : Nat), k < Remaining →
      E.Xil_In32 (Timeout + k) &&& ASU_GLOBAL_GLOBAL_CNTRL_FW_IS_PRESENT_MASK
        = ASU_GLOBAL_GLOBAL_CNTRL_FW_IS_PRESENT_MASK →
      (∀ j, j < k → ¬ (E.Xil_In32 (Timeout + j) &&& ASU_GLOBAL_GLOBAL_CNTRL_FW_IS_PRESENT_MASK
        = ASU_GLOBAL_GLOBAL_CNTRL_FW_IS_PRESENT_MASK)) →
      XAsu_CheckAsufwPrsntBit.loop P E Remaining Timeout w =
        (P.XST_SUCCESS,
          { w with Trace := w.Trace ++ (clearPolls k
              ++ [Event.Xil_In32 ASU_GLOBAL_GLOBAL_CNTRL]) }) := by
  induction Remaining with
  | zero => intro Timeout w k hk; omega
  | succ Remaining ih =>
    intro Timeout w k hk hbit hclear
    unfold XAsu_CheckAsufwPrsntBit.loop
    cases k with
    | zero =>
      have h0 : (Xil_In32 E Timeout ASU_GLOBAL_GLOBAL_CNTRL w).1
          &&& ASU_GLOBAL_GLOBAL_CNTRL_FW_IS_PRESENT_MASK
          = ASU_GLOBAL_GLOBAL_CNTRL_FW_IS_PRESENT_MASK := hbit
      simp only [h0, if_true]
      rfl
    | succ k =>
      have h0 : ¬ ((Xil_In32 E Timeout ASU_GLOBAL_GLOBAL_CNTRL w).1
          &&& ASU_GLOBAL_GLOBAL_CNTRL_FW_IS_PRESENT_MASK
          = ASU_GLOBAL_GLOBAL_CNTRL_FW_IS_PRESENT_MASK) := hclear 0 (by omega)
      simp only [h0, if_false]
      rw [ih (Timeout + 1) _ k (by omega)
        (by rw [show Timeout + 1 + k = Timeout + (k + 1) by omega]; exact hbit)
        (fun j hj => by
          rw [show Timeout + 1 + j = Timeout + (j + 1) by omega]
          exact hclear (j + 1) (by omega))]
      simp [usleep, Xil_In32, World.log, clearPolls]

/-- The probe loop when every word it reads shows the bit clear: it returns
`XST_FAILURE` after as many polls, each followed by a sleep, as it had
iterations left. -/
theorem XAsu_CheckAsufwPrsntBit.loop_exhausted (P : Platform) (E : InitEnv) (Remaining : Nat) :
    ∀ (Timeout : Nat) (w : World),
      (∀ j, j < Remaining →
        ¬ (E.Xil_In32 (Timeout + j) &&& ASU_GLOBAL_GLOBAL_CNTRL_FW_IS_PRESENT_MASK
          = ASU_GLOBAL_GLOBAL_CNTRL_FW_IS_PRESENT_MASK)) →
      XAsu_CheckAsufwPrsntBit.loop P E Remaining Timeout w =
        (P.XST_FAILURE, { w with Trace := w.Trace ++ clearPolls Remaining }) := by
  induction Remaining with
  | zero =>
    intro Timeout w _
    simp [XAsu_CheckAsufwPrsntBit.loop, clearPolls]
  | succ Remaining ih =>
    intro Timeout w hclear
    unfold XAsu_CheckAsufwPrsntBit.loop
    have h0 : ¬ ((Xil_In32 E Timeout ASU_GLOBAL_GLOBAL_CNTRL w).1
        &&& ASU_GLOBAL_GLOBAL_CNTRL_FW_IS_PRESENT_MASK
        = ASU_GLOBAL_GLOBAL_CNTRL_FW_IS_PRESENT_MASK) := hclear 0 (by omega)
    simp only [h0, if_false]
    rw [ih (Timeout + 1) _ (fun j hj => by
      rw [show Timeout + 1 + j = Timeout + (j + 1) by omega]
      exact hclear (j + 1) (by omega))]
    simp [usleep, Xil_In32, World.log, clearPolls]

/-- The probe when some word among the first `XASU_ASUFW_BIT_CHECK_TIMEOUT_VALUE`
shows the bit: it returns `XST_SUCCESS` at the first such word, having changed
nothing but the log. -/
theorem XAsu_CheckAsufwPrsntBit_present (P : Platform) (E : InitEnv) (w : World)
    (h : ∃ k, k < XASU_ASUFW_BIT_CHECK_TIMEOUT_VALUE ∧
      E.Xil_In32 k &&& ASU_GLOBAL_GLOBAL_CNTRL_FW_IS_PRESENT_MASK
        = ASU_GLOBAL_GLOBAL_CNTRL_FW_IS_PRESENT_MASK) :
    ∃ k, k < XASU_ASUFW_BIT_CHECK_TIMEOUT_VALUE ∧
      E.Xil_In32 k &&& ASU_GLOBAL_GLOBAL_CNTRL_FW_IS_PRESENT_MASK
        = ASU_GLOBAL_GLOBAL_CNTRL_FW_IS_PRESENT_MASK ∧
      (∀ j, j < k → ¬ (E.Xil_In32 j &&& ASU_GLOBAL_GLOBAL_CNTRL_FW_IS_PRESENT_MASK
        = ASU_GLOBAL_GLOBAL_CNTRL_FW_IS_PRESENT_MASK)) ∧
      XAsu_CheckAsufwPrsntBit P E w =
        (P.XST_SUCCESS,
          { w with Trace := w.Trace ++ (clearPolls k
              ++ [Event.Xil_In32 ASU_GLOBAL_GLOBAL_CNTRL]) }) := by
  have hex : ∃ k, E.Xil_In32 k &&& ASU_GLOBAL_GLOBAL_CNTRL_FW_IS_PRESENT_MASK
      = ASU_GLOBAL_GLOBAL_CNTRL_FW_IS_PRESENT_MASK := by
    obtain ⟨k, _, hk⟩ := h
    exact ⟨k, hk⟩
  obtain ⟨k, hk, hbit⟩ := h
  have hmin : ∀ j, j < Nat.find hex →
      ¬ (E.Xil_In32 j &&& ASU_GLOBAL_GLOBAL_CNTRL_FW_IS_PRESENT_MASK
        = ASU_GLOBAL_GLOBAL_CNTRL_FW_IS_PRESENT_MASK) :=
    fun j hj => Nat.find_min hex hj
  have hlt : Nat.find hex < XASU_ASUFW_BIT_CHECK_TIMEOUT_VALUE :=
    lt_of_le_of_lt (Nat.find_min' hex hbit) hk
  refine ⟨Nat.find hex, hlt, Nat.find_spec hex, hmin, ?_⟩
  unfold XAsu_CheckAsufwPrsntBit
  exact XAsu_CheckAsufwPrsntBit.loop_found P E _ 0 w (Nat.find hex) hlt
    (by rw [Nat.zero_add]; exact Nat.find_spec hex)
    (fun j hj => by rw [Nat.zero_add]; exact hmin j hj)

theorem XAsu_Client.queue_setNextFreeIndex_other (c : XAsu_Client) (q q1 : QueueId) (n : Nat)
    (h : q ≠ q1) : (c.setNextFreeIndex q n).queue q1 = c.queue q1 := by
  cases q <;> cases q1 <;> first | rfl | exact absurd rfl h

/-- The slot update writes only the channel queue the queue is bound to. -/
theorem XAsu_UpdateQueueBuffer_shared_other (P : Platform) (q : QueueId) (w : World)
    (a : Nat) (ha : a ≠ (w.ClientInstance.queue q).ChannelQueue) :
    (XAsu_UpdateQueueBuffer P q
      { ChannelQueue := (w.ClientInstance.queue q).ChannelQueue
        Index := (w.ClientInstance.queue q).NextFreeIndex } w).Shared a = w.Shared a := by
  have hb : ((w.ClientInstance.setNextFreeIndex q
      (if (w.ClientInstance.queue q).NextFreeIndex = lastIndex P then 0
       else (w.ClientInstance.queue q).NextFreeIndex + 1)).queue q).ChannelQueue
      = (w.ClientInstance.queue q).ChannelQueue := by
    rw [XAsu_Client.queue_setNextFreeIndex]
  simp only [XAsu_UpdateQueueBuffer, SharedMem.setRespBufStatus, SharedMem.setReqBufStatus,
    SharedMem.setIsCmdPresent]
  rw [hb]
  simp [Function.update_noteq ha]

/-- The slot update leaves the payload buffers of every slot as they are. -/
theorem XAsu_UpdateQueueBuffer_payload (P : Platform) (q : QueueId) (w : World) (a i : Nat) :
    (((XAsu_UpdateQueueBuffer P q
      { ChannelQueue := (w.ClientInstance.queue q).ChannelQueue
        Index := (w.ClientInstance.queue q).NextFreeIndex } w).Shared a).ChannelQueueBufs
          i).ReqBuf = ((w.Shared a).ChannelQueueBufs i).ReqBuf ∧
    (((XAsu_UpdateQueueBuffer P q
      { ChannelQueue := (w.ClientInstance.queue q).ChannelQueue
        Index := (w.ClientInstance.queue q).NextFreeIndex } w).Shared a).ChannelQueueBufs
          i).RespBuf = ((w.Shared a).ChannelQueueBufs i).RespBuf := by
  have hb : ((w.ClientInstance.setNextFreeIndex q
      (if (w.ClientInstance.queue q).NextFreeIndex = lastIndex P then 0
       else (w.ClientInstance.queue q).NextFreeIndex + 1)).queue q).ChannelQueue
      = (w.ClientInstance.queue q).ChannelQueue := by
    rw [XAsu_Client.queue_setNextFreeIndex]
  simp only [XAsu_UpdateQueueBuffer, SharedMem.setRespBufStatus, SharedMem.setReqBufStatus,
    SharedMem.setIsCmdPresent]
  rw [hb]
  by_cases ha : a = (w.ClientInstance.queue q).ChannelQueue
  · subst ha
    by_cases hi : i = (w.ClientInstance.queue q).NextFreeIndex
    · subst hi
      simp [Function.update_same]
    · simp [Function.update_same, Function.update_noteq hi]
  · simp [Function.update_noteq ha]

/-- The busy wait leaves a channel queue as it is when the coprocessor does
not write it. -/
theorem XAsu_WaitRecvDone_shared (E : SubmitEnv) (a : Nat)
    (hcop : ∀ m : SharedMem, E.Coprocessor m a = m a) (Fuel : Nat) :
    ∀ (Polls : Nat) (w w1 : World), XAsu_WaitRecvDone E Fuel Polls w = some w1 →
      w1.Shared a = w.Shared a := by
  induction Fuel with
  | zero => intro Polls w w1 h; simp [XAsu_WaitRecvDone] at h
  | succ Fuel ih =>
    intro Polls w w1 h
    have hint : (w.interrupt E).Shared a = w.Shared a := by
      unfold World.interrupt XAsu_DoorBellToClient
      cases hh : w.RecvHandler <;> simp [hh, hcop]
    unfold XAsu_WaitRecvDone at h
    by_cases hi : E.IrqAfter = some Polls
    · simp only [hi, if_true] at h
      by_cases hd : (w.interrupt E).RecvDone ≠ 0
      · rw [if_pos hd] at h
        cases h
        exact hint
      · rw [if_neg hd] at h
        exact (ih _ _ _ h).trans hint
    · simp only [hi, if_false] at h
      by_cases hd : w.RecvDone ≠ 0
      · rw [if_pos hd] at h
        cases h
        rfl
      · rw [if_neg hd] at h
        exact ih _ _ _ h

/-- The busy wait entered with the completion flag clear, the receive handler
registered and the completion interrupt arriving within the fuel: it ends
right after the interrupt, in the state the interrupt leaves. -/
theorem XAsu_WaitRecvDone_interrupt (E : SubmitEnv) (d : Nat) (hd : E.IrqAfter = some d)
    (Fuel : Nat) :
    ∀ (Polls : Nat) (w : World), w.RecvHandler = true → w.RecvDone = 0 → Polls ≤ d →
      d - Polls < Fuel → XAsu_WaitRecvDone E Fuel Polls w = some (w.interrupt E) := by
  induction Fuel with
  | zero => intro Polls w _ _ _ h; omega
  | succ Fuel ih =>
    intro Polls w hH h0 hle hlt
    unfold XAsu_WaitRecvDone
    by_cases hi : Polls = d
    · subst hi
      simp only [hd, if_true]
      have := (World.interrupt_frame E w).2.2.2.2.2 hH
      simp [this, TRUE]
    · have hne : E.IrqAfter ≠ some Polls := by
        rw [hd]; intro c; exact hi (Option.some.inj c).symm
      simp only [hne, if_false]
      have hz : ¬ (w.RecvDone ≠ 0) := not_not.2 h0
      rw [if_neg hz]
      exact ih (Polls + 1) w hH h0 (by omega) (by omega)

/-- The client instance after `XAsu_ClientInit` is the one of before or the
freshly bound one. -/
theorem XAsu_ClientInit_ClientInstance (P : Platform) (E : InitEnv) (DeviceId : Nat)
    (w : World) :
    (XAsu_ClientInit P E DeviceId w).2.ClientInstance = w.ClientInstance ∨
    (XAsu_ClientInit P E DeviceId w).2.ClientInstance =
      { MailboxPtr := MailboxRef.MailboxInstance
        P0Queue := { ChannelQueue := XASU_SHARED_MEMORY_P0_CH_QUEUE, NextFreeIndex := 0 }
        P1Queue := { ChannelQueue := XASU_SHARED_MEMORY_P1_CH_QUEUE, NextFreeIndex := 0 }
        IsReady := XASU_CLIENT_READY } := by
  obtain ⟨a, _⟩ := XAsu_CheckAsufwPrsntBit.loop_frame P E
    XASU_ASUFW_BIT_CHECK_TIMEOUT_VALUE 0 w
  unfold XAsu_ClientInit
  split
  · exact Or.inl rfl
  · simp only
    split
    · exact Or.inl a
    · split
      · exact Or.inl a
      · exact Or.inr rfl

/-- The client instance after a submission that returns is the one of before,
possibly with the cursor of the queue stepped from a value that is at most
`XASU_MAX_BUFFERS - 1U`. -/
theorem XAsu_UpdateQueueBufferNSendIpi_ClientInstance (P : Platform) (E : SubmitEnv)
    (Fuel : Nat) (QueueInfo : Option QueueId) (w : World) (r : Int × World)
    (h : XAsu_UpdateQueueBufferNSendIpi P E Fuel QueueInfo w = some r) :
    r.2.ClientInstance = w.ClientInstance ∨
    ∃ q, QueueInfo = some q ∧ (w.ClientInstance.queue q).NextFreeIndex ≤ lastIndex P ∧
      r.2.ClientInstance = w.ClientInstance.setNextFreeIndex q
        (if (w.ClientInstance.queue q).NextFreeIndex = lastIndex P then 0
         else (w.ClientInstance.queue q).NextFreeIndex + 1) := by
  cases QueueInfo with
  | none =>
    simp only [XAsu_UpdateQueueBufferNSendIpi] at h
    cases h
    exact Or.inl rfl
  | some q =>
    cases hs : XAsu_GetChannelQueueBuf P (some q) w with
    | none =>
      simp only [XAsu_UpdateQueueBufferNSendIpi, hs] at h
      cases h
      exact Or.inl rfl
    | some s =>
      obtain ⟨hle, _⟩ := XAsu_GetChannelQueueBuf_eq_some P q w s hs
      exact Or.inr ⟨q, rfl, hle, (XAsu_UpdateQueueBufferNSendIpi_frame P E Fuel q w r hle h).1⟩

/-- A submission that returns leaves a channel queue as it is when that
channel queue is not the one the queue is bound to and the coprocessor does
not write it. -/
theorem XAsu_UpdateQueueBufferNSendIpi_shared_other (P : Platform) (E : SubmitEnv)
    (Fuel : Nat) (q : QueueId) (w : World) (r : Int × World) (a : Nat)
    (h : XAsu_UpdateQueueBufferNSendIpi P E Fuel (some q) w = some r)
    (ha : a ≠ (w.ClientInstance.queue q).ChannelQueue)
    (hcop : ∀ m : SharedMem, E.Coprocessor m a = m a) :
    r.2.Shared a = w.Shared a := by
  cases hs : XAsu_GetChannelQueueBuf P (some q) w with
  | none =>
    simp only [XAsu_UpdateQueueBufferNSendIpi, hs] at h
    cases h
    rfl
  | some s =>
    obtain ⟨_, hseq⟩ := XAsu_GetChannelQueueBuf_eq_some P q w s hs
    subst hseq
    have hpre := XAsu_UpdateQueueBuffer_shared_other P q w a ha
    obtain ⟨_, _, _, hm⟩ := XAsu_SendIpi_frame P E (XAsu_UpdateQueueBuffer P q
      { ChannelQueue := (w.ClientInstance.queue q).ChannelQueue
        Index := (w.ClientInstance.queue q).NextFreeIndex } w)
    simp only [XAsu_UpdateQueueBufferNSendIpi, hs] at h
    split at h
    · cases h
      rw [hm]
      exact hpre
    · split at h
      · cases h
      · rename_i w1 hw
        cases h
        show w1.Shared a = w.Shared a
        rw [XAsu_WaitRecvDone_shared E a hcop Fuel 0 _ w1 hw, hm]
        exact hpre

/-- One step keeps both cursors below the capacity. -/
theorem Call.run_cursors (P : Platform) (h1 : 1 ≤ P.XASU_MAX_BUFFERS)
    (h32 : P.XASU_MAX_BUFFERS < 4294967296) (c : Call) (w w1 : World)
    (hinv : ∀ q, (w.ClientInstance.queue q).NextFreeIndex < P.XASU_MAX_BUFFERS)
    (h : c.run P w = some w1) :
    ∀ q, (w1.ClientInstance.queue q).NextFreeIndex < P.XASU_MAX_BUFFERS := by
  cases c with
  | ClientInit E DeviceId =>
    simp only [Call.run] at h
    cases h
    rcases XAsu_ClientInit_ClientInstance P E DeviceId w with h0 | h0
    · rw [h0]; exact hinv
    · rw [h0]
      intro q
      cases q <;> exact h1
  | GetQueueInfo p =>
    simp only [Call.run] at h
    cases h
    exact hinv
  | GetChannelQueueBuf QueueInfo =>
    simp only [Call.run] at h
    cases h
    exact hinv
  | UpdateQueueBufferNSendIpi E Fuel QueueInfo =>
    simp only [Call.run] at h
    cases hu : XAsu_UpdateQueueBufferNSendIpi P E Fuel QueueInfo w with
    | none => simp [hu] at h
    | some r =>
      simp only [hu] at h
      cases h
      rcases XAsu_UpdateQueueBufferNSendIpi_ClientInstance P E Fuel QueueInfo w r hu with
        h0 | ⟨q0, _, _, h0⟩
      · rw [h0]; exact hinv
      · rw [h0]
        intro q
        by_cases hq : q0 = q
        · subst hq
          rw [XAsu_Client.queue_setNextFreeIndex, nextIndex_eq_mod P _ h1 h32 (hinv q0)]
          exact Nat.mod_lt _ (by omega)
        · rw [XAsu_Client.queue_setNextFreeIndex_other _ _ _ _ hq]
          exact hinv q
  | interrupt E =>
    simp only [Call.run] at h
    cases h
    rw [(World.interrupt_frame E w).1]
    exact hinv

/-- A sequence of steps keeps both cursors below the capacity. -/
theorem runCalls_cursors (P : Platform) (h1 : 1 ≤ P.XASU_MAX_BUFFERS)
    (h32 : P.XASU_MAX_BUFFERS < 4294967296) (calls : List Call) :
    ∀ (w w1 : World),
      (∀ q, (w.ClientInstance.queue q).NextFreeIndex < P.XASU_MAX_BUFFERS) →
      runCalls P calls w = some w1 →
      ∀ q, (w1.ClientInstance.queue q).NextFreeIndex < P.XASU_MAX_BUFFERS := by
  induction calls with
  | nil =>
    intro w w1 hinv h
    simp only [runCalls] at h
    cases h
    exact hinv
  | cons c calls ih =>
    intro w w1 hinv h
    simp only [runCalls] at h
    cases hc : c.run P w with
    | none => simp [hc] at h
    | some w2 =>
      simp only [hc] at h
      exact ih w2 w1 (Call.run_cursors P h1 h32 c w w2 hinv hc) h

/-- Slots `(n + i) mod C` for `i` below `k ≤ C` are pairwise different. -/
theorem ring_slots_nodup (C a n k : Nat) (hk : k ≤ C) :
    ((List.range k).map (fun i =>
      some ({ ChannelQueue := a, Index := (n + i) % C } : SlotRef))).Nodup := by
  refine List.Nodup.map_on ?_ (List.nodup_range _)
  intro i hi j hj hij
  have hi2 := List.mem_range.1 hi
  have hj2 := List.mem_range.1 hj
  have hmod : (n + i) % C = (n + j) % C := congrArg SlotRef.Index (Option.some.inj hij)
  have hij2 : i % C = j % C := Nat.ModEq.add_left_cancel' _ hmod
  rwa [Nat.mod_eq_of_lt (by omega), Nat.mod_eq_of_lt (by omega)] at hij2

/-- The log entries of `k` clear polls hold `k` sleeps. -/
theorem clearPolls_sleeps (k : Nat) : ((clearPolls k).filter Event.isSleep).length = k := by
  induction k with
  | zero => rfl
  | succ k ih => simp [clearPolls, Event.isSleep, ih]

/-- The log entries of one or more clear polls end with a sleep. -/
theorem clearPolls_getLast (k : Nat) :
    (clearPolls (k + 1)).getLast? = some (Event.usleep 1) := by
  induction k with
  | zero => rfl
  | succ k ih =>
    have h : clearPolls (k + 1 + 1) =
        Event.Xil_In32 ASU_GLOBAL_GLOBAL_CNTRL :: Event.usleep 1 :: clearPolls (k + 1) := rfl
    have hne : clearPolls (k + 1) ≠ [] := by
      intro hc
      rw [hc] at ih
      cases ih
    obtain ⟨e, rest, hrest⟩ := List.exists_cons_of_ne_nil hne
    rw [h, hrest, List.getLast?_cons_cons, List.getLast?_cons_cons, ← hrest]
    exact ih

/-- The busy wait when no completion interrupt is due from the current read
on: if it ends, it ends in the state it started in, whose flag was set. -/
theorem XAsu_WaitRecvDone_no_interrupt (E : SubmitEnv) (Fuel : Nat) :
    ∀ (Polls : Nat) (w w1 : World), (∀ p, Polls ≤ p → E.IrqAfter ≠ some p) →
      XAsu_WaitRecvDone E Fuel Polls w = some w1 → w1 = w ∧ w.RecvDone ≠ 0 := by
  induction Fuel with
  | zero => intro Polls w w1 _ h; simp [XAsu_WaitRecvDone] at h
  | succ Fuel ih =>
    intro Polls w w1 hno h
    unfold XAsu_WaitRecvDone at h
    simp only [hno Polls (Nat.le_refl _), if_false] at h
    by_cases hd : w.RecvDone ≠ 0
    · rw [if_pos hd] at h
      cases h
      exact ⟨rfl, hd⟩
    · rw [if_neg hd] at h
      exact ih (Polls + 1) w w1 (fun p hp => hno p (by omega)) h

/-- The busy wait entered with the completion flag set and no interrupt due
at its first read ends at that read, in the state it started in. -/
theorem XAsu_WaitRecvDone_stale (E : SubmitEnv) (Fuel Polls : Nat) (w : World)
    (hd : w.RecvDone ≠ 0) (hno : E.IrqAfter ≠ some Polls) :
    XAsu_WaitRecvDone E (Fuel + 1) Polls w = some w := by
  unfold XAsu_WaitRecvDone
  simp only [hno, if_false]
  rw [if_pos hd]

/-- The busy wait entered with the completion flag clear never ends when no
completion interrupt comes or no receive handler is registered. -/
theorem XAsu_WaitRecvDone_blocked (E : SubmitEnv) (Fuel : Nat) :
    ∀ (Polls : Nat) (w : World), w.RecvDone = 0 →
      (E.IrqAfter = none ∨ w.RecvHandler = false) →
      XAsu_WaitRecvDone E Fuel Polls w = none := by
  induction Fuel with
  | zero => intro Polls w _ _; rfl
  | succ Fuel ih =>
    intro Polls w h0 hcase
    unfold XAsu_WaitRecvDone
    by_cases hi : E.IrqAfter = some Polls
    · rcases hcase with hnone | hH
      · rw [hnone] at hi
        cases hi
      · have hint : (w.interrupt E).RecvDone = 0 ∧ (w.interrupt E).RecvHandler = false := by
          unfold World.interrupt
          simp [hH, h0]
        simp only [hi, if_true]
        have hz : ¬ ((w.interrupt E).RecvDone ≠ 0) := not_not.2 hint.1
        rw [if_neg hz]
        exact ih (Polls + 1) _ hint.1 (Or.inr hint.2)
    · simp only [hi, if_false]
      have hz : ¬ (w.RecvDone ≠ 0) := not_not.2 h0
      rw [if_neg hz]
      exact ih (Polls + 1) w h0 hcase

/-- The busy wait entered with the completion flag clear ends only through a
completion interrupt taken during the wait, with the receive handler
registered, and then in the state that interrupt leaves. -/
theorem XAsu_WaitRecvDone_clear (E : SubmitEnv) (Fuel : Nat) :
    ∀ (Polls : Nat) (w w1 : World), w.RecvDone = 0 →
      XAsu_WaitRecvDone E Fuel Polls w = some w1 →
      ∃ d, E.IrqAfter = some d ∧ Polls ≤ d ∧ d < Polls + Fuel ∧ w.RecvHandler = true ∧
        w1 = w.interrupt E := by
  induction Fuel with
  | zero => intro Polls w w1 _ h; simp [XAsu_WaitRecvDone] at h
  | succ Fuel ih =>
    intro Polls w w1 h0 h
    cases hH : w.RecvHandler with
    | false =>
      rw [XAsu_WaitRecvDone_blocked E (Fuel + 1) Polls w h0 (Or.inr hH)] at h
      cases h
    | true =>
      unfold XAsu_WaitRecvDone at h
      by_cases hi : E.IrqAfter = some Polls
      · simp only [hi, if_true] at h
        have hset : (w.interrupt E).RecvDone ≠ 0 := by
          rw [(World.interrupt_frame E w).2.2.2.2.2 hH]
          decide
        rw [if_pos hset] at h
        cases h
        exact ⟨Polls, hi, Nat.le_refl _, by omega, rfl, rfl⟩
      · simp only [hi, if_false] at h
        have hz : ¬ (w.RecvDone ≠ 0) := not_not.2 h0
        rw [if_neg hz] at h
        obtain ⟨d, hd, hle, hlt, _, hw1⟩ := ih (Polls + 1) w w1 h0 h
        exact ⟨d, hd, by omega, by omega, rfl, hw1⟩

/-- The shared memory after the busy wait is the one of before, or what the
coprocessor made of it by the one completion interrupt. -/
theorem XAsu_WaitRecvDone_shared_cases (E : SubmitEnv) (Fuel : Nat) :
    ∀ (Polls : Nat) (w w1 : World), XAsu_WaitRecvDone E Fuel Polls w = some w1 →
      w1.Shared = w.Shared ∨ w1.Shared = E.Coprocessor w.Shared := by
  induction Fuel with
  | zero => intro Polls w w1 h; simp [XAsu_WaitRecvDone] at h
  | succ Fuel ih =>
    intro Polls w w1 h
    have hint : (w.interrupt E).Shared = E.Coprocessor w.Shared := by
      unfold World.interrupt XAsu_DoorBellToClient
      cases hh : w.RecvHandler <;> simp [hh]
    unfold XAsu_WaitRecvDone at h
    by_cases hi : E.IrqAfter = some Polls
    · simp only [hi, if_true] at h
      right
      by_cases hd : (w.interrupt E).RecvDone ≠ 0
      · rw [if_pos hd] at h
        cases h
        exact hint
      · rw [if_neg hd] at h
        have hno : ∀ p, Polls + 1 ≤ p → E.IrqAfter ≠ some p := by
          intro p hp hc
          rw [hi] at hc
          have := Option.some.inj hc
          omega
        rw [(XAsu_WaitRecvDone_no_interrupt E Fuel (Polls + 1) _ w1 hno h).1]
        exact hint
    · simp only [hi, if_false] at h
      by_cases hd : w.RecvDone ≠ 0
      · rw [if_pos hd] at h
        cases h
        exact Or.inl rfl
      · rw [if_neg hd] at h
        exact ih (Polls + 1) w w1 h

/-- The slot update leaves the completion flag, the handler registration and
the log as they are. -/
theorem XAsu_UpdateQueueBuffer_frame (P : Platform) (q : QueueId) (s : SlotRef) (w : World) :
    (XAsu_UpdateQueueBuffer P q s w).RecvDone = w.RecvDone ∧
    (XAsu_UpdateQueueBuffer P q s w).RecvHandler = w.RecvHandler ∧
    (XAsu_UpdateQueueBuffer P q s w).Trace = w.Trace ∧
    (XAsu_UpdateQueueBuffer P q s w).ClientInstance.IsReady = w.ClientInstance.IsReady := by
  refine ⟨rfl, rfl, rfl, ?_⟩
  show (w.ClientInstance.setNextFreeIndex q _).IsReady = w.ClientInstance.IsReady
  exact XAsu_Client.IsReady_setNextFreeIndex _ _ _

/-- A submission on a ready session whose slot is resolved and whose doorbell
is sent, entered with the completion flag clear, never returns when no
completion interrupt comes or no receive handler is registered. -/
theorem XAsu_UpdateQueueBufferNSendIpi_blocked (P : Platform) (E : SubmitEnv) (Fuel : Nat)
    (q : QueueId) (w : World)
    (hR : w.ClientInstance.IsReady = XASU_CLIENT_READY)
    (hn : (w.ClientInstance.queue q).NextFreeIndex ≤ lastIndex P)
    (hsend : E.XMailbox_Send = P.XST_SUCCESS) (h0 : w.RecvDone = 0)
    (hcase : E.IrqAfter = none ∨ w.RecvHandler = false) :
    XAsu_UpdateQueueBufferNSendIpi P E Fuel (some q) w = none := by
  have hs := XAsu_GetChannelQueueBuf_some P q w hn
  obtain ⟨hd, hh, _, hr⟩ := XAsu_UpdateQueueBuffer_frame P q
    { ChannelQueue := (w.ClientInstance.queue q).ChannelQueue
      Index := (w.ClientInstance.queue q).NextFreeIndex } w
  have hsendipi := XAsu_SendIpi_ready P E _ (hr.trans hR)
  have hwait := XAsu_WaitRecvDone_blocked E Fuel 0
    ((XAsu_UpdateQueueBuffer P q
      { ChannelQueue := (w.ClientInstance.queue q).ChannelQueue
        Index := (w.ClientInstance.queue q).NextFreeIndex } w).log
      (Event.XMailbox_Send XASU_TARGET_IPI_INT_MASK FALSE
        (XAsu_UpdateQueueBuffer P q
          { ChannelQueue := (w.ClientInstance.queue q).ChannelQueue
            Index := (w.ClientInstance.queue q).NextFreeIndex } w).Shared))
    (hd.trans h0) (hcase.imp id (fun hf => hh.trans hf))
  simp only [XAsu_UpdateQueueBufferNSendIpi, hs, hsendipi, hsend, ne_eq, not_true_eq_false,
    if_false, hwait]

/-- The slot update leaves every slot other than the one under the cursor as
it is. -/
theorem XAsu_UpdateQueueBuffer_other_slot (P : Platform) (q : QueueId) (w : World)
    (a i : Nat)
    (h : a ≠ (w.ClientInstance.queue q).ChannelQueue ∨
      i ≠ (w.ClientInstance.queue q).NextFreeIndex) :
    ((XAsu_UpdateQueueBuffer P q
      { ChannelQueue := (w.ClientInstance.queue q).ChannelQueue
        Index := (w.ClientInstance.queue q).NextFreeIndex } w).Shared a).ChannelQueueBufs i
      = (w.Shared a).ChannelQueueBufs i := by
  by_cases ha : a = (w.ClientInstance.queue q).ChannelQueue
  · have hi : i ≠ (w.ClientInstance.queue q).NextFreeIndex := by
      rcases h with h | h
      · exact absurd ha h
      · exact h
    subst ha
    have hb : ((w.ClientInstance.setNextFreeIndex q
        (if (w.ClientInstance.queue q).NextFreeIndex = lastIndex P then 0
         else (w.ClientInstance.queue q).NextFreeIndex + 1)).queue q).ChannelQueue
        = (w.ClientInstance.queue q).ChannelQueue := by
      rw [XAsu_Client.queue_setNextFreeIndex]
    simp only [XAsu_UpdateQueueBuffer, SharedMem.setRespBufStatus, SharedMem.setReqBufStatus,
      SharedMem.setIsCmdPresent]
    rw [hb]
    simp [Function.update_same, Function.update_noteq hi]
  · rw [XAsu_UpdateQueueBuffer_shared_other P q w a ha]

/-- A list of bytes denotes a value below `256 ^ length`. -/
theorem beValue_lt (bs : List Nat) (h : ∀ b ∈ bs, b < 256) : beValue bs < 256 ^ bs.length := by
  induction bs with
  | nil => simp [beValue]
  | cons b bs ih =>
    have hb : b < 256 := h b (List.mem_cons_self _ _)
    have ht := ih (fun c hc => h c (List.mem_cons_of_mem _ hc))
    have hmul : (b + 1) * 256 ^ bs.length ≤ 256 * 256 ^ bs.length :=
      Nat.mul_le_mul_right _ (by omega)
    rw [Nat.add_mul, Nat.one_mul] at hmul
    simp only [beValue, List.length_cons, Nat.pow_succ]
    rw [Nat.mul_comm (256 ^ bs.length) 256]
    omega

/-- The bytes read at consecutive addresses are bytes. -/
theorem bytes_lt (Mem : Nat → Nat) (f : Nat → Nat) (n : Nat) :
    ∀ b ∈ (List.range n).map (fun i => Mem (f i) % 256), b < 256 := by
  intro b hb
  obtain ⟨i, _, hi⟩ := List.mem_map.1 hb
  rw [← hi]
  exact Nat.mod_lt _ (by decide)

/-- Two lists of bytes of one length compare as their first bytes do, and as
their tails when the first bytes are equal. -/
theorem beValue_cons_compare (x y : Nat) (xs ys : List Nat) (hlen : xs.length = ys.length)
    (hxs : ∀ b ∈ xs, b < 256) (hys : ∀ b ∈ ys, b < 256) :
    (y < x → beValue (y :: ys) < beValue (x :: xs)) ∧
    (x < y → beValue (x :: xs) ≤ beValue (y :: ys) ∧ ¬ beValue (y :: ys) < beValue (x :: xs)) ∧
    (x = y → (beValue (y :: ys) < beValue (x :: xs) ↔ beValue ys < beValue xs) ∧
      (beValue (x :: xs) ≤ beValue (y :: ys) ↔ beValue xs ≤ beValue ys)) := by
  have hvx := beValue_lt xs hxs
  have hvy := beValue_lt ys hys
  rw [hlen] at hvx
  simp only [beValue, hlen]
  refine ⟨fun h => ?_, fun h => ?_, fun h => ?_⟩
  · have hmul : (y + 1) * 256 ^ ys.length ≤ x * 256 ^ ys.length :=
      Nat.mul_le_mul_right _ (by omega)
    rw [Nat.add_mul, Nat.one_mul] at hmul
    omega
  · have hmul : (x + 1) * 256 ^ ys.length ≤ y * 256 ^ ys.length :=
      Nat.mul_le_mul_right _ (by omega)
    rw [Nat.add_mul, Nat.one_mul] at hmul
    constructor <;> omega
  · subst h
    constructor <;> constructor <;> intro h1 <;> omega

/-- The exponent check succeeds when some byte of the buffer is not zero. -/
theorem XSecure_IsNonZeroBuffer.loop_nonzero (R : RsaPlatform) (Data : Nat) (w : RsaWorld)
    (Remaining : Nat) :
    ∀ Index, (∃ i, i < Remaining ∧ w.Mem (Data + (Index + i)) % 256 ≠ 0) →
      XSecure_IsNonZeroBuffer.loop R Data w Remaining Index = R.XST_SUCCESS := by
  induction Remaining with
  | zero => intro Index ⟨i, hi, _⟩; omega
  | succ Remaining ih =>
    intro Index ⟨i, hi, hne⟩
    unfold XSecure_IsNonZeroBuffer.loop
    by_cases h0 : w.Mem (Data + Index) % 256 ≠ 0
    · rw [if_pos h0]
    · rw [if_neg h0]
      cases i with
      | zero => exact absurd hne h0
      | succ i =>
        refine ih (Index + 1) ⟨i, by omega, ?_⟩
        rw [show Index + 1 + i = Index + (i + 1) by omega]
        exact hne

/-- The comparison loop of the private decryption: it calls the hardware
operation, once, exactly when the remaining input bytes denote a smaller value
than the remaining modulus bytes; otherwise it leaves status and memory as
they are. -/
theorem XSecure_RsaPrivateDecrypt_64Bit.loop_spec (R : RsaPlatform) (Op : RsaOperation)
    (Inst : XSecure_Rsa) (Input Size Result ModAddr : Nat) (Status : Int) (Remaining : Nat) :
    ∀ (Idx : Nat) (w : RsaWorld),
      (beValue ((List.range Remaining).map (fun i => w.Mem (add64 Input (Idx + i)) % 256))
          < beValue ((List.range Remaining).map (fun i => w.Mem (add64 ModAddr (Idx + i)) % 256)) →
        (XSecure_RsaPrivateDecrypt_64Bit.loop R Op Inst Input Size Result ModAddr Status
            Remaining Idx w).1
          = (Op Inst Input Result R.XSECURE_RSA_SIGN_DEC Size w.Mem).1 ∧
        (XSecure_RsaPrivateDecrypt_64Bit.loop R Op Inst Input Size Result ModAddr Status
            Remaining Idx w).2.Mem
          = (Op Inst Input Result R.XSECURE_RSA_SIGN_DEC Size w.Mem).2 ∧
        ((XSecure_RsaPrivateDecrypt_64Bit.loop R Op Inst Input Size Result ModAddr Status
            Remaining Idx w).2.Trace).filter RsaEvent.isOperation
          = w.Trace.filter RsaEvent.isOperation
            ++ [RsaEvent.XSecure_RsaOperation Input Result R.XSECURE_RSA_SIGN_DEC Size]) ∧
      (beValue ((List.range Remaining).map (fun i => w.Mem (add64 ModAddr (Idx + i)) % 256))
          ≤ beValue ((List.range Remaining).map (fun i => w.Mem (add64 Input (Idx + i)) % 256)) →
        (XSecure_RsaPrivateDecrypt_64Bit.loop R Op Inst Input Size Result ModAddr Status
            Remaining Idx w).1 = Status ∧
        (XSecure_RsaPrivateDecrypt_64Bit.loop R Op Inst Input Size Result ModAddr Status
            Remaining Idx w).2.Mem = w.Mem ∧
        ((XSecure_RsaPrivateDecrypt_64Bit.loop R Op Inst Input Size Result ModAddr Status
            Remaining Idx w).2.Trace).filter RsaEvent.isOperation
          = w.Trace.filter RsaEvent.isOperation) := by
  induction Remaining with
  | zero =>
    intro Idx w
    simp [XSecure_RsaPrivateDecrypt_64Bit.loop, beValue]
  | succ Remaining ih =>
    intro Idx w
    have hxs : (List.range (Remaining + 1)).map (fun i => w.Mem (add64 ModAddr (Idx + i)) % 256)
        = (w.Mem (add64 ModAddr Idx) % 256) ::
          (List.range Remaining).map (fun i => w.Mem (add64 ModAddr (Idx + 1 + i)) % 256) := by
      rw [List.range_succ_eq_map, List.map_cons, List.map_map]
      congr 1
      apply List.map_congr_left
      intro i _
      show w.Mem (add64 ModAddr (Idx + (i + 1))) % 256 = w.Mem (add64 ModAddr (Idx + 1 + i)) % 256
      rw [show Idx + (i + 1) = Idx + 1 + i by omega]
    have hys : (List.range (Remaining + 1)).map (fun i => w.Mem (add64 Input (Idx + i)) % 256)
        = (w.Mem (add64 Input Idx) % 256) ::
          (List.range Remaining).map (fun i => w.Mem (add64 Input (Idx + 1 + i)) % 256) := by
      rw [List.range_succ_eq_map, List.map_cons, List.map_map]
      congr 1
      apply List.map_congr_left
      intro i _
      show w.Mem (add64 Input (Idx + (i + 1))) % 256 = w.Mem (add64 Input (Idx + 1 + i)) % 256
      rw [show Idx + (i + 1) = Idx + 1 + i by omega]
    rw [hxs, hys]
    obtain ⟨hgt, hlt, heq⟩ := beValue_cons_compare (w.Mem (add64 ModAddr Idx) % 256)
      (w.Mem (add64 Input Idx) % 256)
      ((List.range Remaining).map (fun i => w.Mem (add64 ModAddr (Idx + 1 + i)) % 256))
      ((List.range Remaining).map (fun i => w.Mem (add64 Input (Idx + 1 + i)) % 256))
      (by simp) (bytes_lt _ _ _) (bytes_lt _ _ _)
    have ihn := ih (Idx + 1)
      { w with Trace := (w.Trace ++ [RsaEvent.XSecure_InByte64 (add64 ModAddr Idx)])
          ++ [RsaEvent.XSecure_InByte64 (add64 Input Idx)] }
    simp only [List.filter_append, List.filter_cons, List.filter_nil, RsaEvent.isOperation,
      List.append_nil, Bool.false_eq_true, if_false] at ihn
    unfold XSecure_RsaPrivateDecrypt_64Bit.loop
    simp only [XSecure_InByte64]
    by_cases h1 : w.Mem (add64 ModAddr Idx) % 256 > w.Mem (add64 Input Idx) % 256
    · rw [if_pos h1]
      refine ⟨fun _ => ?_, fun hle => ?_⟩
      · simp [XSecure_RsaOperation, RsaEvent.isOperation]
      · exact absurd (hgt h1) (by omega)
    · rw [if_neg h1]
      by_cases h2 : w.Mem (add64 ModAddr Idx) % 256 < w.Mem (add64 Input Idx) % 256
      · rw [if_pos h2]
        refine ⟨fun hl => absurd hl (hlt h2).2, fun _ => ?_⟩
        simp [RsaEvent.isOperation]
      · rw [if_neg h2]
        have he : w.Mem (add64 ModAddr Idx) % 256 = w.Mem (add64 Input Idx) % 256 := by omega
        obtain ⟨hiff1, hiff2⟩ := heq he
        exact ⟨fun hl => ihn.1 (hiff1.1 hl), fun hle => ihn.2 (hiff2.1 hle)⟩

theorem add64_zero (a : Nat) (h : a < 18446744073709551616) : add64 a 0 = a := by
  unfold add64
  omega

theorem add64_lt (a b : Nat) : add64 a b < 18446744073709551616 := by
  unfold add64
  omega

theorem add64_add64 (a m i : Nat) : add64 (add64 a m) i = add64 a (m + i) := by
  unfold add64
  omega

/-- Reading a byte changes nothing but the log. -/
theorem XSecure_InByte64_Mem (Addr : Nat) (w : RsaWorld) :
    (XSecure_InByte64 Addr w).2.Mem = w.Mem ∧ (XSecure_InByte64 Addr w).1 = w.Mem Addr % 256 :=
  ⟨rfl, rfl⟩

/-- A comparison loop of the signature verification, for expected bytes that
depend on the memory and the index alone: the memory is unchanged, and the
loop runs to its end exactly when each byte read equals the expected one. -/
theorem XSecure_RsaSignVerification_64Bit.loop_matches
    (Expected : Nat → RsaWorld → Nat × RsaWorld) (exp : (Nat → Nat) → Nat → Nat)
    (hE1 : ∀ i v, (Expected i v).2.Mem = v.Mem)
    (hE2 : ∀ i v, (Expected i v).1 = exp v.Mem i) (Remaining : Nat) :
    ∀ (SignIndex PadIndex : Nat) (w : RsaWorld), PadIndex < 18446744073709551616 →
      (XSecure_RsaSignVerification_64Bit.loop Expected Remaining SignIndex PadIndex w).2.Mem
        = w.Mem ∧
      ((∀ i, i < Remaining → w.Mem (add64 PadIndex i) % 256 = exp w.Mem (SignIndex + i)) →
        (XSecure_RsaSignVerification_64Bit.loop Expected Remaining SignIndex PadIndex w).1
          = some (add64 PadIndex Remaining, SignIndex + Remaining)) ∧
      (¬ (∀ i, i < Remaining → w.Mem (add64 PadIndex i) % 256 = exp w.Mem (SignIndex + i)) →
        (XSecure_RsaSignVerification_64Bit.loop Expected Remaining SignIndex PadIndex w).1
          = none) := by
  induction Remaining with
  | zero =>
    intro SignIndex PadIndex w hP
    refine ⟨rfl, fun _ => ?_, fun hno => ?_⟩
    · simp [XSecure_RsaSignVerification_64Bit.loop, add64_zero PadIndex hP]
    · exact absurd (fun i hi => absurd hi (Nat.not_lt_zero i)) hno
  | succ Remaining ih =>
    intro SignIndex PadIndex w hP
    have hs1 : (XSecure_InByte64 PadIndex w).1 = w.Mem PadIndex % 256 := rfl
    have he1 : (Expected SignIndex (XSecure_InByte64 PadIndex w).2).1 = exp w.Mem SignIndex := by
      rw [hE2]
      rfl
    have hem : (Expected SignIndex (XSecure_InByte64 PadIndex w).2).2.Mem = w.Mem := by
      rw [hE1]
      rfl
    obtain ⟨ihm, ihs, ihn⟩ := ih (SignIndex + 1) (add64 PadIndex 1)
      (Expected SignIndex (XSecure_InByte64 PadIndex w).2).2 (add64_lt _ _)
    rw [hem] at ihm ihs ihn
    unfold XSecure_RsaSignVerification_64Bit.loop
    simp only [hs1, he1]
    by_cases h0 : w.Mem PadIndex % 256 = exp w.Mem SignIndex
    · have hn0 : ¬ (w.Mem PadIndex % 256 ≠ exp w.Mem SignIndex) := not_not.2 h0
      rw [if_neg hn0]
      have hiff : (∀ i, i < Remaining + 1 →
          w.Mem (add64 PadIndex i) % 256 = exp w.Mem (SignIndex + i)) ↔
          (∀ i, i < Remaining →
            w.Mem (add64 (add64 PadIndex 1) i) % 256 = exp w.Mem (SignIndex + 1 + i)) := by
        constructor
        · intro h i hi
          rw [add64_add64, show SignIndex + 1 + i = SignIndex + (1 + i) by omega]
          exact h (1 + i) (by omega)
        · intro h i hi
          cases i with
          | zero =>
            rw [add64_zero PadIndex hP]
            exact h0
          | succ i =>
            have := h i (by omega)
            rw [add64_add64, show SignIndex + 1 + i = SignIndex + (1 + i) by omega] at this
            rw [show i + 1 = 1 + i by omega]
            exact this
      refine ⟨ihm, fun h => ?_, fun h => ?_⟩
      · rw [ihs (hiff.1 h), add64_add64, show 1 + Remaining = Remaining + 1 by omega,
          show SignIndex + 1 + Remaining = SignIndex + (Remaining + 1) by omega]
      · exact ihn (fun hc => h (hiff.2 hc))
    · rw [if_pos h0]
      refine ⟨hem, fun h => ?_, fun _ => rfl⟩
      have := h 0 (by omega)
      rw [add64_zero PadIndex hP] at this
      exact absurd this h0

/-- The bytes at `m + n` consecutive addresses are those at the first `m`
followed by those at the next `n`. -/
theorem bytesAt_add (Mem : Nat → Nat) (a m n : Nat) :
    bytesAt Mem a (m + n) = bytesAt Mem a m ++ bytesAt Mem (add64 a m) n := by
  unfold bytesAt
  rw [List.range_add, List.map_append, List.map_map]
  congr 1
  apply List.map_congr_left
  intro i _
  show Mem (add64 a (m + i)) % 256 = Mem (add64 (add64 a m) i) % 256
  rw [add64_add64]

/-- The bytes at consecutive addresses equal given bytes exactly when each
one does. -/
theorem bytesAt_eq_map (Mem : Nat → Nat) (a n : Nat) (g : Nat → Nat) :
    bytesAt Mem a n = (List.range n).map g ↔ ∀ i, i < n → Mem (add64 a i) % 256 = g i := by
  unfold bytesAt
  rw [List.map_inj_left]
  constructor
  · intro h i hi
    exact h i (List.mem_range.2 hi)
  · intro h i hi
    exact h i (List.mem_range.1 hi)

/-- The signature verification on valid arguments: the memory is unchanged,
and the status is `XST_SUCCESS` when the six comparisons of the source all
hold and `XST_FAILURE` when one of them does not. -/
theorem XSecure_RsaSignVerification_64Bit_valid (R : RsaPlatform)
    (Signature Hash HashLen : Nat) (w : RsaWorld)
    (hS : Signature ≠ 0) (hH : Hash ≠ 0) (hL : HashLen = R.XSECURE_HASH_TYPE_SHA3) :
    (XSecure_RsaSignVerification_64Bit R Signature Hash HashLen w).2.Mem = w.Mem ∧
    ((w.Mem Signature % 256 = R.XSECURE_RSA_BYTE_PAD1 ∧
      w.Mem (add64 Signature 1) % 256 = R.XSECURE_RSA_BYTE_PAD2 ∧
      (∀ i, i < sub32 (sub32 (sub32 R.XSECURE_FSBL_SIG_SIZE R.XSECURE_RSA_BYTE_PAD_LENGTH)
          R.XSECURE_RSA_T_PAD_LENGTH) HashLen →
        w.Mem (add64 (add64 (add64 Signature 1) 1) i) % 256 = R.XSECURE_RSA_BYTE_PAD3) ∧
      w.Mem (add64 (add64 (add64 Signature 1) 1)
        (sub32 (sub32 (sub32 R.XSECURE_FSBL_SIG_SIZE R.XSECURE_RSA_BYTE_PAD_LENGTH)
          R.XSECURE_RSA_T_PAD_LENGTH) HashLen)) % 256 = R.XSECURE_RSA_BYTE_PAD1 ∧
      (∀ i, i < R.XSECURE_RSA_T_PAD_LENGTH →
        w.Mem (add64 (add64 (add64 (add64 (add64 Signature 1) 1)
          (sub32 (sub32 (sub32 R.XSECURE_FSBL_SIG_SIZE R.XSECURE_RSA_BYTE_PAD_LENGTH)
            R.XSECURE_RSA_T_PAD_LENGTH) HashLen)) 1) i) % 256
          = R.XSecure_RsaGetTPadding i) ∧
      (∀ i, i < HashLen →
        w.Mem (add64 (add64 (add64 (add64 (add64 (add64 Signature 1) 1)
          (sub32 (sub32 (sub32 R.XSECURE_FSBL_SIG_SIZE R.XSECURE_RSA_BYTE_PAD_LENGTH)
            R.XSECURE_RSA_T_PAD_LENGTH) HashLen)) 1) R.XSECURE_RSA_T_PAD_LENGTH) i) % 256
          = w.Mem (add64 Hash i) % 256)) →
      (XSecure_RsaSignVerification_64Bit R Signature Hash HashLen w).1 = R.XST_SUCCESS) ∧
    (¬ (w.Mem Signature % 256 = R.XSECURE_RSA_BYTE_PAD1 ∧
      w.Mem (add64 Signature 1) % 256 = R.XSECURE_RSA_BYTE_PAD2 ∧
      (∀ i, i < sub32 (sub32 (sub32 R.XSECURE_FSBL_SIG_SIZE R.XSECURE_RSA_BYTE_PAD_LENGTH)
          R.XSECURE_RSA_T_PAD_LENGTH) HashLen →
        w.Mem (add64 (add64 (add64 Signature 1) 1) i) % 256 = R.XSECURE_RSA_BYTE_PAD3) ∧
      w.Mem (add64 (add64 (add64 Signature 1) 1)
        (sub32 (sub32 (sub32 R.XSECURE_FSBL_SIG_SIZE R.XSECURE_RSA_BYTE_PAD_LENGTH)
          R.XSECURE_RSA_T_PAD_LENGTH) HashLen)) % 256 = R.XSECURE_RSA_BYTE_PAD1 ∧
      (∀ i, i < R.XSECURE_RSA_T_PAD_LENGTH →
        w.Mem (add64 (add64 (add64 (add64 (add64 Signature 1) 1)
          (sub32 (sub32 (sub32 R.XSECURE_FSBL_SIG_SIZE R.XSECURE_RSA_BYTE_PAD_LENGTH)
            R.XSECURE_RSA_T_PAD_LENGTH) HashLen)) 1) i) % 256
          = R.XSecure_RsaGetTPadding i) ∧
      (∀ i, i < HashLen →
        w.Mem (add64 (add64 (add64 (add64 (add64 (add64 Signature 1) 1)
          (sub32 (sub32 (sub32 R.XSECURE_FSBL_SIG_SIZE R.XSECURE_RSA_BYTE_PAD_LENGTH)
            R.XSECURE_RSA_T_PAD_LENGTH) HashLen)) 1) R.XSECURE_RSA_T_PAD_LENGTH) i) % 256
          = w.Mem (add64 Hash i) % 256)) →
      (XSecure_RsaSignVerification_64Bit R Signature Hash HashLen w).1 = R.XST_FAILURE) := by
  have hvalid : ¬ (Signature = 0 ∨ Hash = 0 ∨ HashLen ≠ R.XSECURE_HASH_TYPE_SHA3) := by
    simp [hS, hH, hL]
  generalize hPL : sub32 (sub32 (sub32 R.XSECURE_FSBL_SIG_SIZE R.XSECURE_RSA_BYTE_PAD_LENGTH)
    R.XSECURE_RSA_T_PAD_LENGTH) HashLen = PL
  have L1 := XSecure_RsaSignVerification_64Bit.loop_matches
    (fun _ v => (R.XSECURE_RSA_BYTE_PAD3, v)) (fun _ _ => R.XSECURE_RSA_BYTE_PAD3)
    (fun _ _ => rfl) (fun _ _ => rfl) PL 0 (add64 (add64 Signature 1) 1)
    (XSecure_InByte64 (add64 Signature 1) (XSecure_InByte64 Signature w).2).2 (add64_lt _ _)
  unfold XSecure_RsaSignVerification_64Bit
  rw [if_neg hvalid]
  simp only [hPL]
  obtain ⟨L1m, L1s, L1n⟩ := L1
  have L1m' : (XSecure_RsaSignVerification_64Bit.loop (fun _ v => (R.XSECURE_RSA_BYTE_PAD3, v))
      PL 0 (add64 (add64 Signature 1) 1)
      (XSecure_InByte64 (add64 Signature 1) (XSecure_InByte64 Signature w).2).2).2.Mem
      = w.Mem := L1m
  split
  · rename_i h1
    refine ⟨rfl, fun hc => absurd hc.1.symm h1, fun _ => rfl⟩
  · rename_i h1
    split
    · rename_i h2
      refine ⟨rfl, fun hc => absurd hc.2.1.symm h2, fun _ => rfl⟩
    · rename_i h2
      split
      · rename_i hl1
        refine ⟨L1m', fun hc => ?_, fun _ => rfl⟩
        have := L1s hc.2.2.1
        rw [hl1] at this
        cases this
      · rename_i PadIndex1 s1 hl1
        have hc3 : ∀ i, i < PL →
            w.Mem (add64 (add64 (add64 Signature 1) 1) i) % 256 = R.XSECURE_RSA_BYTE_PAD3 := by
          by_contra hno
          have := L1n hno
          rw [hl1] at this
          cases this
        have hp1 : PadIndex1 = add64 (add64 (add64 Signature 1) 1) PL := by
          have := L1s hc3
          rw [hl1] at this
          exact congrArg Prod.fst (Option.some.inj this)
        subst hp1
        have L2 := XSecure_RsaSignVerification_64Bit.loop_matches
          (fun SignIndex v => (R.XSecure_RsaGetTPadding SignIndex, v))
          (fun _ i => R.XSecure_RsaGetTPadding i)
          (fun _ _ => rfl) (fun _ _ => rfl) R.XSECURE_RSA_T_PAD_LENGTH 0
          (add64 (add64 (add64 (add64 Signature 1) 1) PL) 1)
          (XSecure_InByte64 (add64 (add64 (add64 Signature 1) 1) PL)
            (XSecure_RsaSignVerification_64Bit.loop (fun _ v => (R.XSECURE_RSA_BYTE_PAD3, v))
              PL 0 (add64 (add64 Signature 1) 1)
              (XSecure_InByte64 (add64 Signature 1) (XSecure_InByte64 Signature w).2).2).2).2
          (add64_lt _ _)
        obtain ⟨L2m, L2s, L2n⟩ := L2
        have hW3 : (XSecure_InByte64 (add64 (add64 (add64 Signature 1) 1) PL)
            (XSecure_RsaSignVerification_64Bit.loop (fun _ v => (R.XSECURE_RSA_BYTE_PAD3, v))
              PL 0 (add64 (add64 Signature 1) 1)
              (XSecure_InByte64 (add64 Signature 1)
                (XSecure_InByte64 Signature w).2).2).2).2.Mem = w.Mem := L1m'
        rw [hW3] at L2m L2s L2n
        simp only [Nat.zero_add] at L2s L2n
        have hb3 : (XSecure_InByte64 (add64 (add64 (add64 Signature 1) 1) PL)
            (XSecure_RsaSignVerification_64Bit.loop (fun _ v => (R.XSECURE_RSA_BYTE_PAD3, v))
              PL 0 (add64 (add64 Signature 1) 1)
              (XSecure_InByte64 (add64 Signature 1)
                (XSecure_InByte64 Signature w).2).2).2).1
            = w.Mem (add64 (add64 (add64 Signature 1) 1) PL) % 256 := by
          show (XSecure_RsaSignVerification_64Bit.loop _ _ _ _ _).2.Mem _ % 256 = _
          rw [L1m']
        split
        · rename_i h4
          rw [hb3] at h4
          refine ⟨hW3, fun hc => absurd hc.2.2.2.1.symm h4, fun _ => rfl⟩
        · rename_i h4
          rw [hb3] at h4
          split
          · rename_i hl2
            refine ⟨L2m, fun hc => ?_, fun _ => rfl⟩
            have := L2s hc.2.2.2.2.1
            rw [hl2] at this
            cases this
          · rename_i PadIndex2 s2 hl2
            have hc5 : ∀ i, i < R.XSECURE_RSA_T_PAD_LENGTH →
                w.Mem (add64 (add64 (add64 (add64 (add64 Signature 1) 1) PL) 1) i) % 256
                  = R.XSecure_RsaGetTPadding i := by
              by_contra hno
              have := L2n hno
              rw [hl2] at this
              cases this
            have hp2 : PadIndex2 = add64 (add64 (add64 (add64 (add64 Signature 1) 1) PL) 1)
                R.XSECURE_RSA_T_PAD_LENGTH := by
              have := L2s hc5
              rw [hl2] at this
              exact congrArg Prod.fst (Option.some.inj this)
            subst hp2
            have L3 := XSecure_RsaSignVerification_64Bit.loop_matches
              (fun SignIndex v => XSecure_InByte64 (add64 Hash SignIndex) v)
              (fun m i => m (add64 Hash i) % 256)
              (fun _ _ => rfl) (fun _ _ => rfl) HashLen 0
              (add64 (add64 (add64 (add64 (add64 Signature 1) 1) PL) 1)
                R.XSECURE_RSA_T_PAD_LENGTH)
              (XSecure_RsaSignVerification_64Bit.loop
                (fun SignIndex v => (R.XSecure_RsaGetTPadding SignIndex, v))
                R.XSECURE_RSA_T_PAD_LENGTH 0
                (add64 (add64 (add64 (add64 Signature 1) 1) PL) 1)
                (XSecure_InByte64 (add64 (add64 (add64 Signature 1) 1) PL)
                  (XSecure_RsaSignVerification_64Bit.loop
                    (fun _ v => (R.XSECURE_RSA_BYTE_PAD3, v))
                    PL 0 (add64 (add64 Signature 1) 1)
                    (XSecure_InByte64 (add64 Signature 1)
                      (XSecure_InByte64 Signature w).2).2).2).2).2
              (add64_lt _ _)
            obtain ⟨L3m, L3s, L3n⟩ := L3
            rw [L2m] at L3m L3s L3n
            simp only [Nat.zero_add] at L3s L3n
            split
            · rename_i hl3
              refine ⟨L3m, fun hc => ?_, fun _ => rfl⟩
              have := L3s hc.2.2.2.2.2
              rw [hl3] at this
              cases this
            · rename_i p3 SignIndex hl3
              have hc6 : ∀ i, i < HashLen →
                  w.Mem (add64 (add64 (add64 (add64 (add64 (add64 Signature 1) 1) PL) 1)
                    R.XSECURE_RSA_T_PAD_LENGTH) i) % 256 = w.Mem (add64 Hash i) % 256 := by
                by_contra hno
                have := L3n hno
                rw [hl3] at this
                cases this
              have hsi : SignIndex = HashLen := by
                have := L3s hc6
                rw [hl3] at this
                exact congrArg Prod.snd (Option.some.inj this)
              rw [if_pos hsi]
              refine ⟨L3m, fun _ => rfl, fun hno => ?_⟩
              exact absurd ⟨(not_not.1 h1).symm, (not_not.1 h2).symm, hc3,
                (not_not.1 h4).symm, hc5, hc6⟩ hno

/-- Two concatenations whose first parts have one length are equal exactly
when their parts are. -/
theorem append_eq_append_of_length {α : Type} (s1 s2 t1 t2 : List α)
    (h : s1.length = s2.length) : s1 ++ t1 = s2 ++ t2 ↔ s1 = s2 ∧ t1 = t2 :=
  ⟨fun e => List.append_inj e h, fun e => by rw [e.1, e.2]⟩

theorem bytesAt_length (Mem : Nat → Nat) (a n : Nat) : (bytesAt Mem a n).length = n := by
  simp [bytesAt]

/-- The bytes from `S` on are a two-byte header, `PL` bytes of padding, a
separator, a table of `T` bytes and a tail of `H` bytes exactly when each of
the comparisons that the signature verification makes, at the address it
has reached, holds. -/
theorem bytesAt_encoding_iff (Mem : Nat → Nat) (S PL T H p1 p2 p3 : Nat) (tp : Nat → Nat)
    (tail : List Nat) (hS : S < 18446744073709551616) :
    bytesAt Mem S (2 + PL + 1 + T + H)
        = [p1, p2] ++ List.replicate PL p3 ++ [p1] ++ (List.range T).map tp ++ tail ↔
      (Mem S % 256 = p1 ∧
        Mem (add64 S 1) % 256 = p2 ∧
        (∀ i, i < PL → Mem (add64 (add64 (add64 S 1) 1) i) % 256 = p3) ∧
        Mem (add64 (add64 (add64 S 1) 1) PL) % 256 = p1 ∧
        (∀ i, i < T →
          Mem (add64 (add64 (add64 (add64 (add64 S 1) 1) PL) 1) i) % 256 = tp i) ∧
        bytesAt Mem (add64 (add64 (add64 (add64 (add64 S 1) 1) PL) 1) T) H = tail) := by
  have e2 : add64 (add64 S 1) 1 = add64 S 2 := by rw [add64_add64]
  have e3 : add64 (add64 S 2) PL = add64 S (2 + PL) := by rw [add64_add64]
  have e4 : add64 (add64 S (2 + PL)) 1 = add64 S (2 + PL + 1) := by rw [add64_add64]
  have e5 : add64 (add64 S (2 + PL + 1)) T = add64 S (2 + PL + 1 + T) := by rw [add64_add64]
  rw [e2, e3, e4, e5]
  rw [bytesAt_add, bytesAt_add, bytesAt_add, bytesAt_add]
  rw [append_eq_append_of_length _ _ _ _ (by simp [bytesAt_length]; omega),
    append_eq_append_of_length _ _ _ _ (by simp [bytesAt_length]; omega),
    append_eq_append_of_length _ _ _ _ (by simp [bytesAt_length]; omega),
    append_eq_append_of_length _ _ _ _ (by simp [bytesAt_length])]
  have h1 : bytesAt Mem S 2 = [p1, p2] ↔ Mem S % 256 = p1 ∧ Mem (add64 S 1) % 256 = p2 := by
    simp [bytesAt, List.range_succ, add64_zero S hS]
  have h2 : bytesAt Mem (add64 S 2) PL = List.replicate PL p3 ↔
      ∀ i, i < PL → Mem (add64 (add64 S 2) i) % 256 = p3 := by
    rw [← bytesAt_eq_map Mem (add64 S 2) PL (fun _ => p3)]
    have : (List.range PL).map (fun _ => p3) = List.replicate PL p3 := by
      simp [List.map_const']
    rw [this]
  have h3 : bytesAt Mem (add64 S (2 + PL)) 1 = [p1] ↔ Mem (add64 S (2 + PL)) % 256 = p1 := by
    simp [bytesAt, List.range_succ, add64_zero _ (add64_lt S (2 + PL))]
  rw [h1, h2, h3, bytesAt_eq_map]
  tauto

/-! ## Claims -/

/-- Claim C2, counterexample: with eight slots and the cursor at 7, which is
capacity-1, the full test returns FALSE and not TRUE. -/
theorem XAsu_IsChannelQueueFull_last_not_full :
    samplePlatform.XASU_MAX_BUFFERS - 1 ≤
        ({ ChannelQueue := XASU_SHARED_MEMORY_P0_CH_QUEUE, NextFreeIndex := 7 } :
          XAsu_QueueInfo).NextFreeIndex ∧
      XAsu_IsChannelQueueFull samplePlatform
        { ChannelQueue := XASU_SHARED_MEMORY_P0_CH_QUEUE, NextFreeIndex := 7 } = FALSE ∧
      XAsu_IsChannelQueueFull samplePlatform
        { ChannelQueue := XASU_SHARED_MEMORY_P0_CH_QUEUE, NextFreeIndex := 7 } ≠ TRUE := by
  decide

/-- Claim C2, amended: `XAsu_IsChannelQueueFull` returns TRUE if and only if
`NextFreeIndex` is strictly greater than `XASU_MAX_BUFFERS - 1U`, and FALSE if
and only if it is at most that value; for a capacity that is a positive
32-bit value this means TRUE exactly from `NextFreeIndex = capacity` on, and
FALSE at `NextFreeIndex = capacity - 1` and below. -/
theorem XAsu_IsChannelQueueFull_iff (P : Platform) (Q : XAsu_QueueInfo) :
    (XAsu_IsChannelQueueFull P Q = TRUE ↔ lastIndex P < Q.NextFreeIndex) ∧
    (XAsu_IsChannelQueueFull P Q = FALSE ↔ Q.NextFreeIndex ≤ lastIndex P) ∧
    (1 ≤ P.XASU_MAX_BUFFERS → P.XASU_MAX_BUFFERS < 4294967296 →
      (XAsu_IsChannelQueueFull P Q = TRUE ↔ P.XASU_MAX_BUFFERS ≤ Q.NextFreeIndex) ∧
      (Q.NextFreeIndex ≤ P.XASU_MAX_BUFFERS - 1 → XAsu_IsChannelQueueFull P Q = FALSE)) := by
  have hTF : TRUE ≠ FALSE := by decide
  refine ⟨?_, ?_, ?_⟩
  · rcases XAsu_IsChannelQueueFull_cases P Q with ⟨h, e⟩ | ⟨h, e⟩
    · rw [e]; constructor
      · intro c; exact absurd c.symm hTF
      · intro c; omega
    · rw [e]; exact ⟨fun _ => h, fun _ => rfl⟩
  · rcases XAsu_IsChannelQueueFull_cases P Q with ⟨h, e⟩ | ⟨h, e⟩
    · rw [e]; exact ⟨fun _ => h, fun _ => rfl⟩
    · rw [e]; constructor
      · intro c; exact absurd c hTF
      · intro c; omega
  · intro h1 h2
    have hl := lastIndex_eq P h1 h2
    rcases XAsu_IsChannelQueueFull_cases P Q with ⟨h, e⟩ | ⟨h, e⟩
    · rw [e]; refine ⟨⟨fun c => absurd c.symm hTF, fun c => ?_⟩, fun _ => rfl⟩
      omega
    · rw [e]; refine ⟨⟨fun _ => ?_, fun _ => rfl⟩, fun c => ?_⟩
      · omega
      · omega

/-- Claim C3: `XAsu_GetChannelQueueBuf` returns `NULL` for the `NULL` handle
and for a queue on which `XAsu_IsChannelQueueFull` is TRUE; for every other
queue it returns the slot `ChannelQueueBufs[NextFreeIndex]` of that queue's
channel queue. -/
theorem XAsu_GetChannelQueueBuf_spec (P : Platform) (w : World) :
    XAsu_GetChannelQueueBuf P none w = none ∧
    ∀ q : QueueId,
      (XAsu_IsChannelQueueFull P (w.ClientInstance.queue q) = TRUE →
        XAsu_GetChannelQueueBuf P (some q) w = none) ∧
      (XAsu_IsChannelQueueFull P (w.ClientInstance.queue q) ≠ TRUE →
        XAsu_GetChannelQueueBuf P (some q) w =
          some { ChannelQueue := (w.ClientInstance.queue q).ChannelQueue
                 Index := (w.ClientInstance.queue q).NextFreeIndex }) := by
  refine ⟨rfl, fun q => ⟨fun h => ?_, fun h => ?_⟩⟩
  · simp [XAsu_GetChannelQueueBuf, h]
  · simp [XAsu_GetChannelQueueBuf, h]

/-- Claim C8: with the `NULL` queue handle `XAsu_UpdateQueueBufferNSendIpi`
returns `XST_FAILURE` at once, whatever the fuel, and the state is the one it
was called in: no slot flag, cursor, `IsCmdPresent`, completion flag or log
entry changes, so the doorbell is not rung. -/
theorem XAsu_UpdateQueueBufferNSendIpi_null (P : Platform) (E : SubmitEnv) (Fuel : Nat)
    (w : World) :
    XAsu_UpdateQueueBufferNSendIpi P E Fuel none w = some (P.XST_FAILURE, w) := by
  rfl

/-- Claim C1, counterexample: with eight slots, after a successful
initialisation and seven successful submissions on the high-priority queue the
cursor is at 7; the eighth attempt is not refused: `XAsu_GetChannelQueueBuf`
returns slot 7 and not `NULL`, the submission returns `XST_SUCCESS` and not
`XST_FAILURE`, and the cursor moves from 7 to 0. -/
theorem eighth_submission_not_refused :
    ∃ w rs w7 w8,
      XAsu_ClientInit samplePlatform sampleInitEnv 0 (World0 sampleShared)
        = (samplePlatform.XST_SUCCESS, w) ∧
      submissions samplePlatform 1
        (List.replicate 7 (some QueueId.P0Queue, sampleSubmitEnv)) w = some (rs, w7) ∧
      rs.map Prod.snd = List.replicate 7 samplePlatform.XST_SUCCESS ∧
      w7.ClientInstance.P0Queue.NextFreeIndex = 7 ∧
      XAsu_GetChannelQueueBuf samplePlatform (some QueueId.P0Queue) w7 ≠ none ∧
      XAsu_GetChannelQueueBuf samplePlatform (some QueueId.P0Queue) w7
        = some { ChannelQueue := XASU_SHARED_MEMORY_P0_CH_QUEUE, Index := 7 } ∧
      XAsu_UpdateQueueBufferNSendIpi samplePlatform sampleSubmitEnv 1
        (some QueueId.P0Queue) w7 = some (samplePlatform.XST_SUCCESS, w8) ∧
      samplePlatform.XST_SUCCESS ≠ samplePlatform.XST_FAILURE ∧
      w8.ClientInstance.P0Queue.NextFreeIndex = 0 ∧
      w8.ClientInstance.P0Queue.NextFreeIndex ≠ w7.ClientInstance.P0Queue.NextFreeIndex := by
  refine ⟨_, _, _, _, rfl, rfl, ?_, ?_, ?_, ?_, rfl, ?_, ?_, ?_⟩
  · decide
  · decide
  · decide
  · decide
  · decide
  · decide
  · decide

/-- Claim C1, amended: for every capacity `C` with `2 ≤ C < 2 ^ 32`, starting
from a freshly initialised session (cursor 0) on one priority queue, with
every doorbell sent and every completion interrupt arriving within the fuel:
any `k ≤ C` successive submissions all return `XST_SUCCESS`, the `i`-th
(counted from 0) using slot `i`, and leave the cursor at `k mod C`.  So `C - 1`
submissions walk the cursor through `0, 1, …, C - 2`, and the `C`-th attempt
succeeds as well, using slot `C - 1` and wrapping the cursor to 0; after each
of them `XAsu_GetChannelQueueBuf` returns the slot under the cursor, never
`NULL`. -/
theorem submissions_fresh_session (P : Platform) (EI : InitEnv) (DeviceId : Nat)
    (w0 w : World) (Fuel : Nat) (q : QueueId) (Es : List SubmitEnv)
    (hC : 2 ≤ P.XASU_MAX_BUFFERS) (h32 : P.XASU_MAX_BUFFERS < 4294967296)
    (hnp : P.XASU_ASUFW_NOT_PRESENT ≠ P.XST_SUCCESS)
    (hnr : w0.ClientInstance.IsReady ≠ XASU_CLIENT_READY)
    (hinit : XAsu_ClientInit P EI DeviceId w0 = (P.XST_SUCCESS, w))
    (hk : Es.length ≤ P.XASU_MAX_BUFFERS)
    (hE : ∀ E ∈ Es, E.XMailbox_Send = P.XST_SUCCESS ∧ ∃ d, E.IrqAfter = some d ∧ d < Fuel) :
    (w.ClientInstance.queue q).NextFreeIndex = 0 ∧
    ∃ rs w1, submissions P Fuel (Es.map (fun E => (some q, E))) w = some (rs, w1) ∧
      rs.map Prod.snd = List.replicate Es.length P.XST_SUCCESS ∧
      rs.map Prod.fst = (List.range Es.length).map (fun i =>
        some { ChannelQueue := (w.ClientInstance.queue q).ChannelQueue, Index := i }) ∧
      (w1.ClientInstance.queue q).NextFreeIndex = Es.length % P.XASU_MAX_BUFFERS ∧
      XAsu_GetChannelQueueBuf P (some q) w1 =
        some { ChannelQueue := (w.ClientInstance.queue q).ChannelQueue
               Index := Es.length % P.XASU_MAX_BUFFERS } := by
  obtain ⟨hc, hH, _, _⟩ := XAsu_ClientInit_success P EI DeviceId w0 w hnp hnr hinit
  have hR : w.ClientInstance.IsReady = XASU_CLIENT_READY := by rw [hc]
  have h0 : (w.ClientInstance.queue q).NextFreeIndex = 0 := by
    rw [hc]; cases q <;> rfl
  obtain ⟨rs, w1, hsub, hfst, hcl, _, hst⟩ :=
    submissions_same_queue P Fuel q (by omega) h32 Es w (by omega) hH
      (fun E hEm => (hE E hEm).2)
  have hq1 : w1.ClientInstance.queue q =
      { ChannelQueue := (w.ClientInstance.queue q).ChannelQueue
        NextFreeIndex := Es.length % P.XASU_MAX_BUFFERS } := by
    rw [hcl, XAsu_Client.queue_setNextFreeIndex, h0, Nat.zero_add]
  refine ⟨h0, rs, w1, hsub, hst hR (fun E hEm => (hE E hEm).1), ?_, ?_, ?_⟩
  · rw [hfst]
    apply List.map_congr_left
    intro i hi
    have hi2 : i < P.XASU_MAX_BUFFERS := by
      have := List.mem_range.1 hi
      omega
    rw [h0, Nat.zero_add, Nat.mod_eq_of_lt hi2]
  · rw [hq1]
  · have hle : (w1.ClientInstance.queue q).NextFreeIndex ≤ lastIndex P := by
      rw [hq1, lastIndex_eq P (by omega) h32]
      have := Nat.mod_lt Es.length (show 0 < P.XASU_MAX_BUFFERS by omega)
      show Es.length % P.XASU_MAX_BUFFERS ≤ P.XASU_MAX_BUFFERS - 1
      omega
    rw [XAsu_GetChannelQueueBuf_some P q w1 hle, hq1]

/-- Claim C1, amended, at a concrete input: eight slots, a successful
initialisation, and eight submissions on the high-priority queue. -/
theorem submissions_fresh_session_witness :
    (2 ≤ samplePlatform.XASU_MAX_BUFFERS ∧
      XAsu_ClientInit samplePlatform sampleInitEnv 0 (World0 sampleShared) =
        (samplePlatform.XST_SUCCESS,
          (XAsu_ClientInit samplePlatform sampleInitEnv 0 (World0 sampleShared)).2)) ∧
    ((((XAsu_ClientInit samplePlatform sampleInitEnv 0 (World0 sampleShared)).2).ClientInstance.queue
        QueueId.P0Queue).NextFreeIndex = 0 ∧
      ∃ rs w1, submissions samplePlatform 1
          ((List.replicate 8 sampleSubmitEnv).map (fun E => (some QueueId.P0Queue, E)))
          (XAsu_ClientInit samplePlatform sampleInitEnv 0 (World0 sampleShared)).2
            = some (rs, w1) ∧
        rs.map Prod.snd =
          List.replicate (List.replicate 8 sampleSubmitEnv).length samplePlatform.XST_SUCCESS ∧
        rs.map Prod.fst = (List.range (List.replicate 8 sampleSubmitEnv).length).map (fun i =>
          some { ChannelQueue :=
                   (((XAsu_ClientInit samplePlatform sampleInitEnv 0
                      (World0 sampleShared)).2).ClientInstance.queue
                      QueueId.P0Queue).ChannelQueue
                 Index := i }) ∧
        (w1.ClientInstance.queue QueueId.P0Queue).NextFreeIndex =
          (List.replicate 8 sampleSubmitEnv).length % samplePlatform.XASU_MAX_BUFFERS ∧
        XAsu_GetChannelQueueBuf samplePlatform (some QueueId.P0Queue) w1 =
          some { ChannelQueue :=
                   (((XAsu_ClientInit samplePlatform sampleInitEnv 0
                      (World0 sampleShared)).2).ClientInstance.queue
                      QueueId.P0Queue).ChannelQueue
                 Index :=
                   (List.replicate 8 sampleSubmitEnv).length
                     % samplePlatform.XASU_MAX_BUFFERS }) :=
  ⟨⟨by decide, rfl⟩,
    submissions_fresh_session samplePlatform sampleInitEnv 0 (World0 sampleShared) _ 1
      QueueId.P0Queue (List.replicate 8 sampleSubmitEnv) (by decide) (by decide) (by decide)
      (by decide) rfl (by decide)
      (fun E hE => by
        rw [List.eq_of_mem_replicate hE]
        exact ⟨rfl, 0, rfl, by decide⟩)⟩

/-- Claim C4: on a ready session, for a queue whose cursor `n` resolves to a
slot, `XAsu_UpdateQueueBufferNSendIpi` rings the doorbell exactly once, and the
shared memory which that call of `XMailbox_Send` sees already has slot `n`
with `RespBufStatus = 0` and `ReqBufStatus = XASU_COMMAND_IS_PRESENT`, and
the channel's `IsCmdPresent` equal to TRUE.  The call is the only entry that
the slot update and the doorbell add to the log, and the only one found in
the log of every submission that returns. -/
theorem doorbell_after_slot_update (P : Platform) (E : SubmitEnv) (q : QueueId) (w : World)
    (s : SlotRef) (hR : w.ClientInstance.IsReady = XASU_CLIENT_READY)
    (hs : XAsu_GetChannelQueueBuf P (some q) w = some s) :
    ∃ M : SharedMem,
      (XAsu_SendIpi P E (XAsu_UpdateQueueBuffer P q s w)).2.Trace =
        w.Trace ++ [Event.XMailbox_Send XASU_TARGET_IPI_INT_MASK FALSE M] ∧
      (∀ Fuel r, XAsu_UpdateQueueBufferNSendIpi P E Fuel (some q) w = some r →
        r.2.Trace = w.Trace ++ [Event.XMailbox_Send XASU_TARGET_IPI_INT_MASK FALSE M]) ∧
      s = { ChannelQueue := (w.ClientInstance.queue q).ChannelQueue
            Index := (w.ClientInstance.queue q).NextFreeIndex } ∧
      ((M s.ChannelQueue).ChannelQueueBufs s.Index).RespBufStatus = 0 ∧
      ((M s.ChannelQueue).ChannelQueueBufs s.Index).ReqBufStatus = P.XASU_COMMAND_IS_PRESENT ∧
      (M s.ChannelQueue).IsCmdPresent = TRUE := by
  obtain ⟨_, hseq⟩ := XAsu_GetChannelQueueBuf_eq_some P q w s hs
  subst hseq
  have hR1 : (XAsu_UpdateQueueBuffer P q
      { ChannelQueue := (w.ClientInstance.queue q).ChannelQueue
        Index := (w.ClientInstance.queue q).NextFreeIndex } w).ClientInstance.IsReady
      = XASU_CLIENT_READY := by
    show (w.ClientInstance.setNextFreeIndex q _).IsReady = XASU_CLIENT_READY
    rw [XAsu_Client.IsReady_setNextFreeIndex]; exact hR
  have hsend := XAsu_SendIpi_ready P E _ hR1
  have hsh := XAsu_UpdateQueueBuffer_shared P q w
  refine ⟨(XAsu_UpdateQueueBuffer P q _ w).Shared, ?_, ?_, rfl, hsh.1, hsh.2.1, hsh.2.2⟩
  · rw [hsend]; rfl
  · intro Fuel r hr
    simp only [XAsu_UpdateQueueBufferNSendIpi, hs] at hr
    split at hr
    · cases hr
      rw [hsend]; rfl
    · split at hr
      · cases hr
      · rename_i w1 hw
        cases hr
        obtain ⟨_, _, ht, _⟩ := XAsu_WaitRecvDone_frame E Fuel 0 _ w1 hw
        show w1.Trace = _
        rw [ht, hsend]; rfl

/-- Claim C4 at a concrete input: the sample ready session and its
high-priority queue, whose cursor 0 resolves to slot 0. -/
theorem doorbell_after_slot_update_witness :
    ∃ M : SharedMem,
      (XAsu_SendIpi samplePlatform sampleSubmitEnv
        (XAsu_UpdateQueueBuffer samplePlatform QueueId.P0Queue
          { ChannelQueue := XASU_SHARED_MEMORY_P0_CH_QUEUE, Index := 0 } sampleReady)).2.Trace =
        sampleReady.Trace ++ [Event.XMailbox_Send XASU_TARGET_IPI_INT_MASK FALSE M] ∧
      (∀ Fuel r, XAsu_UpdateQueueBufferNSendIpi samplePlatform sampleSubmitEnv Fuel
          (some QueueId.P0Queue) sampleReady = some r →
        r.2.Trace = sampleReady.Trace ++
          [Event.XMailbox_Send XASU_TARGET_IPI_INT_MASK FALSE M]) ∧
      ({ ChannelQueue := XASU_SHARED_MEMORY_P0_CH_QUEUE, Index := 0 } : SlotRef) =
        { ChannelQueue := (sampleReady.ClientInstance.queue QueueId.P0Queue).ChannelQueue
          Index := (sampleReady.ClientInstance.queue QueueId.P0Queue).NextFreeIndex } ∧
      ((M XASU_SHARED_MEMORY_P0_CH_QUEUE).ChannelQueueBufs 0).RespBufStatus = 0 ∧
      ((M XASU_SHARED_MEMORY_P0_CH_QUEUE).ChannelQueueBufs 0).ReqBufStatus =
        samplePlatform.XASU_COMMAND_IS_PRESENT ∧
      (M XASU_SHARED_MEMORY_P0_CH_QUEUE).IsCmdPresent = TRUE :=
  doorbell_after_slot_update samplePlatform sampleSubmitEnv QueueId.P0Queue sampleReady
    { ChannelQueue := XASU_SHARED_MEMORY_P0_CH_QUEUE, Index := 0 } rfl rfl

/-- Claim C5: for every capacity `C` with `1 ≤ C < 2 ^ 32` and every cursor
`n < C`, a call of `XAsu_UpdateQueueBufferNSendIpi` that returns sets the
cursor to `(n == C - 1 ? 0 : n + 1)`, which is `(n + 1) mod C`.  Hence `k`
consecutive calls on the same queue that return, whatever their statuses,
leave the cursor at `(n + k) mod C`, the `i`-th having resolved slot
`(n + i) mod C`; when `k = C` the cursor is back at `n` and the `C` slots
resolved are pairwise different and are all the slots of the queue.  The
calls do return when the receive handler is registered and every completion
interrupt arrives within the fuel. -/
theorem cursor_advances_modulo_capacity (P : Platform) (Fuel : Nat) (q : QueueId)
    (w : World) (Es : List SubmitEnv)
    (h1 : 1 ≤ P.XASU_MAX_BUFFERS) (h32 : P.XASU_MAX_BUFFERS < 4294967296)
    (hn : (w.ClientInstance.queue q).NextFreeIndex < P.XASU_MAX_BUFFERS) :
    (∀ E r, XAsu_UpdateQueueBufferNSendIpi P E Fuel (some q) w = some r →
      (r.2.ClientInstance.queue q).NextFreeIndex =
          (if (w.ClientInstance.queue q).NextFreeIndex = P.XASU_MAX_BUFFERS - 1 then 0
           else (w.ClientInstance.queue q).NextFreeIndex + 1) ∧
        (r.2.ClientInstance.queue q).NextFreeIndex =
          ((w.ClientInstance.queue q).NextFreeIndex + 1) % P.XASU_MAX_BUFFERS) ∧
    (∀ rs w1, submissions P Fuel (Es.map (fun E => (some q, E))) w = some (rs, w1) →
      rs.map Prod.fst = (List.range Es.length).map (fun i =>
        some { ChannelQueue := (w.ClientInstance.queue q).ChannelQueue
               Index := ((w.ClientInstance.queue q).NextFreeIndex + i)
                 % P.XASU_MAX_BUFFERS }) ∧
      (w1.ClientInstance.queue q).NextFreeIndex =
        ((w.ClientInstance.queue q).NextFreeIndex + Es.length) % P.XASU_MAX_BUFFERS ∧
      (Es.length = P.XASU_MAX_BUFFERS →
        (w1.ClientInstance.queue q).NextFreeIndex = (w.ClientInstance.queue q).NextFreeIndex ∧
        (rs.map Prod.fst).Nodup ∧
        ∀ j, j < P.XASU_MAX_BUFFERS →
          some { ChannelQueue := (w.ClientInstance.queue q).ChannelQueue, Index := j }
            ∈ rs.map Prod.fst)) ∧
    (w.RecvHandler = true → (∀ E ∈ Es, ∃ d, E.IrqAfter = some d ∧ d < Fuel) →
      ∃ rs w1, submissions P Fuel (Es.map (fun E => (some q, E))) w = some (rs, w1)) := by
  have hle : (w.ClientInstance.queue q).NextFreeIndex ≤ lastIndex P := by
    rw [lastIndex_eq P h1 h32]; omega
  refine ⟨?_, ?_, ?_⟩
  · intro E r hr
    obtain ⟨hc, _, _⟩ := XAsu_UpdateQueueBufferNSendIpi_frame P E Fuel q w r hle hr
    rw [hc, XAsu_Client.queue_setNextFreeIndex]
    simp only
    rw [← nextIndex_eq_mod P _ h1 h32 hn, lastIndex_eq P h1 h32]
    exact ⟨rfl, rfl⟩
  · intro rs w1 hsub
    obtain ⟨hfst, hcl⟩ := submissions_same_queue_result P Fuel q h1 h32 Es w rs w1 hn hsub
    have hq1 : (w1.ClientInstance.queue q).NextFreeIndex =
        ((w.ClientInstance.queue q).NextFreeIndex + Es.length) % P.XASU_MAX_BUFFERS := by
      rw [hcl, XAsu_Client.queue_setNextFreeIndex]
    refine ⟨hfst, hq1, fun hk => ⟨?_, ?_, ?_⟩⟩
    · rw [hq1, hk, Nat.add_mod_right, Nat.mod_eq_of_lt hn]
    · rw [hfst]
      refine List.Nodup.map_on ?_ (List.nodup_range _)
      intro i hi j hj hij
      have hi2 := List.mem_range.1 hi
      have hj2 := List.mem_range.1 hj
      rw [hk] at hi2 hj2
      have hmod : ((w.ClientInstance.queue q).NextFreeIndex + i) % P.XASU_MAX_BUFFERS =
          ((w.ClientInstance.queue q).NextFreeIndex + j) % P.XASU_MAX_BUFFERS :=
        congrArg SlotRef.Index (Option.some.inj hij)
      have hij2 : i % P.XASU_MAX_BUFFERS = j % P.XASU_MAX_BUFFERS :=
        Nat.ModEq.add_left_cancel' _ hmod
      rwa [Nat.mod_eq_of_lt hi2, Nat.mod_eq_of_lt hj2] at hij2
    · intro j hj
      rw [hfst, List.mem_map]
      refine ⟨(j + (P.XASU_MAX_BUFFERS - (w.ClientInstance.queue q).NextFreeIndex))
        % P.XASU_MAX_BUFFERS, ?_, ?_⟩
      · rw [List.mem_range, hk]
        exact Nat.mod_lt _ (by omega)
      · congr 2
        rw [Nat.add_mod_mod]
        have : (w.ClientInstance.queue q).NextFreeIndex +
            (j + (P.XASU_MAX_BUFFERS - (w.ClientInstance.queue q).NextFreeIndex))
            = j + P.XASU_MAX_BUFFERS := by omega
        rw [this, Nat.add_mod_right, Nat.mod_eq_of_lt hj]
  · intro hH hE
    obtain ⟨rs, w1, hsub, _⟩ := submissions_same_queue P Fuel q h1 h32 Es w hn hH hE
    exact ⟨rs, w1, hsub⟩

/-- Claim C5 at a concrete input: eight slots, the high-priority cursor of
the sample ready session, and eight consecutive submissions, after which the
cursor is back at its starting value. -/
theorem cursor_advances_modulo_capacity_witness :
    (1 ≤ samplePlatform.XASU_MAX_BUFFERS ∧
      (sampleReady.ClientInstance.queue QueueId.P0Queue).NextFreeIndex
        < samplePlatform.XASU_MAX_BUFFERS) ∧
    ∃ rs w1, submissions samplePlatform 1
        ((List.replicate 8 sampleSubmitEnv).map (fun E => (some QueueId.P0Queue, E)))
        sampleReady = some (rs, w1) ∧
      (w1.ClientInstance.queue QueueId.P0Queue).NextFreeIndex =
        (sampleReady.ClientInstance.queue QueueId.P0Queue).NextFreeIndex ∧
      (rs.map Prod.fst).Nodup :=
  ⟨⟨by decide, by decide⟩,
    match cursor_advances_modulo_capacity samplePlatform 1 QueueId.P0Queue sampleReady
      (List.replicate 8 sampleSubmitEnv) (by decide) (by decide) (by decide) with
    | ⟨_, hres, hret⟩ =>
      match hret rfl (fun E hE => by
        rw [List.eq_of_mem_replicate hE]
        exact ⟨0, rfl, by decide⟩) with
      | ⟨rs, w1, h⟩ => ⟨rs, w1, h, ((hres rs w1 h).2.2 rfl).1, ((hres rs w1 h).2.2 rfl).2.1⟩⟩

/-- Claim C6: when a slot is resolved and the doorbell fails, that is
`XAsu_SendIpi` returns a status other than `XST_SUCCESS`,
`XAsu_UpdateQueueBufferNSendIpi` returns that status with any fuel, even none,
so without polling the completion flag, and the flag holds its value of
before the call.  The queue state stays advanced: the slot under the
pre-call cursor shows response-empty and request-full, `IsCmdPresent` is TRUE,
and the cursor is at the next index; for a capacity `C` with
`2 ≤ C < 2 ^ 32` a following `XAsu_GetChannelQueueBuf` returns a slot
different from the one just consumed. -/
theorem failed_doorbell_keeps_queue_advanced (P : Platform) (E : SubmitEnv) (q : QueueId)
    (w : World) (s : SlotRef)
    (hs : XAsu_GetChannelQueueBuf P (some q) w = some s)
    (hfail : (XAsu_SendIpi P E (XAsu_UpdateQueueBuffer P q s w)).1 ≠ P.XST_SUCCESS) :
    ∃ w1 : World,
      (∀ Fuel, XAsu_UpdateQueueBufferNSendIpi P E Fuel (some q) w =
        some ((XAsu_SendIpi P E (XAsu_UpdateQueueBuffer P q s w)).1, w1)) ∧
      w1.RecvDone = w.RecvDone ∧
      s = { ChannelQueue := (w.ClientInstance.queue q).ChannelQueue
            Index := (w.ClientInstance.queue q).NextFreeIndex } ∧
      ((w1.Shared s.ChannelQueue).ChannelQueueBufs s.Index).RespBufStatus = 0 ∧
      ((w1.Shared s.ChannelQueue).ChannelQueueBufs s.Index).ReqBufStatus
        = P.XASU_COMMAND_IS_PRESENT ∧
      (w1.Shared s.ChannelQueue).IsCmdPresent = TRUE ∧
      (w1.ClientInstance.queue q).NextFreeIndex =
        (if (w.ClientInstance.queue q).NextFreeIndex = lastIndex P then 0
         else (w.ClientInstance.queue q).NextFreeIndex + 1) ∧
      (2 ≤ P.XASU_MAX_BUFFERS → P.XASU_MAX_BUFFERS < 4294967296 →
        ∃ s1, XAsu_GetChannelQueueBuf P (some q) w1 = some s1 ∧ s1 ≠ s) := by
  obtain ⟨hle, hseq⟩ := XAsu_GetChannelQueueBuf_eq_some P q w s hs
  subst hseq
  obtain ⟨hc, _, hd, hm⟩ := XAsu_SendIpi_frame P E (XAsu_UpdateQueueBuffer P q
    { ChannelQueue := (w.ClientInstance.queue q).ChannelQueue
      Index := (w.ClientInstance.queue q).NextFreeIndex } w)
  have hsh := XAsu_UpdateQueueBuffer_shared P q w
  have hq1 : (XAsu_SendIpi P E (XAsu_UpdateQueueBuffer P q
      { ChannelQueue := (w.ClientInstance.queue q).ChannelQueue
        Index := (w.ClientInstance.queue q).NextFreeIndex } w)).2.ClientInstance.queue q =
      { ChannelQueue := (w.ClientInstance.queue q).ChannelQueue
        NextFreeIndex :=
          (if (w.ClientInstance.queue q).NextFreeIndex = lastIndex P then 0
           else (w.ClientInstance.queue q).NextFreeIndex + 1) } := by
    rw [hc]
    exact XAsu_Client.queue_setNextFreeIndex _ q _
  refine ⟨_, ?_, hd, rfl, ?_, ?_, ?_, ?_, ?_⟩
  · intro Fuel
    simp only [XAsu_UpdateQueueBufferNSendIpi, hs]
    rw [if_pos hfail]
  · rw [hm]; exact hsh.1
  · rw [hm]; exact hsh.2.1
  · rw [hm]; exact hsh.2.2
  · rw [hq1]
  · intro h2 h32
    have hl := lastIndex_eq P (by omega) h32
    have hle1 : ((XAsu_SendIpi P E (XAsu_UpdateQueueBuffer P q
        { ChannelQueue := (w.ClientInstance.queue q).ChannelQueue
          Index := (w.ClientInstance.queue q).NextFreeIndex } w)).2.ClientInstance.queue
          q).NextFreeIndex ≤ lastIndex P := by
      rw [hq1]
      show (if (w.ClientInstance.queue q).NextFreeIndex = lastIndex P then 0
        else (w.ClientInstance.queue q).NextFreeIndex + 1) ≤ lastIndex P
      split <;> omega
    refine ⟨_, XAsu_GetChannelQueueBuf_some P q _ hle1, ?_⟩
    rw [hq1]
    intro hcontra
    have hidx := congrArg SlotRef.Index hcontra
    simp only at hidx
    split at hidx <;> omega

/-- Claim C6 at a concrete input: the sample ready session, its high-priority
queue at cursor 0, and a mailbox driver that fails to send. -/
theorem failed_doorbell_keeps_queue_advanced_witness :
    (XAsu_GetChannelQueueBuf samplePlatform (some QueueId.P0Queue) sampleReady =
        some { ChannelQueue := XASU_SHARED_MEMORY_P0_CH_QUEUE, Index := 0 } ∧
      (XAsu_SendIpi samplePlatform sampleFailedSendEnv
        (XAsu_UpdateQueueBuffer samplePlatform QueueId.P0Queue
          { ChannelQueue := XASU_SHARED_MEMORY_P0_CH_QUEUE, Index := 0 } sampleReady)).1
        ≠ samplePlatform.XST_SUCCESS) ∧
    ∃ w1 : World,
      (∀ Fuel, XAsu_UpdateQueueBufferNSendIpi samplePlatform sampleFailedSendEnv Fuel
          (some QueueId.P0Queue) sampleReady = some (1, w1)) ∧
      w1.RecvDone = sampleReady.RecvDone ∧
      ((w1.Shared XASU_SHARED_MEMORY_P0_CH_QUEUE).ChannelQueueBufs 0).RespBufStatus = 0 ∧
      ((w1.Shared XASU_SHARED_MEMORY_P0_CH_QUEUE).ChannelQueueBufs 0).ReqBufStatus = 1 ∧
      (w1.Shared XASU_SHARED_MEMORY_P0_CH_QUEUE).IsCmdPresent = TRUE ∧
      (w1.ClientInstance.queue QueueId.P0Queue).NextFreeIndex = 1 ∧
      ∃ s1, XAsu_GetChannelQueueBuf samplePlatform (some QueueId.P0Queue) w1 = some s1 ∧
        s1 ≠ { ChannelQueue := XASU_SHARED_MEMORY_P0_CH_QUEUE, Index := 0 } :=
  ⟨⟨rfl, by decide⟩,
    match failed_doorbell_keeps_queue_advanced samplePlatform sampleFailedSendEnv
      QueueId.P0Queue sampleReady
      { ChannelQueue := XASU_SHARED_MEMORY_P0_CH_QUEUE, Index := 0 } rfl (by decide) with
    | ⟨w1, hret, hd, _, hresp, hreq, hcmd, hcur, hnext⟩ =>
      ⟨w1, hret, hd, hresp, hreq, hcmd, hcur, hnext (by decide) (by decide)⟩⟩

/-- Claim C7: on a platform where `XST_FAILURE` differs from `XST_SUCCESS`,
whenever `XAsu_UpdateQueueBufferNSendIpi` returns `XST_SUCCESS` the session
was ready, a slot was resolved, the doorbell was sent by `XMailbox_Send`, and
the busy wait that followed ended in a state whose `RecvDone` was read as
non-zero (as TRUE, when the flag held a truth value on entry); the state
returned is that state with `RecvDone` set to FALSE.  So success is never
returned while the polled flag is still FALSE. -/
theorem success_only_after_completion (P : Platform) (E : SubmitEnv) (Fuel : Nat)
    (QueueInfo : Option QueueId) (w w1 : World)
    (hne : P.XST_FAILURE ≠ P.XST_SUCCESS)
    (h : XAsu_UpdateQueueBufferNSendIpi P E Fuel QueueInfo w = some (P.XST_SUCCESS, w1)) :
    w1.RecvDone = FALSE ∧
    ∃ (q : QueueId) (s : SlotRef) (wp : World),
      QueueInfo = some q ∧
      XAsu_GetChannelQueueBuf P (some q) w = some s ∧
      w.ClientInstance.IsReady = XASU_CLIENT_READY ∧
      XAsu_SendIpi P E (XAsu_UpdateQueueBuffer P q s w) =
        (P.XST_SUCCESS, (XAsu_UpdateQueueBuffer P q s w).log
          (Event.XMailbox_Send XASU_TARGET_IPI_INT_MASK FALSE
            (XAsu_UpdateQueueBuffer P q s w).Shared)) ∧
      XAsu_WaitRecvDone E Fuel 0 ((XAsu_UpdateQueueBuffer P q s w).log
          (Event.XMailbox_Send XASU_TARGET_IPI_INT_MASK FALSE
            (XAsu_UpdateQueueBuffer P q s w).Shared)) = some wp ∧
      wp.RecvDone ≠ 0 ∧
      (w.RecvDone ≤ 1 → wp.RecvDone = TRUE) ∧
      w1 = { wp with RecvDone := FALSE } := by
  cases QueueInfo with
  | none =>
    simp only [XAsu_UpdateQueueBufferNSendIpi] at h
    exact absurd (congrArg Prod.fst (Option.some.inj h)) hne
  | some q =>
    cases hs : XAsu_GetChannelQueueBuf P (some q) w with
    | none =>
      simp only [XAsu_UpdateQueueBufferNSendIpi, hs] at h
      exact absurd (congrArg Prod.fst (Option.some.inj h)) hne
    | some s =>
      simp only [XAsu_UpdateQueueBufferNSendIpi, hs] at h
      split at h
      · rename_i hst
        exact absurd (congrArg Prod.fst (Option.some.inj h)) hst
      · rename_i hst
        have hst1 : (XAsu_SendIpi P E (XAsu_UpdateQueueBuffer P q s w)).1 = P.XST_SUCCESS :=
          not_not.1 hst
        have hR : w.ClientInstance.IsReady = XASU_CLIENT_READY := by
          by_contra hnr
          have hnr1 : (XAsu_UpdateQueueBuffer P q s w).ClientInstance.IsReady
              ≠ XASU_CLIENT_READY := by
            show (w.ClientInstance.setNextFreeIndex q _).IsReady ≠ XASU_CLIENT_READY
            rw [XAsu_Client.IsReady_setNextFreeIndex]; exact hnr
          rw [XAsu_SendIpi_not_ready P E _ hnr1] at hst1
          exact hne hst1
        have hR1 : (XAsu_UpdateQueueBuffer P q s w).ClientInstance.IsReady
            = XASU_CLIENT_READY := by
          show (w.ClientInstance.setNextFreeIndex q _).IsReady = XASU_CLIENT_READY
          rw [XAsu_Client.IsReady_setNextFreeIndex]; exact hR
        have hsend := XAsu_SendIpi_ready P E _ hR1
        rw [hsend] at h hst1
        simp only at h hst1
        split at h
        · cases h
        · rename_i wp hw
          have hw1 := congrArg Prod.snd (Option.some.inj h)
          simp only at hw1
          obtain ⟨_, _, _, hd, htrue⟩ := XAsu_WaitRecvDone_frame E Fuel 0 _ wp hw
          refine ⟨by rw [← hw1], q, s, wp, rfl, hs, hR, ?_, hw, hd, ?_, hw1.symm⟩
          · rw [hsend, hst1]
          · intro hle
            exact htrue hle

/-- Claim C7 at a concrete input: one submission on the high-priority queue
of the sample ready session, completed at once by the coprocessor. -/
theorem success_only_after_completion_witness :
    (samplePlatform.XST_FAILURE ≠ samplePlatform.XST_SUCCESS ∧
      XAsu_UpdateQueueBufferNSendIpi samplePlatform sampleSubmitEnv 1
        (some QueueId.P0Queue) sampleReady =
        some (samplePlatform.XST_SUCCESS,
          ((XAsu_UpdateQueueBufferNSendIpi samplePlatform sampleSubmitEnv 1
            (some QueueId.P0Queue) sampleReady).getD (1, sampleReady)).2)) ∧
    ((XAsu_UpdateQueueBufferNSendIpi samplePlatform sampleSubmitEnv 1
      (some QueueId.P0Queue) sampleReady).getD (1, sampleReady)).2.RecvDone = FALSE :=
  ⟨⟨by decide, rfl⟩,
    (success_only_after_completion samplePlatform sampleSubmitEnv 1 (some QueueId.P0Queue)
      sampleReady _ (by decide) rfl).1⟩

/-- Claim C9: in every state `w` that is ready, and so in every state left by
a call of `XAsu_ClientInit` that returned `XST_SUCCESS` (on a platform where
`XASU_ASUFW_NOT_PRESENT` differs from `XST_SUCCESS`), `XAsu_ClientInit`
returns `XST_SUCCESS` for every device identifier and every behaviour of the
environment, and returns the state it was given: cursors, queue bindings,
mailbox handle, readiness flag and log of external calls are the same, so
neither the probe nor the mailbox driver is called.  The same holds in the
state reached from `w` by any run of submissions. -/
theorem XAsu_ClientInit_idempotent (P : Platform) (w : World)
    (hw : w.ClientInstance.IsReady = XASU_CLIENT_READY ∨
      (P.XASU_ASUFW_NOT_PRESENT ≠ P.XST_SUCCESS ∧
        ∃ E0 DeviceId0 w0, XAsu_ClientInit P E0 DeviceId0 w0 = (P.XST_SUCCESS, w))) :
    (∀ E DeviceId, XAsu_ClientInit P E DeviceId w = (P.XST_SUCCESS, w)) ∧
    ∀ Fuel calls rs w2, submissions P Fuel calls w = some (rs, w2) →
      ∀ E DeviceId, XAsu_ClientInit P E DeviceId w2 = (P.XST_SUCCESS, w2) := by
  have ready : ∀ v : World, v.ClientInstance.IsReady = XASU_CLIENT_READY →
      ∀ E DeviceId, XAsu_ClientInit P E DeviceId v = (P.XST_SUCCESS, v) := by
    intro v hv E DeviceId
    unfold XAsu_ClientInit
    rw [if_pos hv]
  have hR : w.ClientInstance.IsReady = XASU_CLIENT_READY := by
    rcases hw with hR | ⟨hnp, E0, DeviceId0, w0, h0⟩
    · exact hR
    · by_cases hr0 : w0.ClientInstance.IsReady = XASU_CLIENT_READY
      · rw [ready w0 hr0 E0 DeviceId0] at h0
        cases h0
        exact hr0
      · rw [(XAsu_ClientInit_success P E0 DeviceId0 w0 w hnp hr0 h0).1]
  refine ⟨ready w hR, fun Fuel calls rs w2 hsub => ready w2 ?_⟩
  exact (submissions_IsReady P Fuel calls w (rs, w2) hsub).trans hR

/-- Claim C9 at a concrete input: the state left by a successful
initialisation, before and after two submissions on the high-priority queue. -/
theorem XAsu_ClientInit_idempotent_witness :
    XAsu_ClientInit samplePlatform sampleInitEnv 0 (World0 sampleShared) =
      (samplePlatform.XST_SUCCESS,
        (XAsu_ClientInit samplePlatform sampleInitEnv 0 (World0 sampleShared)).2) ∧
    XAsu_ClientInit samplePlatform sampleAbsentEnv 3
        (XAsu_ClientInit samplePlatform sampleInitEnv 0 (World0 sampleShared)).2 =
      (samplePlatform.XST_SUCCESS,
        (XAsu_ClientInit samplePlatform sampleInitEnv 0 (World0 sampleShared)).2) ∧
    ∀ rs w2, submissions samplePlatform 1
        (List.replicate 2 (some QueueId.P0Queue, sampleSubmitEnv))
        (XAsu_ClientInit samplePlatform sampleInitEnv 0 (World0 sampleShared)).2
          = some (rs, w2) →
      XAsu_ClientInit samplePlatform sampleAbsentEnv 3 w2 = (samplePlatform.XST_SUCCESS, w2) :=
  ⟨rfl,
    (XAsu_ClientInit_idempotent samplePlatform
      (XAsu_ClientInit samplePlatform sampleInitEnv 0 (World0 sampleShared)).2
      (Or.inr ⟨by decide, sampleInitEnv, 0, World0 sampleShared, rfl⟩)).1 sampleAbsentEnv 3,
    fun rs w2 h =>
      (XAsu_ClientInit_idempotent samplePlatform
        (XAsu_ClientInit samplePlatform sampleInitEnv 0 (World0 sampleShared)).2
        (Or.inr ⟨by decide, sampleInitEnv, 0, World0 sampleShared, rfl⟩)).2 1 _ rs w2 h
        sampleAbsentEnv 3⟩

/-- Claim C10: on a platform where `XST_FAILURE` differs from `XST_SUCCESS`,
from a session that is not ready, when the firmware-presence bit (mask `0x10`)
is clear in every word the readiness probe reads, `XAsu_ClientInit` returns
`XASU_ASUFW_NOT_PRESENT`; the client instance (both queue bindings and
cursors, mailbox handle, readiness flag), the completion flag, the handler
registration and the shared memory are unchanged, the session is still not
ready, and the log has grown only by reads of the control register and
sleeps: `XMailbox_Initialize` and `XMailbox_SetCallBack` are not called. -/
theorem XAsu_ClientInit_firmware_absent (P : Platform) (E : InitEnv) (DeviceId : Nat)
    (w : World) (hne : P.XST_FAILURE ≠ P.XST_SUCCESS)
    (hnr : w.ClientInstance.IsReady ≠ XASU_CLIENT_READY)
    (hbit : ∀ k, k < XASU_ASUFW_BIT_CHECK_TIMEOUT_VALUE →
      E.Xil_In32 k &&& ASU_GLOBAL_GLOBAL_CNTRL_FW_IS_PRESENT_MASK = 0) :
    (XAsu_ClientInit P E DeviceId w).1 = P.XASU_ASUFW_NOT_PRESENT ∧
    (XAsu_ClientInit P E DeviceId w).2.ClientInstance = w.ClientInstance ∧
    (XAsu_ClientInit P E DeviceId w).2.ClientInstance.IsReady ≠ XASU_CLIENT_READY ∧
    (XAsu_ClientInit P E DeviceId w).2.RecvDone = w.RecvDone ∧
    (XAsu_ClientInit P E DeviceId w).2.RecvHandler = w.RecvHandler ∧
    (XAsu_ClientInit P E DeviceId w).2.Shared = w.Shared ∧
    ∃ T : List Event, (XAsu_ClientInit P E DeviceId w).2.Trace = w.Trace ++ T ∧
      ∀ e ∈ T, e = Event.Xil_In32 ASU_GLOBAL_GLOBAL_CNTRL ∨ e = Event.usleep 1 := by
  have hfail : (XAsu_CheckAsufwPrsntBit P E w).1 ≠ P.XST_SUCCESS := by
    unfold XAsu_CheckAsufwPrsntBit
    rw [XAsu_CheckAsufwPrsntBit.loop_absent P E _ 0 w (fun k hk => hbit k (by omega))]
    exact hne
  have hinit : XAsu_ClientInit P E DeviceId w =
      (P.XASU_ASUFW_NOT_PRESENT, (XAsu_CheckAsufwPrsntBit P E w).2) := by
    unfold XAsu_ClientInit
    rw [if_neg hnr]
    simp only
    rw [if_pos hfail]
  obtain ⟨a, b, c, d, T, hT, hall⟩ := XAsu_CheckAsufwPrsntBit.loop_frame P E
    XASU_ASUFW_BIT_CHECK_TIMEOUT_VALUE 0 w
  rw [hinit]
  refine ⟨rfl, a, ?_, b, c, d, T, hT, hall⟩
  show (XAsu_CheckAsufwPrsntBit P E w).2.ClientInstance.IsReady ≠ XASU_CLIENT_READY
  unfold XAsu_CheckAsufwPrsntBit
  rw [a]
  exact hnr

/-- Claim C10 at a concrete input: the state at program start and a control
register that always reads zero. -/
theorem XAsu_ClientInit_firmware_absent_witness :
    (samplePlatform.XST_FAILURE ≠ samplePlatform.XST_SUCCESS ∧
      (World0 sampleShared).ClientInstance.IsReady ≠ XASU_CLIENT_READY) ∧
    (XAsu_ClientInit samplePlatform sampleAbsentEnv 0 (World0 sampleShared)).1 =
      samplePlatform.XASU_ASUFW_NOT_PRESENT ∧
    (XAsu_ClientInit samplePlatform sampleAbsentEnv 0 (World0 sampleShared)).2.ClientInstance =
      ClientInstance0 ∧
    (XAsu_ClientInit samplePlatform sampleAbsentEnv 0 (World0 sampleShared)).2.RecvHandler =
      false :=
  ⟨⟨by decide, by decide⟩,
    match XAsu_ClientInit_firmware_absent samplePlatform sampleAbsentEnv 0 (World0 sampleShared)
      (by decide) (by decide) (fun _ _ => Nat.zero_and _) with
    | ⟨h1, h2, _, _, h5, _⟩ => ⟨h1, h2, h5⟩⟩

/-- Claim C11: from a session that is not ready, when a word among the first
`0xFFFFF` reads of the control register shows the firmware-presence bit,
`XMailbox_Initialize` returns `XST_SUCCESS` and `XMailbox_SetCallBack` returns
`XST_SUCCESS`, `XAsu_ClientInit` returns `XST_SUCCESS`, and afterwards the
session is ready, the mailbox handle is bound, the high-priority queue is
bound to `0xEBE415B8` and the low-priority queue to `0xEBE41ADC`, both
cursors are 0, and the mailbox driver holds `XAsu_DoorBellToClient` as its
receive handler. -/
theorem XAsu_ClientInit_ready (P : Platform) (E : InitEnv) (DeviceId : Nat) (w : World)
    (hnr : w.ClientInstance.IsReady ≠ XASU_CLIENT_READY)
    (hprobe : ∃ k, k < XASU_ASUFW_BIT_CHECK_TIMEOUT_VALUE ∧
      E.Xil_In32 k &&& ASU_GLOBAL_GLOBAL_CNTRL_FW_IS_PRESENT_MASK
        = ASU_GLOBAL_GLOBAL_CNTRL_FW_IS_PRESENT_MASK)
    (hinit : E.XMailbox_Initialize DeviceId = P.XST_SUCCESS)
    (hcb : E.XMailbox_SetCallBack = P.XST_SUCCESS) :
    (XAsu_ClientInit P E DeviceId w).1 = P.XST_SUCCESS ∧
    (XAsu_ClientInit P E DeviceId w).2.ClientInstance.IsReady = XASU_CLIENT_READY ∧
    (XAsu_ClientInit P E DeviceId w).2.ClientInstance.MailboxPtr = MailboxRef.MailboxInstance ∧
    (XAsu_ClientInit P E DeviceId w).2.ClientInstance.P0Queue =
      { ChannelQueue := 0xEBE415B8, NextFreeIndex := 0 } ∧
    (XAsu_ClientInit P E DeviceId w).2.ClientInstance.P1Queue =
      { ChannelQueue := 0xEBE41ADC, NextFreeIndex := 0 } ∧
    (XAsu_ClientInit P E DeviceId w).2.RecvHandler = true := by
  obtain ⟨k, _, _, _, hp⟩ := XAsu_CheckAsufwPrsntBit_present P E w hprobe
  have hi : (XMailbox_Initialize E DeviceId
      { w with Trace := w.Trace ++ (clearPolls k
        ++ [Event.Xil_In32 ASU_GLOBAL_GLOBAL_CNTRL]) }).1 = P.XST_SUCCESS := hinit
  unfold XAsu_ClientInit
  rw [if_neg hnr]
  simp only [hp, ne_eq, not_true_eq_false, if_false, hi]
  refine ⟨hcb, rfl, rfl, rfl, rfl, ?_⟩
  simp [XMailbox_SetCallBack, hcb]

/-- Claim C11 at a concrete input: the state at program start, the firmware
present at the first read, and a mailbox driver that succeeds. -/
theorem XAsu_ClientInit_ready_witness :
    ((World0 sampleShared).ClientInstance.IsReady ≠ XASU_CLIENT_READY ∧
      sampleInitEnv.XMailbox_Initialize 0 = samplePlatform.XST_SUCCESS ∧
      sampleInitEnv.XMailbox_SetCallBack = samplePlatform.XST_SUCCESS) ∧
    (XAsu_ClientInit samplePlatform sampleInitEnv 0 (World0 sampleShared)).1
      = samplePlatform.XST_SUCCESS ∧
    (XAsu_ClientInit samplePlatform sampleInitEnv 0 (World0 sampleShared)).2.ClientInstance.IsReady
      = XASU_CLIENT_READY ∧
    (XAsu_ClientInit samplePlatform sampleInitEnv 0
      (World0 sampleShared)).2.ClientInstance.MailboxPtr = MailboxRef.MailboxInstance ∧
    (XAsu_ClientInit samplePlatform sampleInitEnv 0 (World0 sampleShared)).2.ClientInstance.P0Queue
      = { ChannelQueue := 0xEBE415B8, NextFreeIndex := 0 } ∧
    (XAsu_ClientInit samplePlatform sampleInitEnv 0 (World0 sampleShared)).2.ClientInstance.P1Queue
      = { ChannelQueue := 0xEBE41ADC, NextFreeIndex := 0 } ∧
    (XAsu_ClientInit samplePlatform sampleInitEnv 0 (World0 sampleShared)).2.RecvHandler = true :=
  ⟨⟨by decide, rfl, rfl⟩,
    XAsu_ClientInit_ready samplePlatform sampleInitEnv 0 (World0 sampleShared) (by decide)
      ⟨0, by decide, Nat.and_self _⟩ rfl rfl⟩

/-- Claim C12: from a session that is not ready, when a word among the first
`0xFFFFF` reads shows the firmware-presence bit and `XMailbox_Initialize`
returns a status other than `XST_SUCCESS`, `XAsu_ClientInit` returns exactly
that status and leaves the session as it was: the client instance (readiness
flag, queue bindings, cursors, mailbox handle) is unchanged, so the session is
still not ready and a handle that was unbound is still unbound; the handler
registration, the completion flag and the shared memory are unchanged; and
the log has grown by the reads and sleeps of the probe and the one call of
`XMailbox_Initialize`, without any call of `XMailbox_SetCallBack`. -/
theorem XAsu_ClientInit_transport_error (P : Platform) (E : InitEnv) (DeviceId : Nat)
    (w : World)
    (hnr : w.ClientInstance.IsReady ≠ XASU_CLIENT_READY)
    (hprobe : ∃ k, k < XASU_ASUFW_BIT_CHECK_TIMEOUT_VALUE ∧
      E.Xil_In32 k &&& ASU_GLOBAL_GLOBAL_CNTRL_FW_IS_PRESENT_MASK
        = ASU_GLOBAL_GLOBAL_CNTRL_FW_IS_PRESENT_MASK)
    (herr : E.XMailbox_Initialize DeviceId ≠ P.XST_SUCCESS) :
    (XAsu_ClientInit P E DeviceId w).1 = E.XMailbox_Initialize DeviceId ∧
    (XAsu_ClientInit P E DeviceId w).2.ClientInstance = w.ClientInstance ∧
    (XAsu_ClientInit P E DeviceId w).2.ClientInstance.IsReady ≠ XASU_CLIENT_READY ∧
    (w.ClientInstance.MailboxPtr = MailboxRef.NULL →
      (XAsu_ClientInit P E DeviceId w).2.ClientInstance.MailboxPtr = MailboxRef.NULL) ∧
    (XAsu_ClientInit P E DeviceId w).2.RecvHandler = w.RecvHandler ∧
    (XAsu_ClientInit P E DeviceId w).2.RecvDone = w.RecvDone ∧
    (XAsu_ClientInit P E DeviceId w).2.Shared = w.Shared ∧
    ∃ k, k < XASU_ASUFW_BIT_CHECK_TIMEOUT_VALUE ∧
      (XAsu_ClientInit P E DeviceId w).2.Trace =
        w.Trace ++ (clearPolls k ++ [Event.Xil_In32 ASU_GLOBAL_GLOBAL_CNTRL])
          ++ [Event.XMailbox_Initialize DeviceId] := by
  obtain ⟨k, hk, _, _, hp⟩ := XAsu_CheckAsufwPrsntBit_present P E w hprobe
  have hi : (XMailbox_Initialize E DeviceId
      { w with Trace := w.Trace ++ (clearPolls k
        ++ [Event.Xil_In32 ASU_GLOBAL_GLOBAL_CNTRL]) }).1 ≠ P.XST_SUCCESS := herr
  have hres : XAsu_ClientInit P E DeviceId w = XMailbox_Initialize E DeviceId
      { w with Trace := w.Trace ++ (clearPolls k
        ++ [Event.Xil_In32 ASU_GLOBAL_GLOBAL_CNTRL]) } := by
    unfold XAsu_ClientInit
    rw [if_neg hnr]
    simp only [hp, ne_eq, not_true_eq_false, if_false]
    rw [if_pos hi]
  rw [hres]
  exact ⟨rfl, rfl, hnr, fun h => h, rfl, rfl, rfl, k, hk, rfl⟩

/-- Claim C12 at a concrete input: the state at program start, the firmware
present at the first read, and `XMailbox_Initialize` returning 1. -/
theorem XAsu_ClientInit_transport_error_witness :
    ((World0 sampleShared).ClientInstance.IsReady ≠ XASU_CLIENT_READY ∧
      sampleInitializeFailsEnv.XMailbox_Initialize 0 ≠ samplePlatform.XST_SUCCESS) ∧
    (XAsu_ClientInit samplePlatform sampleInitializeFailsEnv 0 (World0 sampleShared)).1 = 1 ∧
    (XAsu_ClientInit samplePlatform sampleInitializeFailsEnv 0
      (World0 sampleShared)).2.ClientInstance = ClientInstance0 ∧
    (XAsu_ClientInit samplePlatform sampleInitializeFailsEnv 0
      (World0 sampleShared)).2.RecvHandler = false :=
  ⟨⟨by decide, by decide⟩,
    match XAsu_ClientInit_transport_error samplePlatform sampleInitializeFailsEnv 0
      (World0 sampleShared) (by decide) ⟨0, by decide, Nat.and_self _⟩ (by decide) with
    | ⟨h1, h2, _, _, h5, _⟩ => ⟨h1, h2, h5⟩⟩

/-- Claim C13, the code at a failing input: from the state at program start,
with the firmware present, `XMailbox_Initialize` succeeding and
`XMailbox_SetCallBack` returning 1, `XAsu_ClientInit` returns 1, which is not
`XST_SUCCESS`, and yet leaves the session ready with no receive handler
registered; a second `XAsu_ClientInit` then returns `XST_SUCCESS` at once and
leaves that state as it is, the handler still not registered. -/
theorem XAsu_ClientInit_ready_despite_failure :
    (XAsu_ClientInit samplePlatform sampleSetCallBackFailsEnv 0 (World0 sampleShared)).1 = 1 ∧
    (XAsu_ClientInit samplePlatform sampleSetCallBackFailsEnv 0 (World0 sampleShared)).1
      ≠ samplePlatform.XST_SUCCESS ∧
    (XAsu_ClientInit samplePlatform sampleSetCallBackFailsEnv 0
      (World0 sampleShared)).2.ClientInstance.IsReady = XASU_CLIENT_READY ∧
    (XAsu_ClientInit samplePlatform sampleSetCallBackFailsEnv 0
      (World0 sampleShared)).2.RecvHandler = false ∧
    XAsu_ClientInit samplePlatform sampleInitEnv 0
        (XAsu_ClientInit samplePlatform sampleSetCallBackFailsEnv 0 (World0 sampleShared)).2 =
      (samplePlatform.XST_SUCCESS,
        (XAsu_ClientInit samplePlatform sampleSetCallBackFailsEnv 0 (World0 sampleShared)).2) := by
  refine ⟨?_, ?_, ?_, ?_, rfl⟩
  · decide
  · decide
  · decide
  · decide

/-- Claim C15: on a platform where `XASU_PRIORITY_HIGH` and
`XASU_PRIORITY_LOW` are different values, `XAsu_GetQueueInfo` returns the
pointer to the `P0Queue` of the client instance for `XASU_PRIORITY_HIGH`, the
pointer to its `P1Queue` for `XASU_PRIORITY_LOW`, and `NULL` for every other
value; the two pointers returned are different and neither is `NULL`. -/
theorem XAsu_GetQueueInfo_spec (P : Platform)
    (hne : P.XASU_PRIORITY_HIGH ≠ P.XASU_PRIORITY_LOW) :
    XAsu_GetQueueInfo P P.XASU_PRIORITY_HIGH = some QueueId.P0Queue ∧
    XAsu_GetQueueInfo P P.XASU_PRIORITY_LOW = some QueueId.P1Queue ∧
    (∀ c : XAsu_Client,
      (XAsu_GetQueueInfo P P.XASU_PRIORITY_HIGH).map c.queue = some c.P0Queue ∧
      (XAsu_GetQueueInfo P P.XASU_PRIORITY_LOW).map c.queue = some c.P1Queue) ∧
    (∀ p : Nat, p ≠ P.XASU_PRIORITY_HIGH → p ≠ P.XASU_PRIORITY_LOW →
      XAsu_GetQueueInfo P p = none) ∧
    XAsu_GetQueueInfo P P.XASU_PRIORITY_HIGH ≠ XAsu_GetQueueInfo P P.XASU_PRIORITY_LOW ∧
    XAsu_GetQueueInfo P P.XASU_PRIORITY_HIGH ≠ none ∧
    XAsu_GetQueueInfo P P.XASU_PRIORITY_LOW ≠ none := by
  have hH : XAsu_GetQueueInfo P P.XASU_PRIORITY_HIGH = some QueueId.P0Queue := by
    simp [XAsu_GetQueueInfo]
  have hL : XAsu_GetQueueInfo P P.XASU_PRIORITY_LOW = some QueueId.P1Queue := by
    simp [XAsu_GetQueueInfo, Ne.symm hne]
  refine ⟨hH, hL, fun c => ?_, fun p h1 h2 => ?_, ?_, ?_, ?_⟩
  · rw [hH, hL]
    exact ⟨rfl, rfl⟩
  · simp [XAsu_GetQueueInfo, h1, h2]
  · rw [hH, hL]
    decide
  · rw [hH]
    exact Option.some_ne_none _
  · rw [hL]
    exact Option.some_ne_none _

/-- Claim C15 at a concrete input: the sample platform, whose priorities are
0 and 1, and the value 2, which is neither. -/
theorem XAsu_GetQueueInfo_spec_witness :
    samplePlatform.XASU_PRIORITY_HIGH ≠ samplePlatform.XASU_PRIORITY_LOW ∧
    XAsu_GetQueueInfo samplePlatform 0 = some QueueId.P0Queue ∧
    XAsu_GetQueueInfo samplePlatform 1 = some QueueId.P1Queue ∧
    XAsu_GetQueueInfo samplePlatform 2 = none :=
  ⟨by decide,
    (XAsu_GetQueueInfo_spec samplePlatform (by decide)).1,
    (XAsu_GetQueueInfo_spec samplePlatform (by decide)).2.1,
    (XAsu_GetQueueInfo_spec samplePlatform (by decide)).2.2.2.1 2 (by decide) (by decide)⟩

/-- Claim C20: on a platform where `XST_FAILURE` differs from `XST_SUCCESS`,
for every sequence of words read from the ASU global control register,
`XAsu_CheckAsufwPrsntBit` (a total function, so it terminates) returns
`XST_SUCCESS` if and only if bit `0x10` is set in at least one of the first
`0xFFFFF` words, and `XST_FAILURE` otherwise.  When the first word showing
the bit is the one read after `k` clear polls, the log grows by those `k`
polls, each followed by a sleep, and by that last read, with nothing after
it; when no word shows the bit, the log grows by `0xFFFFF` polls each
followed by a sleep.  Two sequences of words that agree on bit `0x10` give
the same result, and the number of reads is at most `0xFFFFF`. -/
theorem XAsu_CheckAsufwPrsntBit_spec (P : Platform) (E : InitEnv) (w : World)
    (hne : P.XST_FAILURE ≠ P.XST_SUCCESS) :
    ((XAsu_CheckAsufwPrsntBit P E w).1 = P.XST_SUCCESS ↔
      ∃ k, k < 0xFFFFF ∧ E.Xil_In32 k &&& 0x10 = 0x10) ∧
    ((XAsu_CheckAsufwPrsntBit P E w).1 = P.XST_SUCCESS ∨
      (XAsu_CheckAsufwPrsntBit P E w).1 = P.XST_FAILURE) ∧
    (∀ k, k < 0xFFFFF → E.Xil_In32 k &&& 0x10 = 0x10 →
      (∀ j, j < k → ¬ (E.Xil_In32 j &&& 0x10 = 0x10)) →
      XAsu_CheckAsufwPrsntBit P E w =
        (P.XST_SUCCESS,
          { w with Trace := w.Trace ++ (clearPolls k
              ++ [Event.Xil_In32 ASU_GLOBAL_GLOBAL_CNTRL]) })) ∧
    ((∀ k, k < 0xFFFFF → ¬ (E.Xil_In32 k &&& 0x10 = 0x10)) →
      XAsu_CheckAsufwPrsntBit P E w =
        (P.XST_FAILURE, { w with Trace := w.Trace ++ clearPolls 0xFFFFF })) ∧
    (∀ E1 : InitEnv, (∀ k, E1.Xil_In32 k &&& 0x10 = E.Xil_In32 k &&& 0x10) →
      XAsu_CheckAsufwPrsntBit P E1 w = XAsu_CheckAsufwPrsntBit P E w) ∧
    ∃ T : List Event, (XAsu_CheckAsufwPrsntBit P E w).2.Trace = w.Trace ++ T ∧
      (T.filter Event.isRead).length ≤ 0xFFFFF := by
  have found : ∀ (E0 : InitEnv) (k : Nat), k < 0xFFFFF → E0.Xil_In32 k &&& 0x10 = 0x10 →
      (∀ j, j < k → ¬ (E0.Xil_In32 j &&& 0x10 = 0x10)) →
      XAsu_CheckAsufwPrsntBit P E0 w =
        (P.XST_SUCCESS,
          { w with Trace := w.Trace ++ (clearPolls k
              ++ [Event.Xil_In32 ASU_GLOBAL_GLOBAL_CNTRL]) }) := by
    intro E0 k hk hbit hmin
    unfold XAsu_CheckAsufwPrsntBit
    exact XAsu_CheckAsufwPrsntBit.loop_found P E0 _ 0 w k hk
      (by rw [Nat.zero_add]; exact hbit)
      (fun j hj => by rw [Nat.zero_add]; exact hmin j hj)
  have exhausted : ∀ (E0 : InitEnv), (∀ k, k < 0xFFFFF → ¬ (E0.Xil_In32 k &&& 0x10 = 0x10)) →
      XAsu_CheckAsufwPrsntBit P E0 w =
        (P.XST_FAILURE, { w with Trace := w.Trace ++ clearPolls 0xFFFFF }) := by
    intro E0 hclear
    unfold XAsu_CheckAsufwPrsntBit
    exact XAsu_CheckAsufwPrsntBit.loop_exhausted P E0 _ 0 w
      (fun j hj => by rw [Nat.zero_add]; exact hclear j hj)
  have first : ∀ (E0 : InitEnv), (∃ k, k < 0xFFFFF ∧ E0.Xil_In32 k &&& 0x10 = 0x10) →
      ∃ k, k < 0xFFFFF ∧ E0.Xil_In32 k &&& 0x10 = 0x10 ∧
        ∀ j, j < k → ¬ (E0.Xil_In32 j &&& 0x10 = 0x10) := by
    intro E0 h
    obtain ⟨k, hk, hbit, hmin, _⟩ := XAsu_CheckAsufwPrsntBit_present P E0 w h
    exact ⟨k, hk, hbit, hmin⟩
  refine ⟨?_, ?_, found E, exhausted E, ?_, ?_⟩
  · constructor
    · intro hs
      by_contra hno
      have hclear : ∀ k, k < 0xFFFFF → ¬ (E.Xil_In32 k &&& 0x10 = 0x10) :=
        fun k hk hb => hno ⟨k, hk, hb⟩
      rw [exhausted E hclear] at hs
      exact hne hs
    · intro h
      obtain ⟨k, hk, hbit, hmin⟩ := first E h
      rw [found E k hk hbit hmin]
  · by_cases h : ∃ k, k < 0xFFFFF ∧ E.Xil_In32 k &&& 0x10 = 0x10
    · obtain ⟨k, hk, hbit, hmin⟩ := first E h
      rw [found E k hk hbit hmin]
      exact Or.inl rfl
    · have hclear : ∀ k, k < 0xFFFFF → ¬ (E.Xil_In32 k &&& 0x10 = 0x10) :=
        fun k hk hb => h ⟨k, hk, hb⟩
      rw [exhausted E hclear]
      exact Or.inr rfl
  · intro E1 hagree
    by_cases h : ∃ k, k < 0xFFFFF ∧ E.Xil_In32 k &&& 0x10 = 0x10
    · obtain ⟨k, hk, hbit, hmin⟩ := first E h
      rw [found E k hk hbit hmin,
        found E1 k hk (by rw [hagree]; exact hbit) (fun j hj => by rw [hagree]; exact hmin j hj)]
    · have hclear : ∀ k, k < 0xFFFFF → ¬ (E.Xil_In32 k &&& 0x10 = 0x10) :=
        fun k hk hb => h ⟨k, hk, hb⟩
      rw [exhausted E hclear, exhausted E1 (fun k hk => by rw [hagree]; exact hclear k hk)]
  · by_cases h : ∃ k, k < 0xFFFFF ∧ E.Xil_In32 k &&& 0x10 = 0x10
    · obtain ⟨k, hk, hbit, hmin⟩ := first E h
      rw [found E k hk hbit hmin]
      refine ⟨_, rfl, ?_⟩
      rw [List.filter_append, List.length_append, clearPolls_reads]
      simp only [List.filter, Event.isRead, List.length_singleton]
      omega
    · have hclear : ∀ k, k < 0xFFFFF → ¬ (E.Xil_In32 k &&& 0x10 = 0x10) :=
        fun k hk hb => h ⟨k, hk, hb⟩
      rw [exhausted E hclear]
      exact ⟨_, rfl, le_of_eq (clearPolls_reads _)⟩

/-- Claim C20 at a concrete input: the sample platform and a control register
that shows the bit at the first read. -/
theorem XAsu_CheckAsufwPrsntBit_spec_witness :
    samplePlatform.XST_FAILURE ≠ samplePlatform.XST_SUCCESS ∧
    XAsu_CheckAsufwPrsntBit samplePlatform sampleInitEnv (World0 sampleShared) =
      (samplePlatform.XST_SUCCESS,
        { World0 sampleShared with
          Trace := (World0 sampleShared).Trace ++ (clearPolls 0
            ++ [Event.Xil_In32 ASU_GLOBAL_GLOBAL_CNTRL]) }) :=
  ⟨by decide,
    (XAsu_CheckAsufwPrsntBit_spec samplePlatform sampleInitEnv (World0 sampleShared)
      (by decide)).2.2.1 0 (by decide) (Nat.and_self _) (fun j hj => absurd hj (Nat.not_lt_zero j))⟩

/-- Claim C14: a submission on one queue that returns, with whatever status,
leaves the `XAsu_QueueInfo` of the other queue, that is its `NextFreeIndex`
and its binding, as it was; and when the two queues are bound to different
channel queues, as they are after initialisation, and the coprocessor does
not write the other channel queue, it leaves that channel queue, all its
slots included, as it was.  This holds for the high-priority queue against
the low-priority one and the other way round. -/
theorem priority_independence (P : Platform) (E : SubmitEnv) (Fuel : Nat) (q q1 : QueueId)
    (w : World) (r : Int × World) (hq : q ≠ q1)
    (h : XAsu_UpdateQueueBufferNSendIpi P E Fuel (some q) w = some r) :
    r.2.ClientInstance.queue q1 = w.ClientInstance.queue q1 ∧
    (r.2.ClientInstance.queue q1).NextFreeIndex = (w.ClientInstance.queue q1).NextFreeIndex ∧
    (r.2.ClientInstance.queue q1).ChannelQueue = (w.ClientInstance.queue q1).ChannelQueue ∧
    ((w.ClientInstance.queue q).ChannelQueue ≠ (w.ClientInstance.queue q1).ChannelQueue →
      (∀ m : SharedMem, E.Coprocessor m (w.ClientInstance.queue q1).ChannelQueue
        = m (w.ClientInstance.queue q1).ChannelQueue) →
      r.2.Shared (w.ClientInstance.queue q1).ChannelQueue
        = w.Shared (w.ClientInstance.queue q1).ChannelQueue) := by
  have hc : r.2.ClientInstance.queue q1 = w.ClientInstance.queue q1 := by
    rcases XAsu_UpdateQueueBufferNSendIpi_ClientInstance P E Fuel (some q) w r h with
      h0 | ⟨q0, hq0, _, h1⟩
    · rw [h0]
    · cases hq0
      rw [h1, XAsu_Client.queue_setNextFreeIndex_other _ _ _ _ hq]
  refine ⟨hc, by rw [hc], by rw [hc], fun hb hcop => ?_⟩
  exact XAsu_UpdateQueueBufferNSendIpi_shared_other P E Fuel q w r _ h (Ne.symm hb) hcop

/-- Claim C14 at a concrete input: one submission on the high-priority queue
of the sample ready session, seen from the low-priority queue. -/
theorem priority_independence_witness :
    (QueueId.P0Queue ≠ QueueId.P1Queue ∧
      XAsu_UpdateQueueBufferNSendIpi samplePlatform sampleSubmitEnv 1
        (some QueueId.P0Queue) sampleReady =
        some ((XAsu_UpdateQueueBufferNSendIpi samplePlatform sampleSubmitEnv 1
          (some QueueId.P0Queue) sampleReady).getD (1, sampleReady))) ∧
    ((XAsu_UpdateQueueBufferNSendIpi samplePlatform sampleSubmitEnv 1
        (some QueueId.P0Queue) sampleReady).getD (1, sampleReady)).2.ClientInstance.queue
        QueueId.P1Queue = sampleReady.ClientInstance.queue QueueId.P1Queue ∧
    ((XAsu_UpdateQueueBufferNSendIpi samplePlatform sampleSubmitEnv 1
        (some QueueId.P0Queue) sampleReady).getD (1, sampleReady)).2.Shared
        XASU_SHARED_MEMORY_P1_CH_QUEUE = sampleReady.Shared XASU_SHARED_MEMORY_P1_CH_QUEUE :=
  ⟨⟨by decide, rfl⟩,
    (priority_independence samplePlatform sampleSubmitEnv 1 QueueId.P0Queue QueueId.P1Queue
      sampleReady _ (by decide) rfl).1,
    (priority_independence samplePlatform sampleSubmitEnv 1 QueueId.P0Queue QueueId.P1Queue
      sampleReady _ (by decide) rfl).2.2.2 (by decide) (fun _ => rfl)⟩

/-- Claim C16: for a capacity `C` with `1 ≤ C < 2 ^ 32`, in every state
reached from the zero-initialised session, over any shared memory, by any
sequence of calls of `XAsu_ClientInit`, `XAsu_GetQueueInfo`,
`XAsu_GetChannelQueueBuf` and `XAsu_UpdateQueueBufferNSendIpi` and of
completion interrupts, with arbitrary outcomes of the probe, the mailbox
driver and the coprocessor, the `NextFreeIndex` of the high-priority queue and
that of the low-priority queue are both below `C`. -/
theorem cursors_in_range (P : Platform) (calls : List Call) (m : SharedMem) (w : World)
    (h1 : 1 ≤ P.XASU_MAX_BUFFERS) (h32 : P.XASU_MAX_BUFFERS < 4294967296)
    (h : runCalls P calls (World0 m) = some w) :
    w.ClientInstance.P0Queue.NextFreeIndex < P.XASU_MAX_BUFFERS ∧
    w.ClientInstance.P1Queue.NextFreeIndex < P.XASU_MAX_BUFFERS := by
  have hinv := runCalls_cursors P h1 h32 calls (World0 m) w
    (fun q => by cases q <;> exact h1) h
  exact ⟨hinv QueueId.P0Queue, hinv QueueId.P1Queue⟩

/-- Claim C16 at a concrete input: eight slots, and the sample client program
run from the state at program start. -/
theorem cursors_in_range_witness :
    (1 ≤ samplePlatform.XASU_MAX_BUFFERS ∧
      runCalls samplePlatform sampleCalls (World0 sampleShared) =
        some ((runCalls samplePlatform sampleCalls (World0 sampleShared)).getD sampleReady)) ∧
    ((runCalls samplePlatform sampleCalls
        (World0 sampleShared)).getD sampleReady).ClientInstance.P0Queue.NextFreeIndex
      < samplePlatform.XASU_MAX_BUFFERS :=
  ⟨⟨by decide, rfl⟩,
    (cursors_in_range samplePlatform sampleCalls sampleShared
      ((runCalls samplePlatform sampleCalls (World0 sampleShared)).getD sampleReady)
      (by decide) (by decide) rfl).1⟩

/-- Claim C17: `XAsu_GetQueueInfo` and `XAsu_GetChannelQueueBuf` leave the
state as it is, so both cursors, every slot and the readiness flag are
unchanged; the slot that `XAsu_GetChannelQueueBuf` returns is determined by
the client instance alone; and after any number of calls of the two
functions, with no submission in between, the next acquisition returns the
slot that the first one returned. -/
theorem acquisition_changes_nothing (P : Platform) (w : World) :
    (∀ p, (Call.GetQueueInfo p).run P w = some w) ∧
    (∀ QueueInfo, (Call.GetChannelQueueBuf QueueInfo).run P w = some w) ∧
    (∀ QueueInfo (v : World), v.ClientInstance = w.ClientInstance →
      XAsu_GetChannelQueueBuf P QueueInfo v = XAsu_GetChannelQueueBuf P QueueInfo w) ∧
    ∀ calls : List Call,
      (∀ c ∈ calls, (∃ p, c = Call.GetQueueInfo p) ∨
        (∃ QueueInfo, c = Call.GetChannelQueueBuf QueueInfo)) →
      runCalls P calls w = some w ∧
      ∀ QueueInfo w1, runCalls P calls w = some w1 →
        w1.ClientInstance = w.ClientInstance ∧ w1.Shared = w.Shared ∧
        XAsu_GetChannelQueueBuf P QueueInfo w1 = XAsu_GetChannelQueueBuf P QueueInfo w := by
  refine ⟨fun _ => rfl, fun _ => rfl, fun QueueInfo v hv => ?_, fun calls => ?_⟩
  · cases QueueInfo with
    | none => rfl
    | some q => simp only [XAsu_GetChannelQueueBuf, hv]
  · intro hcalls
    have hrun : runCalls P calls w = some w := by
      induction calls with
      | nil => rfl
      | cons c calls ih =>
        have hc : c.run P w = some w := by
          rcases hcalls c (List.mem_cons_self _ _) with ⟨p, hp⟩ | ⟨QueueInfo, hq⟩
          · rw [hp]; rfl
          · rw [hq]; rfl
        simp only [runCalls, hc]
        exact ih (fun c1 hc1 => hcalls c1 (List.mem_cons_of_mem _ hc1))
    refine ⟨hrun, fun QueueInfo w1 h1 => ?_⟩
    rw [hrun] at h1
    cases h1
    exact ⟨rfl, rfl, rfl⟩

/-- Claim C18, counterexample: with eight slots, after an initialisation and
eight submissions on the high-priority queue whose doorbell was not sent, the
cursor is back at 0 and slot 0 still shows request-status full and
response-status empty; all the same `XAsu_GetChannelQueueBuf` returns slot 0,
not `NULL`, and a ninth submission uses it: it returns `XST_SUCCESS` and moves
the cursor on to 1. -/
theorem owned_slot_is_reused :
    ∃ w w9,
      runCalls samplePlatform sampleUnservedCalls (World0 sampleShared) = some w ∧
      w.ClientInstance.P0Queue.NextFreeIndex = 0 ∧
      ((w.Shared XASU_SHARED_MEMORY_P0_CH_QUEUE).ChannelQueueBufs 0).ReqBufStatus
        = samplePlatform.XASU_COMMAND_IS_PRESENT ∧
      ((w.Shared XASU_SHARED_MEMORY_P0_CH_QUEUE).ChannelQueueBufs 0).RespBufStatus = 0 ∧
      XAsu_GetChannelQueueBuf samplePlatform (some QueueId.P0Queue) w
        = some { ChannelQueue := XASU_SHARED_MEMORY_P0_CH_QUEUE, Index := 0 } ∧
      XAsu_GetChannelQueueBuf samplePlatform (some QueueId.P0Queue) w ≠ none ∧
      XAsu_UpdateQueueBufferNSendIpi samplePlatform sampleSubmitEnv 1
        (some QueueId.P0Queue) w = some (samplePlatform.XST_SUCCESS, w9) ∧
      w9.ClientInstance.P0Queue.NextFreeIndex = 1 := by
  refine ⟨_, _, rfl, ?_, ?_, ?_, ?_, ?_, rfl, ?_⟩
  · decide
  · decide
  · decide
  · decide
  · decide
  · decide

/-- Claim C18, amended: for a capacity `C` with `1 ≤ C < 2 ^ 32`, in every
reachable state `XAsu_GetChannelQueueBuf` returns the slot at the current
cursor and `XAsu_UpdateQueueBufferNSendIpi` writes response-empty and
request-full into it whatever the shared memory holds, so also when the slot
shows request-status full and response-status empty: the client does not read
the status flags.  A slot is kept from reuse by the ring order of the cursor
alone: among any `C` or fewer consecutive submissions on one queue, no slot
is used twice. -/
theorem slot_reuse_follows_cursor (P : Platform) (calls : List Call) (m : SharedMem)
    (w : World) (q : QueueId)
    (h1 : 1 ≤ P.XASU_MAX_BUFFERS) (h32 : P.XASU_MAX_BUFFERS < 4294967296)
    (hreach : runCalls P calls (World0 m) = some w) :
    (∀ m1 : SharedMem, XAsu_GetChannelQueueBuf P (some q) { w with Shared := m1 } =
      some { ChannelQueue := (w.ClientInstance.queue q).ChannelQueue
             Index := (w.ClientInstance.queue q).NextFreeIndex }) ∧
    (∀ m1 : SharedMem,
      (((XAsu_UpdateQueueBuffer P q
        { ChannelQueue := (w.ClientInstance.queue q).ChannelQueue
          Index := (w.ClientInstance.queue q).NextFreeIndex }
        { w with Shared := m1 }).Shared (w.ClientInstance.queue q).ChannelQueue).ChannelQueueBufs
          (w.ClientInstance.queue q).NextFreeIndex).RespBufStatus = 0 ∧
      (((XAsu_UpdateQueueBuffer P q
        { ChannelQueue := (w.ClientInstance.queue q).ChannelQueue
          Index := (w.ClientInstance.queue q).NextFreeIndex }
        { w with Shared := m1 }).Shared (w.ClientInstance.queue q).ChannelQueue).ChannelQueueBufs
          (w.ClientInstance.queue q).NextFreeIndex).ReqBufStatus
        = P.XASU_COMMAND_IS_PRESENT) ∧
    ∀ (Fuel : Nat) (Es : List SubmitEnv) (rs : List (Option SlotRef × Int)) (w1 : World),
      Es.length ≤ P.XASU_MAX_BUFFERS →
      submissions P Fuel (Es.map (fun E => (some q, E))) w = some (rs, w1) →
      (rs.map Prod.fst).Nodup ∧ ∀ s ∈ rs.map Prod.fst, s ≠ none := by
  have hinv := runCalls_cursors P h1 h32 calls (World0 m) w
    (fun q0 => by cases q0 <;> exact h1) hreach
  have hle : (w.ClientInstance.queue q).NextFreeIndex ≤ lastIndex P := by
    rw [lastIndex_eq P h1 h32]
    have := hinv q
    omega
  refine ⟨fun m1 => ?_, fun m1 => ?_, fun Fuel Es rs w1 hk hsub => ?_⟩
  · exact XAsu_GetChannelQueueBuf_some P q { w with Shared := m1 } hle
  · have hsh := XAsu_UpdateQueueBuffer_shared P q { w with Shared := m1 }
    exact ⟨hsh.1, hsh.2.1⟩
  · obtain ⟨hfst, _⟩ := submissions_same_queue_result P Fuel q h1 h32 Es w rs w1 (hinv q) hsub
    rw [hfst]
    refine ⟨ring_slots_nodup _ _ _ _ hk, fun s hs => ?_⟩
    obtain ⟨i, _, hi⟩ := List.mem_map.1 hs
    rw [← hi]
    exact Option.some_ne_none _

/-- Claim C18, amended, at a concrete input: the state reached by the sample
program with eight unserved submissions, and the high-priority queue. -/
theorem slot_reuse_follows_cursor_witness :
    (1 ≤ samplePlatform.XASU_MAX_BUFFERS ∧
      runCalls samplePlatform sampleUnservedCalls (World0 sampleShared) =
        some ((runCalls samplePlatform sampleUnservedCalls
          (World0 sampleShared)).getD sampleReady)) ∧
    ∀ m1 : SharedMem, XAsu_GetChannelQueueBuf samplePlatform (some QueueId.P0Queue)
        { (runCalls samplePlatform sampleUnservedCalls (World0 sampleShared)).getD sampleReady
          with Shared := m1 } =
      some { ChannelQueue :=
               (((runCalls samplePlatform sampleUnservedCalls
                 (World0 sampleShared)).getD sampleReady).ClientInstance.queue
                   QueueId.P0Queue).ChannelQueue
             Index :=
               (((runCalls samplePlatform sampleUnservedCalls
                 (World0 sampleShared)).getD sampleReady).ClientInstance.queue
                   QueueId.P0Queue).NextFreeIndex } :=
  ⟨⟨by decide, rfl⟩,
    (slot_reuse_follows_cursor samplePlatform sampleUnservedCalls sampleShared
      ((runCalls samplePlatform sampleUnservedCalls (World0 sampleShared)).getD sampleReady)
      QueueId.P0Queue (by decide) (by decide) rfl).1⟩

/-- Claim C19, counterexample: the request payload `[1, 2, 3]` is written
into slot 0 of the high-priority queue of the sample ready session, and the
mock coprocessor completes the command with the response payload `[7, 7]`.
The submission returns `XST_SUCCESS` and the response buffer reads `[7, 7]`,
but the request-status of the slot is not cleared: it still holds
`XASU_COMMAND_IS_PRESENT`. -/
theorem status_flags_not_cleared :
    ∃ w1,
      XAsu_UpdateQueueBufferNSendIpi samplePlatform sampleRoundTripEnv 1
        (some QueueId.P0Queue)
        (sampleReady.writeReqBuf
          { ChannelQueue := XASU_SHARED_MEMORY_P0_CH_QUEUE, Index := 0 } [1, 2, 3])
        = some (samplePlatform.XST_SUCCESS, w1) ∧
      ((w1.Shared XASU_SHARED_MEMORY_P0_CH_QUEUE).ChannelQueueBufs 0).RespBuf = [7, 7] ∧
      ((w1.Shared XASU_SHARED_MEMORY_P0_CH_QUEUE).ChannelQueueBufs 0).ReqBufStatus
        = samplePlatform.XASU_COMMAND_IS_PRESENT ∧
      ((w1.Shared XASU_SHARED_MEMORY_P0_CH_QUEUE).ChannelQueueBufs 0).ReqBufStatus ≠ 0 := by
  refine ⟨_, rfl, ?_, ?_, ?_⟩
  · decide
  · decide
  · decide

/-- Claim C19, amended: on a ready session with the receive handler
registered and the completion flag clear, let the request payload `Req` be
written into the slot acquired from a queue, and let the doorbell be sent and
the completion interrupt arrive within the fuel.  Then
`XAsu_UpdateQueueBufferNSendIpi` returns `XST_SUCCESS`, and the shared memory
read afterwards is what the coprocessor made of the memory it saw at the
doorbell, in which the slot held `Req`, response-status empty and
request-status full.  With a mock coprocessor that completes the slot with
the response payload `R`, the response buffer of the slot reads exactly `R`
and its request buffer still reads `Req`; the client clears no status flag:
response-status is empty as set before the doorbell, and request-status
still holds `XASU_COMMAND_IS_PRESENT`. -/
theorem round_trip (P : Platform) (E : SubmitEnv) (Fuel : Nat) (q : QueueId) (w : World)
    (Req R : List Nat) (d : Nat)
    (hR : w.ClientInstance.IsReady = XASU_CLIENT_READY) (hH : w.RecvHandler = true)
    (h0 : w.RecvDone = FALSE)
    (hn : (w.ClientInstance.queue q).NextFreeIndex ≤ lastIndex P)
    (hsend : E.XMailbox_Send = P.XST_SUCCESS) (hd : E.IrqAfter = some d) (hlt : d < Fuel) :
    XAsu_GetChannelQueueBuf P (some q) w =
      some { ChannelQueue := (w.ClientInstance.queue q).ChannelQueue
             Index := (w.ClientInstance.queue q).NextFreeIndex } ∧
    ∃ (w1 : World) (M : SharedMem),
      XAsu_UpdateQueueBufferNSendIpi P E Fuel (some q)
        (w.writeReqBuf
          { ChannelQueue := (w.ClientInstance.queue q).ChannelQueue
            Index := (w.ClientInstance.queue q).NextFreeIndex } Req)
        = some (P.XST_SUCCESS, w1) ∧
      w1.Shared = E.Coprocessor M ∧
      ((M (w.ClientInstance.queue q).ChannelQueue).ChannelQueueBufs
        (w.ClientInstance.queue q).NextFreeIndex).ReqBuf = Req ∧
      ((M (w.ClientInstance.queue q).ChannelQueue).ChannelQueueBufs
        (w.ClientInstance.queue q).NextFreeIndex).RespBufStatus = 0 ∧
      ((M (w.ClientInstance.queue q).ChannelQueue).ChannelQueueBufs
        (w.ClientInstance.queue q).NextFreeIndex).ReqBufStatus = P.XASU_COMMAND_IS_PRESENT ∧
      (E.Coprocessor = completeWith (w.ClientInstance.queue q).ChannelQueue
          (w.ClientInstance.queue q).NextFreeIndex R →
        ((w1.Shared (w.ClientInstance.queue q).ChannelQueue).ChannelQueueBufs
          (w.ClientInstance.queue q).NextFreeIndex).RespBuf = R ∧
        ((w1.Shared (w.ClientInstance.queue q).ChannelQueue).ChannelQueueBufs
          (w.ClientInstance.queue q).NextFreeIndex).ReqBuf = Req ∧
        ((w1.Shared (w.ClientInstance.queue q).ChannelQueue).ChannelQueueBufs
          (w.ClientInstance.queue q).NextFreeIndex).RespBufStatus = 0 ∧
        ((w1.Shared (w.ClientInstance.queue q).ChannelQueue).ChannelQueueBufs
          (w.ClientInstance.queue q).NextFreeIndex).ReqBufStatus
            = P.XASU_COMMAND_IS_PRESENT) := by
  have hs0 := XAsu_GetChannelQueueBuf_some P q w hn
  refine ⟨hs0, ?_⟩
  -- the state in which the submission is called
  have hs : XAsu_GetChannelQueueBuf P (some q)
      (w.writeReqBuf
        { ChannelQueue := (w.ClientInstance.queue q).ChannelQueue
          Index := (w.ClientInstance.queue q).NextFreeIndex } Req) =
      some { ChannelQueue := (w.ClientInstance.queue q).ChannelQueue
             Index := (w.ClientInstance.queue q).NextFreeIndex } := hs0
  have hsh := XAsu_UpdateQueueBuffer_shared P q
    (w.writeReqBuf
      { ChannelQueue := (w.ClientInstance.queue q).ChannelQueue
        Index := (w.ClientInstance.queue q).NextFreeIndex } Req)
  have hpay := (XAsu_UpdateQueueBuffer_payload P q
    (w.writeReqBuf
      { ChannelQueue := (w.ClientInstance.queue q).ChannelQueue
        Index := (w.ClientInstance.queue q).NextFreeIndex } Req)
    (w.ClientInstance.queue q).ChannelQueue (w.ClientInstance.queue q).NextFreeIndex).1
  have hreq : (((w.writeReqBuf
      { ChannelQueue := (w.ClientInstance.queue q).ChannelQueue
        Index := (w.ClientInstance.queue q).NextFreeIndex } Req).Shared
      (w.ClientInstance.queue q).ChannelQueue).ChannelQueueBufs
        (w.ClientInstance.queue q).NextFreeIndex).ReqBuf = Req := by
    simp [World.writeReqBuf]
  have hR1 : (XAsu_UpdateQueueBuffer P q
      { ChannelQueue := (w.ClientInstance.queue q).ChannelQueue
        Index := (w.ClientInstance.queue q).NextFreeIndex }
      (w.writeReqBuf
        { ChannelQueue := (w.ClientInstance.queue q).ChannelQueue
          Index := (w.ClientInstance.queue q).NextFreeIndex } Req)).ClientInstance.IsReady
      = XASU_CLIENT_READY := by
    show (w.ClientInstance.setNextFreeIndex q _).IsReady = XASU_CLIENT_READY
    rw [XAsu_Client.IsReady_setNextFreeIndex]; exact hR
  have hsendipi := XAsu_SendIpi_ready P E _ hR1
  have hwait := XAsu_WaitRecvDone_interrupt E d hd Fuel 0
    ((XAsu_UpdateQueueBuffer P q
      { ChannelQueue := (w.ClientInstance.queue q).ChannelQueue
        Index := (w.ClientInstance.queue q).NextFreeIndex }
      (w.writeReqBuf
        { ChannelQueue := (w.ClientInstance.queue q).ChannelQueue
          Index := (w.ClientInstance.queue q).NextFreeIndex } Req)).log
      (Event.XMailbox_Send XASU_TARGET_IPI_INT_MASK FALSE
        (XAsu_UpdateQueueBuffer P q
          { ChannelQueue := (w.ClientInstance.queue q).ChannelQueue
            Index := (w.ClientInstance.queue q).NextFreeIndex }
          (w.writeReqBuf
            { ChannelQueue := (w.ClientInstance.queue q).ChannelQueue
              Index := (w.ClientInstance.queue q).NextFreeIndex } Req)).Shared))
    hH h0 (Nat.zero_le _) (by omega)
  have hcall : XAsu_UpdateQueueBufferNSendIpi P E Fuel (some q)
      (w.writeReqBuf
        { ChannelQueue := (w.ClientInstance.queue q).ChannelQueue
          Index := (w.ClientInstance.queue q).NextFreeIndex } Req) =
      some (P.XST_SUCCESS,
        { (((XAsu_UpdateQueueBuffer P q
            { ChannelQueue := (w.ClientInstance.queue q).ChannelQueue
              Index := (w.ClientInstance.queue q).NextFreeIndex }
            (w.writeReqBuf
              { ChannelQueue := (w.ClientInstance.queue q).ChannelQueue
                Index := (w.ClientInstance.queue q).NextFreeIndex } Req)).log
            (Event.XMailbox_Send XASU_TARGET_IPI_INT_MASK FALSE
              (XAsu_UpdateQueueBuffer P q
                { ChannelQueue := (w.ClientInstance.queue q).ChannelQueue
                  Index := (w.ClientInstance.queue q).NextFreeIndex }
                (w.writeReqBuf
                  { ChannelQueue := (w.ClientInstance.queue q).ChannelQueue
                    Index := (w.ClientInstance.queue q).NextFreeIndex } Req)).Shared)).interrupt
            E) with RecvDone := FALSE }) := by
    simp only [XAsu_UpdateQueueBufferNSendIpi, hs, hsendipi, hsend, ne_eq, not_true_eq_false,
      if_false, hwait]
  have hshared : ({ (((XAsu_UpdateQueueBuffer P q
      { ChannelQueue := (w.ClientInstance.queue q).ChannelQueue
        Index := (w.ClientInstance.queue q).NextFreeIndex }
      (w.writeReqBuf
        { ChannelQueue := (w.ClientInstance.queue q).ChannelQueue
          Index := (w.ClientInstance.queue q).NextFreeIndex } Req)).log
      (Event.XMailbox_Send XASU_TARGET_IPI_INT_MASK FALSE
        (XAsu_UpdateQueueBuffer P q
          { ChannelQueue := (w.ClientInstance.queue q).ChannelQueue
            Index := (w.ClientInstance.queue q).NextFreeIndex }
          (w.writeReqBuf
            { ChannelQueue := (w.ClientInstance.queue q).ChannelQueue
              Index := (w.ClientInstance.queue q).NextFreeIndex } Req)).Shared)).interrupt
      E) with RecvDone := FALSE } : World).Shared =
      E.Coprocessor (XAsu_UpdateQueueBuffer P q
        { ChannelQueue := (w.ClientInstance.queue q).ChannelQueue
          Index := (w.ClientInstance.queue q).NextFreeIndex }
        (w.writeReqBuf
          { ChannelQueue := (w.ClientInstance.queue q).ChannelQueue
            Index := (w.ClientInstance.queue q).NextFreeIndex } Req)).Shared := by
    simp only [World.interrupt, World.log, XAsu_DoorBellToClient]
    split <;> rfl
  refine ⟨_, _, hcall, hshared, hpay.trans hreq, hsh.1, hsh.2.1, fun hcop => ?_⟩
  rw [hshared, hcop]
  simp only [completeWith, Function.update_same]
  exact ⟨trivial, hpay.trans hreq, hsh.1, hsh.2.1⟩

/-- Claim C19, amended, at a concrete input: the request payload `[1, 2, 3]`
in slot 0 of the high-priority queue of the sample ready session, completed
by the mock coprocessor with the response payload `[7, 7]`. -/
theorem round_trip_witness :
    (sampleReady.ClientInstance.IsReady = XASU_CLIENT_READY ∧
      sampleReady.RecvHandler = true ∧ sampleReady.RecvDone = FALSE ∧
      sampleRoundTripEnv.XMailbox_Send = samplePlatform.XST_SUCCESS ∧
      sampleRoundTripEnv.IrqAfter = some 0) ∧
    ∃ w1 : World,
      XAsu_UpdateQueueBufferNSendIpi samplePlatform sampleRoundTripEnv 1
        (some QueueId.P0Queue)
        (sampleReady.writeReqBuf
          { ChannelQueue := XASU_SHARED_MEMORY_P0_CH_QUEUE, Index := 0 } [1, 2, 3])
        = some (samplePlatform.XST_SUCCESS, w1) ∧
      ((w1.Shared XASU_SHARED_MEMORY_P0_CH_QUEUE).ChannelQueueBufs 0).RespBuf = [7, 7] ∧
      ((w1.Shared XASU_SHARED_MEMORY_P0_CH_QUEUE).ChannelQueueBufs 0).ReqBuf = [1, 2, 3] ∧
      ((w1.Shared XASU_SHARED_MEMORY_P0_CH_QUEUE).ChannelQueueBufs 0).RespBufStatus = 0 ∧
      ((w1.Shared XASU_SHARED_MEMORY_P0_CH_QUEUE).ChannelQueueBufs 0).ReqBufStatus
        = samplePlatform.XASU_COMMAND_IS_PRESENT :=
  ⟨⟨rfl, rfl, rfl, rfl, rfl⟩,
    match (round_trip samplePlatform sampleRoundTripEnv 1 QueueId.P0Queue sampleReady
      [1, 2, 3] [7, 7] 0 rfl rfl rfl (by decide) rfl rfl (by decide)).2 with
    | ⟨w1, _, hcall, _, _, _, _, hmock⟩ =>
      ⟨w1, hcall, (hmock rfl).1, (hmock rfl).2.1, (hmock rfl).2.2.1, (hmock rfl).2.2.2⟩⟩

/-- Claim C21, counterexample: with a control register that always reads
zero the probe returns `XST_FAILURE` after `0xFFFFF` polls, and it has then
performed `0xFFFFF` sleeps, not `0xFFFFF - 1`: the last entry of its log is a
sleep, which no read follows. -/
theorem sleep_follows_last_poll :
    (XAsu_CheckAsufwPrsntBit samplePlatform sampleAbsentEnv (World0 sampleShared)).1
      = samplePlatform.XST_FAILURE ∧
    (((XAsu_CheckAsufwPrsntBit samplePlatform sampleAbsentEnv
      (World0 sampleShared)).2.Trace).filter Event.isRead).length = 0xFFFFF ∧
    (((XAsu_CheckAsufwPrsntBit samplePlatform sampleAbsentEnv
      (World0 sampleShared)).2.Trace).filter Event.isSleep).length = 0xFFFFF ∧
    (((XAsu_CheckAsufwPrsntBit samplePlatform sampleAbsentEnv
      (World0 sampleShared)).2.Trace).filter Event.isSleep).length ≠ 0xFFFFF - 1 ∧
    ((XAsu_CheckAsufwPrsntBit samplePlatform sampleAbsentEnv
      (World0 sampleShared)).2.Trace).getLast? = some (Event.usleep 1) := by
  have hclear : ∀ j, j < XASU_ASUFW_BIT_CHECK_TIMEOUT_VALUE →
      ¬ (sampleAbsentEnv.Xil_In32 (0 + j) &&& ASU_GLOBAL_GLOBAL_CNTRL_FW_IS_PRESENT_MASK
        = ASU_GLOBAL_GLOBAL_CNTRL_FW_IS_PRESENT_MASK) := by
    intro j _ hc
    have h0 : sampleAbsentEnv.Xil_In32 (0 + j) &&& ASU_GLOBAL_GLOBAL_CNTRL_FW_IS_PRESENT_MASK
        = 0 := Nat.zero_and _
    rw [h0] at hc
    exact absurd hc (by decide)
  have hrun : XAsu_CheckAsufwPrsntBit samplePlatform sampleAbsentEnv (World0 sampleShared) =
      (samplePlatform.XST_FAILURE,
        { World0 sampleShared with
          Trace := (World0 sampleShared).Trace
            ++ clearPolls XASU_ASUFW_BIT_CHECK_TIMEOUT_VALUE }) :=
    XAsu_CheckAsufwPrsntBit.loop_exhausted samplePlatform sampleAbsentEnv _ 0 _ hclear
  rw [hrun]
  have htr : (World0 sampleShared).Trace ++ clearPolls XASU_ASUFW_BIT_CHECK_TIMEOUT_VALUE
      = clearPolls XASU_ASUFW_BIT_CHECK_TIMEOUT_VALUE := List.nil_append _
  simp only [htr]
  refine ⟨trivial, clearPolls_reads _, clearPolls_sleeps _, ?_, clearPolls_getLast 0xFFFFE⟩
  rw [clearPolls_sleeps]
  decide

/-- Claim C21, amended: in every run of `XAsu_CheckAsufwPrsntBit` each
`usleep(1)` directly follows a poll that showed the bit clear.  A run that
returns `XST_SUCCESS` after `k` clear polls has added to the log those `k`
polls, each followed by a sleep, and then the read that shows the bit: `k`
sleeps and `k + 1` reads, every sleep followed by a read.  A run in which no
word shows the bit returns `XST_FAILURE` after `N = 0xFFFFF` polls and has
performed `N` sleeps, the last of them after its last poll. -/
theorem sleeps_follow_clear_polls (P : Platform) (E : InitEnv) (w : World) :
    (∀ k, k < 0xFFFFF → E.Xil_In32 k &&& 0x10 = 0x10 →
      (∀ j, j < k → ¬ (E.Xil_In32 j &&& 0x10 = 0x10)) →
      XAsu_CheckAsufwPrsntBit P E w =
        (P.XST_SUCCESS,
          { w with Trace := w.Trace ++ (clearPolls k
              ++ [Event.Xil_In32 ASU_GLOBAL_GLOBAL_CNTRL]) }) ∧
      ((clearPolls k ++ [Event.Xil_In32 ASU_GLOBAL_GLOBAL_CNTRL]).filter
        Event.isSleep).length = k ∧
      ((clearPolls k ++ [Event.Xil_In32 ASU_GLOBAL_GLOBAL_CNTRL]).filter
        Event.isRead).length = k + 1 ∧
      (clearPolls k ++ [Event.Xil_In32 ASU_GLOBAL_GLOBAL_CNTRL]).getLast?
        = some (Event.Xil_In32 ASU_GLOBAL_GLOBAL_CNTRL)) ∧
    ((∀ k, k < 0xFFFFF → ¬ (E.Xil_In32 k &&& 0x10 = 0x10)) →
      XAsu_CheckAsufwPrsntBit P E w =
        (P.XST_FAILURE, { w with Trace := w.Trace ++ clearPolls 0xFFFFF }) ∧
      ((clearPolls 0xFFFFF).filter Event.isSleep).length = 0xFFFFF ∧
      ((clearPolls 0xFFFFF).filter Event.isRead).length = 0xFFFFF ∧
      (clearPolls 0xFFFFF).getLast? = some (Event.usleep 1)) ∧
    (∀ k, clearPolls (k + 1) =
      Event.Xil_In32 ASU_GLOBAL_GLOBAL_CNTRL :: Event.usleep 1 :: clearPolls k) := by
  refine ⟨fun k hk hbit hmin => ⟨?_, ?_, ?_, ?_⟩, fun hclear => ⟨?_, ?_, ?_, ?_⟩, fun _ => rfl⟩
  · unfold XAsu_CheckAsufwPrsntBit
    exact XAsu_CheckAsufwPrsntBit.loop_found P E _ 0 w k hk
      (by rw [Nat.zero_add]; exact hbit)
      (fun j hj => by rw [Nat.zero_add]; exact hmin j hj)
  · rw [List.filter_append, List.length_append, clearPolls_sleeps]
    simp [Event.isSleep]
  · rw [List.filter_append, List.length_append, clearPolls_reads]
    simp [Event.isRead]
  · simp
  · unfold XAsu_CheckAsufwPrsntBit
    exact XAsu_CheckAsufwPrsntBit.loop_exhausted P E _ 0 w
      (fun j hj => by rw [Nat.zero_add]; exact hclear j hj)
  · exact clearPolls_sleeps _
  · exact clearPolls_reads _
  · exact clearPolls_getLast 0xFFFFE

/-- Claim C26, the code at a failing input: one call of `XAsu_ClientInit`
from the zero-initialised session, with the firmware present,
`XMailbox_Initialize` succeeding and `XMailbox_SetCallBack` returning 1,
reaches a state that is ready although no receive handler is registered.  In
that state `XAsu_ClientInit` returns `XST_SUCCESS` without doing anything, and
a submission whose doorbell is sent and whose command the coprocessor
completes never returns, whatever the fuel, since no handler sets the
completion flag. -/
theorem ready_without_callback :
    ∃ w,
      runCalls samplePlatform [Call.ClientInit sampleSetCallBackFailsEnv 0]
        (World0 sampleShared) = some w ∧
      w.ClientInstance.IsReady = XASU_CLIENT_READY ∧
      w.RecvHandler = false ∧
      XAsu_ClientInit samplePlatform sampleInitEnv 0 w = (samplePlatform.XST_SUCCESS, w) ∧
      ∀ Fuel, XAsu_UpdateQueueBufferNSendIpi samplePlatform sampleSubmitEnv Fuel
        (some QueueId.P0Queue) w = none := by
  refine ⟨_, rfl, ?_, ?_, rfl, fun Fuel => ?_⟩
  · decide
  · decide
  · exact XAsu_UpdateQueueBufferNSendIpi_blocked samplePlatform sampleSubmitEnv Fuel
      QueueId.P0Queue _ (by decide) (by decide) rfl (by decide) (Or.inr (by decide))

/-- Claim C27: for a capacity `C` with `1 ≤ C < 2 ^ 32`, in every state
where the `NextFreeIndex` of a queue is below `C`, `XAsu_IsChannelQueueFull`
returns FALSE, `XAsu_GetChannelQueueBuf` returns the slot under the cursor and
not `NULL`, whatever the shared memory holds, and
`XAsu_UpdateQueueBufferNSendIpi` does not take its no-slot exit: it performs
the slot update and the doorbell, and a call that returns has the status of
the doorbell.  Every state reached from the zero-initialised session by any
sequence of calls and completion interrupts is such a state, for both
queues. -/
theorem queue_full_unreachable (P : Platform) (q : QueueId) (w : World)
    (h1 : 1 ≤ P.XASU_MAX_BUFFERS) (h32 : P.XASU_MAX_BUFFERS < 4294967296)
    (hn : (w.ClientInstance.queue q).NextFreeIndex < P.XASU_MAX_BUFFERS) :
    XAsu_IsChannelQueueFull P (w.ClientInstance.queue q) = FALSE ∧
    XAsu_GetChannelQueueBuf P (some q) w ≠ none ∧
    (∀ m1 : SharedMem, XAsu_GetChannelQueueBuf P (some q) { w with Shared := m1 } =
      some { ChannelQueue := (w.ClientInstance.queue q).ChannelQueue
             Index := (w.ClientInstance.queue q).NextFreeIndex }) ∧
    (∀ E Fuel, XAsu_UpdateQueueBufferNSendIpi P E Fuel (some q) w =
      if (XAsu_SendIpi P E (XAsu_UpdateQueueBuffer P q
          { ChannelQueue := (w.ClientInstance.queue q).ChannelQueue
            Index := (w.ClientInstance.queue q).NextFreeIndex } w)).1 ≠ P.XST_SUCCESS then
        some (XAsu_SendIpi P E (XAsu_UpdateQueueBuffer P q
          { ChannelQueue := (w.ClientInstance.queue q).ChannelQueue
            Index := (w.ClientInstance.queue q).NextFreeIndex } w))
      else
        match XAsu_WaitRecvDone E Fuel 0 (XAsu_SendIpi P E (XAsu_UpdateQueueBuffer P q
          { ChannelQueue := (w.ClientInstance.queue q).ChannelQueue
            Index := (w.ClientInstance.queue q).NextFreeIndex } w)).2 with
        | none => none
        | some w1 => some (P.XST_SUCCESS, { w1 with RecvDone := FALSE })) ∧
    (∀ E Fuel r, XAsu_UpdateQueueBufferNSendIpi P E Fuel (some q) w = some r →
      r.1 = (XAsu_SendIpi P E (XAsu_UpdateQueueBuffer P q
        { ChannelQueue := (w.ClientInstance.queue q).ChannelQueue
          Index := (w.ClientInstance.queue q).NextFreeIndex } w)).1) ∧
    (∀ (calls : List Call) (m : SharedMem) (v : World) (q1 : QueueId),
      runCalls P calls (World0 m) = some v →
      (v.ClientInstance.queue q1).NextFreeIndex < P.XASU_MAX_BUFFERS ∧
      XAsu_IsChannelQueueFull P (v.ClientInstance.queue q1) = FALSE ∧
      XAsu_GetChannelQueueBuf P (some q1) v ≠ none) := by
  have full : ∀ (v : World) (q1 : QueueId),
      (v.ClientInstance.queue q1).NextFreeIndex < P.XASU_MAX_BUFFERS →
      (v.ClientInstance.queue q1).NextFreeIndex ≤ lastIndex P := by
    intro v q1 hv
    rw [lastIndex_eq P h1 h32]
    omega
  have notfull : ∀ (v : World) (q1 : QueueId),
      (v.ClientInstance.queue q1).NextFreeIndex ≤ lastIndex P →
      XAsu_IsChannelQueueFull P (v.ClientInstance.queue q1) = FALSE := by
    intro v q1 hv
    simp [XAsu_IsChannelQueueFull, hv]
  have hle := full w q hn
  have hs := XAsu_GetChannelQueueBuf_some P q w hle
  refine ⟨notfull w q hle, ?_, fun m1 => ?_, fun E Fuel => ?_, fun E Fuel r hr => ?_,
    fun calls m v q1 hv => ?_⟩
  · rw [hs]
    exact Option.some_ne_none _
  · exact XAsu_GetChannelQueueBuf_some P q { w with Shared := m1 } hle
  · simp only [XAsu_UpdateQueueBufferNSendIpi, hs]
    split
    · rfl
    · rename_i hst
      rw [not_not.1 hst]
  · exact (XAsu_UpdateQueueBufferNSendIpi_frame P E Fuel q w r hle hr).2.2
  · have hinv := runCalls_cursors P h1 h32 calls (World0 m) v
      (fun q0 => by cases q0 <;> exact h1) hv q1
    refine ⟨hinv, notfull v q1 (full v q1 hinv), ?_⟩
    rw [XAsu_GetChannelQueueBuf_some P q1 v (full v q1 hinv)]
    exact Option.some_ne_none _

/-- Claim C27 at a concrete input: eight slots and the state reached by the
sample program with eight unserved submissions on the high-priority queue. -/
theorem queue_full_unreachable_witness :
    (1 ≤ samplePlatform.XASU_MAX_BUFFERS ∧
      ((((runCalls samplePlatform sampleUnservedCalls
        (World0 sampleShared)).getD sampleReady).ClientInstance.queue
          QueueId.P0Queue).NextFreeIndex < samplePlatform.XASU_MAX_BUFFERS)) ∧
    XAsu_IsChannelQueueFull samplePlatform
      (((runCalls samplePlatform sampleUnservedCalls
        (World0 sampleShared)).getD sampleReady).ClientInstance.queue QueueId.P0Queue)
      = FALSE ∧
    XAsu_GetChannelQueueBuf samplePlatform (some QueueId.P0Queue)
      ((runCalls samplePlatform sampleUnservedCalls (World0 sampleShared)).getD sampleReady)
      ≠ none :=
  ⟨⟨by decide, by decide⟩,
    (queue_full_unreachable samplePlatform QueueId.P0Queue
      ((runCalls samplePlatform sampleUnservedCalls (World0 sampleShared)).getD sampleReady)
      (by decide) (by decide) (by decide)).1,
    (queue_full_unreachable samplePlatform QueueId.P0Queue
      ((runCalls samplePlatform sampleUnservedCalls (World0 sampleShared)).getD sampleReady)
      (by decide) (by decide) (by decide)).2.1⟩

/-- Claim C28: on a ready session, for a queue whose slot is resolved and a
doorbell that is sent, `XAsu_UpdateQueueBufferNSendIpi` rings the doorbell
with `RecvDone` as it was on entry: the flag is not cleared first.  If the
flag is set on entry and no completion interrupt is taken before the first
read of the flag, the call returns `XST_SUCCESS` at that read, with the flag
cleared and the shared memory as it was at the doorbell: no callback has
followed its doorbell.  If the flag is clear on entry, the call returns only
through a completion interrupt taken during its own wait, with the receive
handler registered, and never returns when no such interrupt comes. -/
theorem stale_completion_flag (P : Platform) (E : SubmitEnv) (q : QueueId) (w : World)
    (hR : w.ClientInstance.IsReady = XASU_CLIENT_READY)
    (hn : (w.ClientInstance.queue q).NextFreeIndex ≤ lastIndex P)
    (hsend : E.XMailbox_Send = P.XST_SUCCESS) :
    XAsu_SendIpi P E (XAsu_UpdateQueueBuffer P q
        { ChannelQueue := (w.ClientInstance.queue q).ChannelQueue
          Index := (w.ClientInstance.queue q).NextFreeIndex } w) =
      (P.XST_SUCCESS,
        (XAsu_UpdateQueueBuffer P q
          { ChannelQueue := (w.ClientInstance.queue q).ChannelQueue
            Index := (w.ClientInstance.queue q).NextFreeIndex } w).log
          (Event.XMailbox_Send XASU_TARGET_IPI_INT_MASK FALSE
            (XAsu_UpdateQueueBuffer P q
              { ChannelQueue := (w.ClientInstance.queue q).ChannelQueue
                Index := (w.ClientInstance.queue q).NextFreeIndex } w).Shared)) ∧
    ((XAsu_UpdateQueueBuffer P q
        { ChannelQueue := (w.ClientInstance.queue q).ChannelQueue
          Index := (w.ClientInstance.queue q).NextFreeIndex } w).log
        (Event.XMailbox_Send XASU_TARGET_IPI_INT_MASK FALSE
          (XAsu_UpdateQueueBuffer P q
            { ChannelQueue := (w.ClientInstance.queue q).ChannelQueue
              Index := (w.ClientInstance.queue q).NextFreeIndex } w).Shared)).RecvDone
      = w.RecvDone ∧
    (w.RecvDone ≠ 0 → E.IrqAfter ≠ some 0 → ∀ Fuel,
      XAsu_UpdateQueueBufferNSendIpi P E (Fuel + 1) (some q) w =
        some (P.XST_SUCCESS,
          { (XAsu_UpdateQueueBuffer P q
              { ChannelQueue := (w.ClientInstance.queue q).ChannelQueue
                Index := (w.ClientInstance.queue q).NextFreeIndex } w).log
              (Event.XMailbox_Send XASU_TARGET_IPI_INT_MASK FALSE
                (XAsu_UpdateQueueBuffer P q
                  { ChannelQueue := (w.ClientInstance.queue q).ChannelQueue
                    Index := (w.ClientInstance.queue q).NextFreeIndex } w).Shared)
            with RecvDone := FALSE })) ∧
    (w.RecvDone = 0 → ∀ Fuel r, XAsu_UpdateQueueBufferNSendIpi P E Fuel (some q) w = some r →
      ∃ d, E.IrqAfter = some d ∧ d < Fuel ∧ w.RecvHandler = true ∧
        r = (P.XST_SUCCESS,
          { ((XAsu_UpdateQueueBuffer P q
              { ChannelQueue := (w.ClientInstance.queue q).ChannelQueue
                Index := (w.ClientInstance.queue q).NextFreeIndex } w).log
              (Event.XMailbox_Send XASU_TARGET_IPI_INT_MASK FALSE
                (XAsu_UpdateQueueBuffer P q
                  { ChannelQueue := (w.ClientInstance.queue q).ChannelQueue
                    Index := (w.ClientInstance.queue q).NextFreeIndex } w).Shared)).interrupt E
            with RecvDone := FALSE })) ∧
    (w.RecvDone = 0 → E.IrqAfter = none → ∀ Fuel,
      XAsu_UpdateQueueBufferNSendIpi P E Fuel (some q) w = none) := by
  have hs := XAsu_GetChannelQueueBuf_some P q w hn
  obtain ⟨hd, hh, _, hr⟩ := XAsu_UpdateQueueBuffer_frame P q
    { ChannelQueue := (w.ClientInstance.queue q).ChannelQueue
      Index := (w.ClientInstance.queue q).NextFreeIndex } w
  have hsendipi := XAsu_SendIpi_ready P E _ (hr.trans hR)
  rw [hsend] at hsendipi
  refine ⟨hsendipi, hd, fun hset hno Fuel => ?_, fun h0 Fuel r hret => ?_,
    fun h0 hnone Fuel => ?_⟩
  · have hwait := XAsu_WaitRecvDone_stale E Fuel 0
      ((XAsu_UpdateQueueBuffer P q
        { ChannelQueue := (w.ClientInstance.queue q).ChannelQueue
          Index := (w.ClientInstance.queue q).NextFreeIndex } w).log
        (Event.XMailbox_Send XASU_TARGET_IPI_INT_MASK FALSE
          (XAsu_UpdateQueueBuffer P q
            { ChannelQueue := (w.ClientInstance.queue q).ChannelQueue
              Index := (w.ClientInstance.queue q).NextFreeIndex } w).Shared))
      hset hno
    simp only [XAsu_UpdateQueueBufferNSendIpi, hs, hsendipi, ne_eq, not_true_eq_false,
      if_false, hwait]
  · simp only [XAsu_UpdateQueueBufferNSendIpi, hs, hsendipi, ne_eq, not_true_eq_false,
      if_false] at hret
    split at hret
    · cases hret
    · rename_i w1 hw
      have hz : ((XAsu_UpdateQueueBuffer P q
          { ChannelQueue := (w.ClientInstance.queue q).ChannelQueue
            Index := (w.ClientInstance.queue q).NextFreeIndex } w).log
          (Event.XMailbox_Send XASU_TARGET_IPI_INT_MASK FALSE
            (XAsu_UpdateQueueBuffer P q
              { ChannelQueue := (w.ClientInstance.queue q).ChannelQueue
                Index := (w.ClientInstance.queue q).NextFreeIndex } w).Shared)).RecvDone
          = 0 := h0
      obtain ⟨d, hdd, _, hlt, hH, hw1⟩ := XAsu_WaitRecvDone_clear E Fuel 0 _ w1 hz hw
      have hH1 : w.RecvHandler = true := hH
      refine ⟨d, hdd, by omega, hH1, ?_⟩
      rw [← Option.some.inj hret, hw1]
  · exact XAsu_UpdateQueueBufferNSendIpi_blocked P E Fuel q w hR hn hsend h0 (Or.inl hnone)

/-- Claim C28 at a concrete input: the sample ready session after a
completion interrupt taken with no submission pending, and a submission on
its high-priority queue that the coprocessor never completes. -/
theorem stale_completion_flag_witness :
    ((sampleReady.interrupt sampleSubmitEnv).ClientInstance.IsReady = XASU_CLIENT_READY ∧
      (sampleReady.interrupt sampleSubmitEnv).RecvDone = TRUE ∧
      sampleNoCompletionEnv.XMailbox_Send = samplePlatform.XST_SUCCESS ∧
      sampleNoCompletionEnv.IrqAfter = none) ∧
    ∃ w1, XAsu_UpdateQueueBufferNSendIpi samplePlatform sampleNoCompletionEnv 1
        (some QueueId.P0Queue) (sampleReady.interrupt sampleSubmitEnv)
        = some (samplePlatform.XST_SUCCESS, w1) ∧ w1.RecvDone = FALSE :=
  ⟨⟨rfl, rfl, rfl, rfl⟩,
    ⟨_, (stale_completion_flag samplePlatform sampleNoCompletionEnv QueueId.P0Queue
      (sampleReady.interrupt sampleSubmitEnv) rfl (by decide) rfl).2.2.1
        (by decide) (by decide) 0, rfl⟩⟩

/-- Claim C29: a call of `XAsu_UpdateQueueBufferNSendIpi` on a queue that
returns leaves the mailbox handle, the readiness flag, the binding of both
queues, the cursor of the other queue and the handler registration as they
were.  The shared memory it returns is the memory `M` that the client code
has written, or what the coprocessor made of `M`; and `M` differs from the
memory of before the call at most in the two status words of the slot under
the pre-call cursor and in the `IsCmdPresent` flag of that queue's channel:
the request and response payload buffers of every slot are the same, every
other slot is the same as a whole, and every other channel queue is the
same.  Beyond that the call changes only the cursor of the queue and the
completion flag. -/
theorem submission_frame (P : Platform) (E : SubmitEnv) (Fuel : Nat) (q : QueueId)
    (w : World) (r : Int × World)
    (h : XAsu_UpdateQueueBufferNSendIpi P E Fuel (some q) w = some r) :
    r.2.ClientInstance.MailboxPtr = w.ClientInstance.MailboxPtr ∧
    r.2.ClientInstance.IsReady = w.ClientInstance.IsReady ∧
    (∀ q1, (r.2.ClientInstance.queue q1).ChannelQueue
      = (w.ClientInstance.queue q1).ChannelQueue) ∧
    (∀ q1, q1 ≠ q → (r.2.ClientInstance.queue q1).NextFreeIndex
      = (w.ClientInstance.queue q1).NextFreeIndex) ∧
    r.2.RecvHandler = w.RecvHandler ∧
    ∃ M : SharedMem, (r.2.Shared = M ∨ r.2.Shared = E.Coprocessor M) ∧
      (∀ a i, ((M a).ChannelQueueBufs i).ReqBuf = ((w.Shared a).ChannelQueueBufs i).ReqBuf ∧
        ((M a).ChannelQueueBufs i).RespBuf = ((w.Shared a).ChannelQueueBufs i).RespBuf) ∧
      (∀ a i, (a ≠ (w.ClientInstance.queue q).ChannelQueue ∨
          i ≠ (w.ClientInstance.queue q).NextFreeIndex) →
        (M a).ChannelQueueBufs i = (w.Shared a).ChannelQueueBufs i) ∧
      (∀ a, a ≠ (w.ClientInstance.queue q).ChannelQueue → M a = w.Shared a) := by
  have hcl : r.2.ClientInstance = w.ClientInstance ∨
      ∃ n, r.2.ClientInstance = w.ClientInstance.setNextFreeIndex q n := by
    rcases XAsu_UpdateQueueBufferNSendIpi_ClientInstance P E Fuel (some q) w r h with
      h0 | ⟨q0, hq0, _, h1⟩
    · exact Or.inl h0
    · cases hq0
      exact Or.inr ⟨_, h1⟩
  have hmb : r.2.ClientInstance.MailboxPtr = w.ClientInstance.MailboxPtr := by
    rcases hcl with h0 | ⟨n, h0⟩
    · rw [h0]
    · rw [h0]; cases q <;> rfl
  have hbind : ∀ q1, (r.2.ClientInstance.queue q1).ChannelQueue
      = (w.ClientInstance.queue q1).ChannelQueue := by
    intro q1
    rcases hcl with h0 | ⟨n, h0⟩
    · rw [h0]
    · rw [h0]; cases q <;> cases q1 <;> rfl
  have hother : ∀ q1, q1 ≠ q → (r.2.ClientInstance.queue q1).NextFreeIndex
      = (w.ClientInstance.queue q1).NextFreeIndex := by
    intro q1 hq1
    rcases hcl with h0 | ⟨n, h0⟩
    · rw [h0]
    · rw [h0, XAsu_Client.queue_setNextFreeIndex_other _ _ _ _ (Ne.symm hq1)]
  obtain ⟨hrdy, hhand⟩ := XAsu_UpdateQueueBufferNSendIpi_IsReady P E Fuel (some q) w r h
  refine ⟨hmb, hrdy, hbind, hother, hhand, ?_⟩
  cases hs : XAsu_GetChannelQueueBuf P (some q) w with
  | none =>
    simp only [XAsu_UpdateQueueBufferNSendIpi, hs] at h
    cases h
    exact ⟨w.Shared, Or.inl rfl, fun _ _ => ⟨rfl, rfl⟩, fun _ _ _ => rfl, fun _ _ => rfl⟩
  | some s =>
    obtain ⟨_, hseq⟩ := XAsu_GetChannelQueueBuf_eq_some P q w s hs
    subst hseq
    obtain ⟨_, _, _, hm⟩ := XAsu_SendIpi_frame P E (XAsu_UpdateQueueBuffer P q
      { ChannelQueue := (w.ClientInstance.queue q).ChannelQueue
        Index := (w.ClientInstance.queue q).NextFreeIndex } w)
    refine ⟨(XAsu_UpdateQueueBuffer P q
      { ChannelQueue := (w.ClientInstance.queue q).ChannelQueue
        Index := (w.ClientInstance.queue q).NextFreeIndex } w).Shared, ?_,
      fun a i => XAsu_UpdateQueueBuffer_payload P q w a i,
      fun a i hai => XAsu_UpdateQueueBuffer_other_slot P q w a i hai,
      fun a ha => XAsu_UpdateQueueBuffer_shared_other P q w a ha⟩
    simp only [XAsu_UpdateQueueBufferNSendIpi, hs] at h
    split at h
    · cases h
      exact Or.inl hm
    · split at h
      · cases h
      · rename_i w1 hw
        cases h
        show w1.Shared = _ ∨ w1.Shared = _
        rw [← hm]
        exact XAsu_WaitRecvDone_shared_cases E Fuel 0 _ w1 hw

/-- Claim C29 at a concrete input: one submission on the high-priority queue
of the sample ready session. -/
theorem submission_frame_witness :
    XAsu_UpdateQueueBufferNSendIpi samplePlatform sampleSubmitEnv 1
        (some QueueId.P0Queue) sampleReady =
      some ((XAsu_UpdateQueueBufferNSendIpi samplePlatform sampleSubmitEnv 1
        (some QueueId.P0Queue) sampleReady).getD (1, sampleReady)) ∧
    ((XAsu_UpdateQueueBufferNSendIpi samplePlatform sampleSubmitEnv 1
      (some QueueId.P0Queue) sampleReady).getD (1, sampleReady)).2.ClientInstance.MailboxPtr
      = sampleReady.ClientInstance.MailboxPtr ∧
    ((XAsu_UpdateQueueBufferNSendIpi samplePlatform sampleSubmitEnv 1
      (some QueueId.P0Queue) sampleReady).getD (1, sampleReady)).2.ClientInstance.IsReady
      = sampleReady.ClientInstance.IsReady :=
  ⟨rfl,
    (submission_frame samplePlatform sampleSubmitEnv 1 QueueId.P0Queue sampleReady _ rfl).1,
    (submission_frame samplePlatform sampleSubmitEnv 1 QueueId.P0Queue sampleReady _ rfl).2.1⟩

/-- Claim C23, the code at a failing input: an initialised instance with the
one-byte modulus 5 and the one-byte exponent 1, and the one-byte input 7,
which is greater than the modulus.  `XSecure_RsaPrivateDecrypt_64Bit` returns
`XST_SUCCESS`, the status left in `Status` by the exponent check, and not
`XSECURE_RSA_DATA_VALUE_ERROR`; the hardware operation is not called. -/
theorem private_decrypt_accepts_larger_input :
    beValue (bytesAt sampleRsaWorld.Mem sampleRsa.ModAddr 1)
      < beValue (bytesAt sampleRsaWorld.Mem 0x200 1) ∧
    XSecure_IsNonZeroBuffer sampleRsaPlatform sampleRsa.ModExpoAddr 1 sampleRsaWorld
      = sampleRsaPlatform.XST_SUCCESS ∧
    (XSecure_RsaPrivateDecrypt_64Bit sampleRsaPlatform sampleRsaOperation (some sampleRsa)
      0x200 1 0x600 sampleRsaWorld).1 = sampleRsaPlatform.XST_SUCCESS ∧
    (XSecure_RsaPrivateDecrypt_64Bit sampleRsaPlatform sampleRsaOperation (some sampleRsa)
      0x200 1 0x600 sampleRsaWorld).1 ≠ sampleRsaPlatform.XSECURE_RSA_DATA_VALUE_ERROR ∧
    (XSecure_RsaPrivateDecrypt_64Bit sampleRsaPlatform sampleRsaOperation (some sampleRsa)
      0x200 1 0x600 sampleRsaWorld).2.Trace
      = [RsaEvent.XSecure_InByte64 0x100, RsaEvent.XSecure_InByte64 0x200] := by
  refine ⟨?_, ?_, ?_, ?_, ?_⟩
  · decide
  · decide
  · decide
  · decide
  · decide

/-- Claim C25: for an initialised instance, non-zero `Input`, `Result` and
`Size`, and an exponent with a non-zero byte among its `Size` bytes,
`XSecure_RsaPrivateDecrypt_64Bit` calls `XSecure_RsaOperation` if and only if
the `Size` input bytes, read as an unsigned integer with the most significant
byte first, are strictly less than the `Size` modulus bytes read the same
way.  It then calls it exactly once, with `Input`, `Result`,
`XSECURE_RSA_SIGN_DEC` and `Size`, and returns its status.  When the input
equals or exceeds the modulus the operation is not called and the memory,
the result buffer included, is as before. -/
theorem private_decrypt_operation_iff (R : RsaPlatform) (Op : RsaOperation)
    (Inst : XSecure_Rsa) (Input Size Result : Nat) (w : RsaWorld)
    (hst : Inst.RsaState = R.XSECURE_RSA_INITIALIZED)
    (hI : Input ≠ 0) (hRes : Result ≠ 0) (hS : Size ≠ 0)
    (hexp : ∃ i, i < Size ∧ w.Mem (Inst.ModExpoAddr + i) % 256 ≠ 0) :
    (((XSecure_RsaPrivateDecrypt_64Bit R Op (some Inst) Input Size Result w).2.Trace).filter
        RsaEvent.isOperation ≠ w.Trace.filter RsaEvent.isOperation ↔
      beValue (bytesAt w.Mem Input Size) < beValue (bytesAt w.Mem Inst.ModAddr Size)) ∧
    (beValue (bytesAt w.Mem Input Size) < beValue (bytesAt w.Mem Inst.ModAddr Size) →
      ((XSecure_RsaPrivateDecrypt_64Bit R Op (some Inst) Input Size Result w).2.Trace).filter
          RsaEvent.isOperation
        = w.Trace.filter RsaEvent.isOperation
          ++ [RsaEvent.XSecure_RsaOperation Input Result R.XSECURE_RSA_SIGN_DEC Size] ∧
      (XSecure_RsaPrivateDecrypt_64Bit R Op (some Inst) Input Size Result w).1
        = (Op Inst Input Result R.XSECURE_RSA_SIGN_DEC Size w.Mem).1 ∧
      (XSecure_RsaPrivateDecrypt_64Bit R Op (some Inst) Input Size Result w).2.Mem
        = (Op Inst Input Result R.XSECURE_RSA_SIGN_DEC Size w.Mem).2) ∧
    (beValue (bytesAt w.Mem Inst.ModAddr Size) ≤ beValue (bytesAt w.Mem Input Size) →
      ((XSecure_RsaPrivateDecrypt_64Bit R Op (some Inst) Input Size Result w).2.Trace).filter
          RsaEvent.isOperation = w.Trace.filter RsaEvent.isOperation ∧
      (XSecure_RsaPrivateDecrypt_64Bit R Op (some Inst) Input Size Result w).2.Mem = w.Mem) := by
  have hnz : XSecure_IsNonZeroBuffer R Inst.ModExpoAddr Size w = R.XST_SUCCESS := by
    unfold XSecure_IsNonZeroBuffer
    apply XSecure_IsNonZeroBuffer.loop_nonzero
    obtain ⟨i, hi, hne⟩ := hexp
    exact ⟨i, hi, by rw [Nat.zero_add]; exact hne⟩
  have hrun : XSecure_RsaPrivateDecrypt_64Bit R Op (some Inst) Input Size Result w =
      XSecure_RsaPrivateDecrypt_64Bit.loop R Op Inst Input Size Result Inst.ModAddr
        R.XST_SUCCESS Size 0 w := by
    simp [XSecure_RsaPrivateDecrypt_64Bit, hst, hI, hRes, hS, hnz]
  have hloop := XSecure_RsaPrivateDecrypt_64Bit.loop_spec R Op Inst Input Size Result
    Inst.ModAddr R.XST_SUCCESS Size 0 w
  simp only [Nat.zero_add] at hloop
  rw [hrun]
  obtain ⟨hlt, hge⟩ := hloop
  refine ⟨⟨fun hne => ?_, fun h => ?_⟩, fun h => ?_, fun h => ?_⟩
  · by_contra hnot
    exact hne (hge (Nat.le_of_not_lt hnot)).2.2
  · rw [(hlt h).2.2]
    intro hc
    have := congrArg List.length hc
    simp at this
  · exact ⟨(hlt h).2.2, (hlt h).1, (hlt h).2.1⟩
  · exact ⟨(hge h).2.2, (hge h).2.1⟩

/-- Claim C25 at a concrete input: the sample instance with the one-byte
modulus 5, and the one-byte input 0 found at address `0x700`, which is less
than the modulus. -/
theorem private_decrypt_operation_iff_witness :
    (sampleRsa.RsaState = sampleRsaPlatform.XSECURE_RSA_INITIALIZED ∧
      beValue (bytesAt sampleRsaWorld.Mem 0x700 1)
        < beValue (bytesAt sampleRsaWorld.Mem sampleRsa.ModAddr 1)) ∧
    ((XSecure_RsaPrivateDecrypt_64Bit sampleRsaPlatform sampleRsaOperation (some sampleRsa)
        0x700 1 0x600 sampleRsaWorld).2.Trace).filter RsaEvent.isOperation
      = sampleRsaWorld.Trace.filter RsaEvent.isOperation
        ++ [RsaEvent.XSecure_RsaOperation 0x700 0x600
          sampleRsaPlatform.XSECURE_RSA_SIGN_DEC 1] :=
  ⟨⟨rfl, by decide⟩,
    ((private_decrypt_operation_iff sampleRsaPlatform sampleRsaOperation sampleRsa
      0x700 1 0x600 sampleRsaWorld rfl (by decide) (by decide) (by decide)
      ⟨0, by decide, by decide⟩).2.1 (by decide)).1⟩

/-- Claim C24: on a non-zero signature address, a non-zero hash address and a hash
length equal to `XSECURE_HASH_TYPE_SHA3`, with the pad bytes `0x00`, `0x01`
and `0xFF` and `XST_FAILURE` distinct from `XST_SUCCESS`,
`XSecure_RsaSignVerification_64Bit` returns `XST_SUCCESS` exactly when the
bytes from `Signature` on are `0x00`, `0x01`, `PadLength` times `0xFF`,
`0x00`, the `XSECURE_RSA_T_PAD_LENGTH` bytes of the table and the `HashLen`
bytes at `Hash`, where `PadLength` is `XSECURE_FSBL_SIG_SIZE -
XSECURE_RSA_BYTE_PAD_LENGTH - XSECURE_RSA_T_PAD_LENGTH - HashLen` in 32-bit
arithmetic; it returns `XST_FAILURE` otherwise, and it leaves the memory as
it was.  When `Signature` or `Hash` is 0 or `HashLen` is not
`XSECURE_HASH_TYPE_SHA3` it returns `XSECURE_RSA_INVALID_PARAM` and reads no
byte: the log of calls is the one it found. -/
theorem XSecure_RsaSignVerification_64Bit_pkcs (R : RsaPlatform)
    (Signature Hash HashLen PadLength : Nat) (w : RsaWorld)
    (hS64 : Signature < 18446744073709551616)
    (hne : R.XST_FAILURE ≠ R.XST_SUCCESS)
    (hP1 : R.XSECURE_RSA_BYTE_PAD1 = 0x00)
    (hP2 : R.XSECURE_RSA_BYTE_PAD2 = 0x01)
    (hP3 : R.XSECURE_RSA_BYTE_PAD3 = 0xFF)
    (hPad : PadLength = sub32 (sub32 (sub32 R.XSECURE_FSBL_SIG_SIZE
      R.XSECURE_RSA_BYTE_PAD_LENGTH) R.XSECURE_RSA_T_PAD_LENGTH) HashLen) :
    (Signature ≠ 0 ∧ Hash ≠ 0 ∧ HashLen = R.XSECURE_HASH_TYPE_SHA3 →
      ((XSecure_RsaSignVerification_64Bit R Signature Hash HashLen w).1 = R.XST_SUCCESS ↔
        bytesAt w.Mem Signature (2 + PadLength + 1 + R.XSECURE_RSA_T_PAD_LENGTH + HashLen)
          = [0x00, 0x01] ++ List.replicate PadLength 0xFF ++ [0x00]
            ++ (List.range R.XSECURE_RSA_T_PAD_LENGTH).map R.XSecure_RsaGetTPadding
            ++ bytesAt w.Mem Hash HashLen) ∧
      ((XSecure_RsaSignVerification_64Bit R Signature Hash HashLen w).1 ≠ R.XST_SUCCESS →
        (XSecure_RsaSignVerification_64Bit R Signature Hash HashLen w).1 = R.XST_FAILURE) ∧
      (XSecure_RsaSignVerification_64Bit R Signature Hash HashLen w).2.Mem = w.Mem) ∧
    (Signature = 0 ∨ Hash = 0 ∨ HashLen ≠ R.XSECURE_HASH_TYPE_SHA3 →
      (XSecure_RsaSignVerification_64Bit R Signature Hash HashLen w).1
          = R.XSECURE_RSA_INVALID_PARAM ∧
        (XSecure_RsaSignVerification_64Bit R Signature Hash HashLen w).2 = w) := by
  refine ⟨fun hv => ?_, fun hi => ?_⟩
  · obtain ⟨hS, hH, hL⟩ := hv
    obtain ⟨hM, hyes, hno⟩ :=
      XSecure_RsaSignVerification_64Bit_valid R Signature Hash HashLen w hS hH hL
    rw [← hPad] at hyes hno
    have henc := bytesAt_encoding_iff w.Mem Signature PadLength R.XSECURE_RSA_T_PAD_LENGTH
      HashLen 0x00 0x01 0xFF R.XSecure_RsaGetTPadding (bytesAt w.Mem Hash HashLen) hS64
    have hhash : bytesAt w.Mem (add64 (add64 (add64 (add64 (add64 Signature 1) 1) PadLength) 1)
        R.XSECURE_RSA_T_PAD_LENGTH) HashLen = bytesAt w.Mem Hash HashLen ↔
        ∀ i, i < HashLen →
          w.Mem (add64 (add64 (add64 (add64 (add64 (add64 Signature 1) 1) PadLength) 1)
            R.XSECURE_RSA_T_PAD_LENGTH) i) % 256 = w.Mem (add64 Hash i) % 256 :=
      bytesAt_eq_map w.Mem _ HashLen (fun i => w.Mem (add64 Hash i) % 256)
    rw [hhash] at henc
    rw [hP1, hP2, hP3] at hyes hno
    rw [henc]
    by_cases hc : (w.Mem Signature % 256 = 0x00 ∧
        w.Mem (add64 Signature 1) % 256 = 0x01 ∧
        (∀ i, i < PadLength →
          w.Mem (add64 (add64 (add64 Signature 1) 1) i) % 256 = 0xFF) ∧
        w.Mem (add64 (add64 (add64 Signature 1) 1) PadLength) % 256 = 0x00 ∧
        (∀ i, i < R.XSECURE_RSA_T_PAD_LENGTH →
          w.Mem (add64 (add64 (add64 (add64 (add64 Signature 1) 1) PadLength) 1) i) % 256
            = R.XSecure_RsaGetTPadding i) ∧
        (∀ i, i < HashLen →
          w.Mem (add64 (add64 (add64 (add64 (add64 (add64 Signature 1) 1) PadLength) 1)
            R.XSECURE_RSA_T_PAD_LENGTH) i) % 256 = w.Mem (add64 Hash i) % 256))
    · exact ⟨⟨fun _ => hc, fun _ => hyes hc⟩, fun h => absurd (hyes hc) h, hM⟩
    · refine ⟨⟨fun h => ?_, fun h => absurd h hc⟩, fun _ => hno hc, hM⟩
      rw [hno hc] at h
      exact absurd h hne
  · unfold XSecure_RsaSignVerification_64Bit
    rw [if_pos hi]
    exact ⟨rfl, rfl⟩

/-- Claim C24 at a concrete input: the sample platform, whose signature has
eight bytes, with the signature `00 01 FF 00 30 41 AA BB` at `0x400` and the
hash `AA BB` at `0x500`; the verification returns `XST_SUCCESS`. -/
theorem XSecure_RsaSignVerification_64Bit_pkcs_witness :
    (sampleRsaPlatform.XST_FAILURE ≠ sampleRsaPlatform.XST_SUCCESS ∧
      (XSecure_RsaSignVerification_64Bit sampleRsaPlatform 0x400 0x500 2 sampleRsaWorld).1
        = sampleRsaPlatform.XST_SUCCESS) ∧
    ((0x400 ≠ 0 ∧ 0x500 ≠ 0 ∧ 2 = sampleRsaPlatform.XSECURE_HASH_TYPE_SHA3 →
      ((XSecure_RsaSignVerification_64Bit sampleRsaPlatform 0x400 0x500 2 sampleRsaWorld).1
          = sampleRsaPlatform.XST_SUCCESS ↔
        bytesAt sampleRsaWorld.Mem 0x400
            (2 + 1 + 1 + sampleRsaPlatform.XSECURE_RSA_T_PAD_LENGTH + 2)
          = [0x00, 0x01] ++ List.replicate 1 0xFF ++ [0x00]
            ++ (List.range sampleRsaPlatform.XSECURE_RSA_T_PAD_LENGTH).map
              sampleRsaPlatform.XSecure_RsaGetTPadding
            ++ bytesAt sampleRsaWorld.Mem 0x500 2) ∧
      ((XSecure_RsaSignVerification_64Bit sampleRsaPlatform 0x400 0x500 2 sampleRsaWorld).1
          ≠ sampleRsaPlatform.XST_SUCCESS →
        (XSecure_RsaSignVerification_64Bit sampleRsaPlatform 0x400 0x500 2 sampleRsaWorld).1
          = sampleRsaPlatform.XST_FAILURE) ∧
      (XSecure_RsaSignVerification_64Bit sampleRsaPlatform 0x400 0x500 2 sampleRsaWorld).2.Mem
        = sampleRsaWorld.Mem) ∧
    (0x400 = 0 ∨ 0x500 = 0 ∨ 2 ≠ sampleRsaPlatform.XSECURE_HASH_TYPE_SHA3 →
      (XSecure_RsaSignVerification_64Bit sampleRsaPlatform 0x400 0x500 2 sampleRsaWorld).1
          = sampleRsaPlatform.XSECURE_RSA_INVALID_PARAM ∧
        (XSecure_RsaSignVerification_64Bit sampleRsaPlatform 0x400 0x500 2 sampleRsaWorld).2
          = sampleRsaWorld)) :=
  ⟨⟨by decide, by decide⟩,
    XSecure_RsaSignVerification_64Bit_pkcs sampleRsaPlatform 0x400 0x500 2 1 sampleRsaWorld
      (by decide) (by decide) rfl rfl rfl (by decide)⟩

end XAsu
